import Mathlib

/-!
# Verification of the DuckSudoku solving core (`sdk_board.py`)

Shallow embedding of the tile/board data model and the solver operations of
`src/sdk_board.py`.  A Python set of symbols is modelled as a duplicate-free
`List Symb` (set membership, difference, discard and `add` map to the
corresponding list operations; all operations of the source preserve
freedom from duplicates, which the invariant `Tile.good` records).  The
mutable tile matrix is a list of lists threaded through each operation, and
the observer notifications (`notify_all`) are an explicit event log.  The
unbounded `while` loop of `propagate` and the recursion of `solve` are
modelled with explicit fuel; sufficiency of the fuel on well-formed boards
is proved separately.
-/

/-- Symbols are single characters, as produced by indexing a Python string. -/
abbrev Symb := Char

/-- Modelled from the spec: `sdk_config.py` is not in the sources.  The spec
fixes the alphabet as the nine digit characters `'1'`–`'9'` and the unknown
marker as `'.'` (§3 "Symbol", §6 "Serialized grid format"). -/
def UNKNOWN : Symb := '.'

/-- Modelled from the spec: the fixed alphabet of 9 distinct symbols. -/
def CHOICES : List Symb := ['1', '2', '3', '4', '5', '6', '7', '8', '9']

/-- Modelled from the spec: 9×9 board, 3×3 blocks. -/
def NROWS : Nat := 9

def NCOLS : Nat := 9

def ROOT : Nat := 3

/-- `set(CHOICES)`: the full candidate alphabet. -/
def fullCandidates : List Symb := CHOICES

/-- `EventKind` from `sdk_board.py`. -/
inductive EventKind where
  | TileChanged
  | TileGuessed
deriving DecidableEq, Repr

/-- A `TileEvent`: the notification sent to listeners.  Observers read the
tile's coordinate and (current) value; we record them at emission time. -/
structure TileEvent where
  row : Nat
  col : Nat
  value : Symb
  kind : EventKind
deriving DecidableEq, Repr

/-- `Tile`: one cell of the grid.  `listeners` is external (observers are a
pure side channel); the observable effect of `notify_all` is recorded in the
event lists returned by the operations. -/
structure Tile where
  row : Nat
  col : Nat
  value : Symb
  candidates : List Symb
deriving DecidableEq, Repr

instance : Inhabited Tile := ⟨⟨0, 0, UNKNOWN, fullCandidates⟩⟩

/-- `Tile.set_value`.  `if value in CHOICES` sets `value` and collapses
`candidates` to the singleton; anything else (not only `UNKNOWN`) resets the
tile to unknown with the full candidate alphabet.  Always notifies once. -/
def Tile.set_value (t : Tile) (value : Symb) : Tile × List TileEvent :=
  let t' := if value ∈ CHOICES then { t with value := value, candidates := [value] }
            else { t with value := UNKNOWN, candidates := fullCandidates }
  (t', [⟨t'.row, t'.col, t'.value, EventKind.TileChanged⟩])

/-- `Tile.__init__`: the `assert value == UNKNOWN or value in CHOICES` is
modelled by returning `none` when the assertion fails; otherwise the tile is
initialised through `set_value` (whose construction-time notification goes to
the empty listener list). -/
def Tile.init (row col : Nat) (value : Symb) : Option Tile :=
  if value = UNKNOWN ∨ value ∈ CHOICES then
    some (Tile.set_value ⟨row, col, UNKNOWN, fullCandidates⟩ value).1
  else
    none

/-- `Tile.could_be`. -/
def Tile.could_be (t : Tile) (value : Symb) : Bool := value ∈ t.candidates

/-- `Tile.remove_candidates`.  `candidates.difference(used_values)` is the
filter below; comparing the difference with the original for set equality
coincides with list equality, because a filter removes every occurrence of a
dropped element.  Returns the updated tile, the progress flag, and the
emitted notifications (the nested `set_value` notification first, then
`remove_candidates`' own, matching the source's order).  `pop()` on the
one-element set is modelled by `headI`. -/
def Tile.remove_candidates (t : Tile) (used_values : List Symb) :
    Tile × Bool × List TileEvent :=
  let new_candidates := t.candidates.filter (fun c => c ∉ used_values)
  if new_candidates = t.candidates then
    (t, false, [])
  else
    let t1 : Tile := { t with candidates := new_candidates }
    if new_candidates.length = 1 then
      let (t2, evs) := t1.set_value new_candidates.headI
      (t2, true, evs ++ [⟨t2.row, t2.col, t2.value, EventKind.TileChanged⟩])
    else
      (t1, true, [⟨t1.row, t1.col, t1.value, EventKind.TileChanged⟩])

/-- `Board`: the 9×9 tile matrix plus the accumulated notification log. -/
structure Board where
  tiles : List (List Tile)
  events : List TileEvent
deriving DecidableEq, Repr

/-- Reading `self.tiles[row][col]` (total, with a default tile; all uses in
the source are in range on well-formed boards). -/
def Board.getTile (b : Board) (rc : Nat × Nat) : Tile :=
  (b.tiles.getD rc.1 []).getD rc.2 default

/-- Writing `self.tiles[row][col]` in the threaded-state model. -/
def Board.putTile (b : Board) (rc : Nat × Nat) (t : Tile) : Board :=
  { b with tiles := b.tiles.set rc.1 ((b.tiles.getD rc.1 []).set rc.2 t) }

/-- Appending freshly emitted notifications to the board's event log. -/
def Board.addEvents (b : Board) (evs : List TileEvent) : Board :=
  { b with events := b.events ++ evs }

/-- The 9 column groups of `build_groups` (fixed column, varying row). -/
def colGroups : List (List (Nat × Nat)) :=
  (List.range NCOLS).map (fun col_idx => (List.range NROWS).map (fun row_idx => (row_idx, col_idx)))

/-- The 9 row groups of `build_groups`. -/
def rowGroups : List (List (Nat × Nat)) :=
  (List.range NROWS).map (fun row_idx => (List.range NCOLS).map (fun col_idx => (row_idx, col_idx)))

/-- The 9 block groups of `build_groups`: outer loop over block columns, then
block rows, then cell rows, then cell columns, with the source's literal
stride 3. -/
def blockGroups : List (List (Nat × Nat)) :=
  ((List.range ROOT).map (fun block_column_idx =>
    (List.range ROOT).map (fun block_row_idx =>
      ((List.range ROOT).map (fun row_idx =>
        (List.range ROOT).map (fun col_idx =>
          (block_row_idx * 3 + row_idx, block_column_idx * 3 + col_idx)))).flatten))).flatten

/-- `build_groups`: columns, then rows, then blocks.  The groups hold
(non-owning) coordinates into the tile matrix; they are computed once at
construction and never depend on the tile states, so they are a constant. -/
def Board.groups : List (List (Nat × Nat)) := colGroups ++ rowGroups ++ blockGroups

/-- `Board.__init__`: 81 tiles at fixed coordinates, all unknown. -/
def Board.init : Board :=
  { tiles := (List.range NROWS).map (fun row =>
      (List.range NCOLS).map (fun col =>
        ((⟨row, col, UNKNOWN, fullCandidates⟩ : Tile).set_value UNKNOWN).1)),
    events := [] }

/-- The body of `set_tiles`' inner loop: one `tile.set_value(...)` call at
`(row_num, col_num)` reading the grid entry.  (Out-of-range reads of
`tile_values`, an `IndexError` in Python, are given a total default; all
claims use well-shaped grids.) -/
def Board.setTileStep (tile_values : List (List Symb)) (row_num : Nat)
    (b : Board) (col_num : Nat) : Board :=
  let res := (b.getTile (row_num, col_num)).set_value
    ((tile_values.getD row_num []).getD col_num UNKNOWN)
  (b.putTile (row_num, col_num) res.1).addEvents res.2

/-- One row of `set_tiles`' double loop. -/
def Board.setRowStep (tile_values : List (List Symb)) (b : Board) (row_num : Nat) : Board :=
  (List.range NCOLS).foldl (Board.setTileStep tile_values row_num) b

/-- `Board.set_tiles`: set every tile's value from a 9×9 grid of symbols. -/
def Board.set_tiles (b : Board) (tile_values : List (List Symb)) : Board :=
  (List.range NROWS).foldl (Board.setRowStep tile_values) b

/-- `Board.as_list`: the row-major serialized grid.  A Python row string is
modelled as its list of characters. -/
def Board.as_list (b : Board) : List (List Symb) :=
  b.tiles.map (fun row => row.map (fun tile => tile.value))

/-- The scan of one group inside `is_consistent`: threads the `used_symbols`
list; `none` records the early `return False`. -/
def Board.groupScan (b : Board) (g : List (Nat × Nat)) : Option (List Symb) :=
  g.foldl (fun acc rc =>
    match acc with
    | none => none
    | some used_symbols =>
      let v := (b.getTile rc).value
      if v ∈ CHOICES then
        if v ∈ used_symbols then none else some (v :: used_symbols)
      else some used_symbols) (some [])

/-- `Board.is_consistent`. -/
def Board.is_consistent (b : Board) : Bool :=
  Board.groups.all (fun g => (b.groupScan g).isSome)

/-- One iteration of `naked_single`'s outer loop (one group): collect the
placed symbols of the group (`set.add` is insert-if-absent), then call
`remove_candidates` on every tile of the group (the source does not restrict
this to unknown tiles), OR-ing the progress results. -/
def Board.nakedGroupStep (acc : Board × Bool) (g : List (Nat × Nat)) : Board × Bool :=
  let group_symbols : List Symb := g.foldl (fun s rc =>
    let t := acc.1.getTile rc
    if t.value ∈ CHOICES then (if t.value ∈ s then s else t.value :: s) else s) []
  g.foldl (fun acc2 rc =>
    let t := acc2.1.getTile rc
    let (t', remove_result, evs) := t.remove_candidates group_symbols
    ((acc2.1.putTile rc t').addEvents evs, acc2.2 || remove_result)) acc

/-- `Board.naked_single`: the outer loop over all groups. -/
def Board.naked_single (b : Board) : Board × Bool :=
  Board.groups.foldl Board.nakedGroupStep (b, false)

/-- The first loop of `hidden_single` over one group: builds `leftovers`
(all choices minus values seen) while discarding each tile's value from every
other tile's candidate set (`other_tile is not tile` is coordinate
inequality: board tiles are distinct objects at distinct coordinates). -/
def Board.hiddenEliminate (b : Board) (g : List (Nat × Nat)) : Board × List Symb :=
  g.foldl (fun acc rc =>
    let v := (acc.1.getTile rc).value
    let leftovers := if v ∈ acc.2 then acc.2.erase v else acc.2
    let b := g.foldl (fun b rc2 =>
      if rc2 ≠ rc then
        let t2 := b.getTile rc2
        b.putTile rc2 { t2 with candidates := t2.candidates.erase v }
      else b) acc.1
    (b, leftovers)) (b, CHOICES)

/-- The body of `hidden_single`'s second loop for one leftover `value`:
count the unknown tiles of the group that still hold `value` as a candidate
and, if there is exactly one, set that tile's value *directly* (plain field
assignment in the source: no `set_value`, no notification). -/
def Board.hiddenAssign (b : Board) (g : List (Nat × Nat)) (value : Symb) : Board :=
  let candidate_tiles := g.filter (fun rc => (b.getTile rc).value = UNKNOWN)
  let count := (candidate_tiles.filter (fun rc => value ∈ (b.getTile rc).candidates)).length
  if count = 1 then
    candidate_tiles.foldl (fun b rc =>
      let t := b.getTile rc
      if value ∈ t.candidates then
        b.putTile rc { t with value := value, candidates := [value] }
      else b) b
  else b

/-- One iteration of `hidden_single`'s outer loop (one group): the
elimination scan, then the per-leftover-value forced placements. -/
def Board.hiddenGroupStep (b : Board) (g : List (Nat × Nat)) : Board :=
  let (b1, leftovers) := b.hiddenEliminate g
  leftovers.foldl (fun b2 v => b2.hiddenAssign g v) b1

/-- `Board.hidden_single`: the outer loop over all groups. -/
def Board.hidden_single (b : Board) : Board :=
  Board.groups.foldl Board.hiddenGroupStep b

/-- `Board.min_choice_tile`: row-major scan for the unknown tile with the
fewest candidates; strict `<` keeps the first tile found on ties.  `None`
when no unknown tile exists. -/
def Board.min_choice_tile (b : Board) : Option (Nat × Nat) :=
  (((List.range NROWS).map (fun r => (List.range NCOLS).map (fun c => (r, c)))).flatten.foldl
    (fun acc rc =>
      let t := b.getTile rc
      if t.value = UNKNOWN then
        match acc with
        | none => some (rc, t.candidates.length)
        | some (_, min_candidates) =>
          if t.candidates.length < min_candidates then some (rc, t.candidates.length) else acc
      else acc) none).map Prod.fst

/-- `Board.is_complete`: every tile (reached through the groups, as in the
source) has a placed value. -/
def Board.is_complete (b : Board) : Bool :=
  Board.groups.all (fun g => g.all (fun rc => (b.getTile rc).value ∈ CHOICES))

/-- Total candidate-set size across the board (the termination measure named
by the spec for the propagation loop). -/
def Board.totalCand (b : Board) : Nat :=
  ∑ p : Fin 9 × Fin 9, (b.getTile ((p.1 : Nat), (p.2 : Nat))).candidates.length

/-- The body of `Board.propagate`'s `while progress` loop, with explicit
fuel: `naked_single`, then (unconditionally, as in the source)
`hidden_single`, looping while `naked_single` reported progress. -/
def Board.propagateAux : Nat → Board → Board
  | 0, b => b
  | fuel + 1, b =>
    let res := b.naked_single
    let b2 := res.1.hidden_single
    if res.2 then Board.propagateAux fuel b2 else b2

/-- `Board.propagate`.  The source's unbounded loop is run with fuel
`totalCand + 1`, proved sufficient on well-formed boards. -/
def Board.propagate (b : Board) : Board :=
  Board.propagateAux (b.totalCand + 1) b

/-- `min_tile.set_value(candidate)` as a board step (tile update plus the
emitted notifications). -/
def Board.setTileValue (b : Board) (rc : Nat × Nat) (v : Symb) : Board :=
  let (t', evs) := (b.getTile rc).set_value v
  (b.putTile rc t').addEvents evs

/-- The `for candidate in min_tile.candidates` loop of `solve`: try a
candidate, recurse; on failure restore the saved serialized state with
`set_tiles` and continue.  (The loop iterates over the set as it stood when
the loop began: the first `set_value` rebinds `min_tile.candidates` to a new
object, so later in-place mutations never touch the iterated set.) -/
def Board.tryCandidates (recur : Board → Board × Bool) (saved_state : List (List Symb))
    (rc : Nat × Nat) : List Symb → Board → Board × Bool
  | [], b => (b, false)
  | candidate :: rest, b =>
    let b1 := b.setTileValue rc candidate
    let res := recur b1
    if res.2 then (res.1, true)
    else Board.tryCandidates recur saved_state rc rest (res.1.set_tiles saved_state)

/-- The body of one `solve` frame, parametric in the recursive call:
propagate, succeed if complete, fail if inconsistent, otherwise snapshot
`as_list`, pick the minimum-candidate tile and try its candidates. -/
def Board.solveStep (recur : Board → Board × Bool) (b : Board) : Board × Bool :=
  let bp := b.propagate
  if bp.is_complete then (bp, true)
  else if !bp.is_consistent then (bp, false)
  else
    let saved_state := bp.as_list
    match bp.min_choice_tile with
    | none => (bp, false)
    | some rc =>
      Board.tryCandidates recur saved_state rc ((bp.getTile rc).candidates) bp

/-- `Board.solve` with explicit recursion fuel. -/
def Board.solveAux : Nat → Board → Board × Bool
  | 0, b => (b, false)
  | fuel + 1, b => Board.solveStep (Board.solveAux fuel) b

/-- `Board.solve`: the recursion depth is bounded by the number of tiles
plus one, so fuel `NROWS * NCOLS + 1` is never exhausted on well-formed
boards. -/
def Board.solve (b : Board) : Board × Bool :=
  Board.solveAux (NROWS * NCOLS + 1) b

/-- Shape well-formedness: a 9×9 tile matrix. -/
def Board.wellFormed (b : Board) : Prop :=
  b.tiles.length = NROWS ∧ ∀ row ∈ b.tiles, row.length = NCOLS

/-- Data-model tile invariant actually maintained by the code: candidates are
a duplicate-free subset of the alphabet (a Python set of symbols), and the
value is either unknown or a symbol. -/
def Tile.good (t : Tile) : Prop :=
  t.candidates.Nodup ∧ t.candidates ⊆ CHOICES ∧ (t.value = UNKNOWN ∨ t.value ∈ CHOICES)

/-- A well-formed board whose tiles all satisfy `Tile.good`. -/
def Board.good (b : Board) : Prop :=
  b.wellFormed ∧ ∀ r < NROWS, ∀ c < NCOLS, (b.getTile (r, c)).good

instance : DecidablePred Board.wellFormed := fun b => by
  unfold Board.wellFormed; infer_instance

instance : DecidablePred Tile.good := fun t => by
  unfold Tile.good; infer_instance

instance : DecidablePred Board.good := fun b => by
  unfold Board.good; infer_instance

-- Derived predicates used by the invariant analysis -------------------------

/-- The tiles-only part of `Board.good` (shape handled separately). -/
def Board.goodTiles (b : Board) : Prop :=
  ∀ r < NROWS, ∀ c < NCOLS, (b.getTile (r, c)).good

/-- Invariant carried through a naked-single pass, relative to the starting
board `b0`: shape and tile goodness are preserved, candidate sets only
shrink, and the progress flag certifies a strict decrease of the total
candidate count. -/
def NakedInv (b0 : Board) (bp : Board × Bool) : Prop :=
  bp.1.wellFormed ∧ bp.1.goodTiles ∧
    (∀ r < NROWS, ∀ c < NCOLS,
      (bp.1.getTile (r, c)).candidates ⊆ (b0.getTile (r, c)).candidates) ∧
    bp.1.totalCand ≤ b0.totalCand ∧
    (bp.2 = true → bp.1.totalCand < b0.totalCand)

/-- Invariant carried through a hidden-single pass, relative to the starting
board `b0`: shape and goodness preserved, candidate sets only shrink, total
candidate count does not increase. -/
def HiddenInv (b0 b : Board) : Prop :=
  b.wellFormed ∧ b.goodTiles ∧
    (∀ r < NROWS, ∀ c < NCOLS,
      (b.getTile (r, c)).candidates ⊆ (b0.getTile (r, c)).candidates) ∧
    b.totalCand ≤ b0.totalCand

/-- From the wording of the spec's propagation-loop contract (used only to
compare against the code): run naked-single; only when it reports progress
additionally run hidden-single; stop without running hidden-single on the
no-progress pass. -/
def Board.propagateSpecAux : Nat → Board → Board
  | 0, b => b
  | fuel + 1, b =>
    let res := b.naked_single
    if res.2 then Board.propagateSpecAux fuel res.1.hidden_single else res.1

/-- The spec-described propagation loop (same fuel discipline as
`Board.propagate`). -/
def Board.propagateSpec (b : Board) : Board :=
  Board.propagateSpecAux (b.totalCand + 1) b

instance : DecidablePred Board.goodTiles := fun b => by
  unfold Board.goodTiles; infer_instance

-- Literal-board fixtures for concrete evaluations --------------------------

set_option maxRecDepth 8000

/-- Compact tile literal constructor (used by the board literals below). -/
def T (r c : Nat) (v : Symb) (cs : List Symb) : Tile := ⟨r, c, v, cs⟩

/-- Compact tile-changed event literal constructor. -/
def E (r c : Nat) (v : Symb) : TileEvent := ⟨r, c, v, EventKind.TileChanged⟩

/-- Load a serialized grid into a fresh board, discarding the
construction-time notifications (no listeners are registered yet). -/
def mkBoard (g : List (List Symb)) : Board :=
  { Board.init.set_tiles g with events := [] }

def GRP0 : List (Nat × Nat) := [(0, 0), (1, 0), (2, 0), (3, 0), (4, 0), (5, 0), (6, 0), (7, 0), (8, 0)]

def GRP1 : List (Nat × Nat) := [(0, 1), (1, 1), (2, 1), (3, 1), (4, 1), (5, 1), (6, 1), (7, 1), (8, 1)]

def GRP2 : List (Nat × Nat) := [(0, 2), (1, 2), (2, 2), (3, 2), (4, 2), (5, 2), (6, 2), (7, 2), (8, 2)]

def GRP3 : List (Nat × Nat) := [(0, 3), (1, 3), (2, 3), (3, 3), (4, 3), (5, 3), (6, 3), (7, 3), (8, 3)]

def GRP4 : List (Nat × Nat) := [(0, 4), (1, 4), (2, 4), (3, 4), (4, 4), (5, 4), (6, 4), (7, 4), (8, 4)]

def GRP5 : List (Nat × Nat) := [(0, 5), (1, 5), (2, 5), (3, 5), (4, 5), (5, 5), (6, 5), (7, 5), (8, 5)]

def GRP6 : List (Nat × Nat) := [(0, 6), (1, 6), (2, 6), (3, 6), (4, 6), (5, 6), (6, 6), (7, 6), (8, 6)]

def GRP7 : List (Nat × Nat) := [(0, 7), (1, 7), (2, 7), (3, 7), (4, 7), (5, 7), (6, 7), (7, 7), (8, 7)]

def GRP8 : List (Nat × Nat) := [(0, 8), (1, 8), (2, 8), (3, 8), (4, 8), (5, 8), (6, 8), (7, 8), (8, 8)]

def GRP9 : List (Nat × Nat) := [(0, 0), (0, 1), (0, 2), (0, 3), (0, 4), (0, 5), (0, 6), (0, 7), (0, 8)]

def GRP10 : List (Nat × Nat) := [(1, 0), (1, 1), (1, 2), (1, 3), (1, 4), (1, 5), (1, 6), (1, 7), (1, 8)]

def GRP11 : List (Nat × Nat) := [(2, 0), (2, 1), (2, 2), (2, 3), (2, 4), (2, 5), (2, 6), (2, 7), (2, 8)]

def GRP12 : List (Nat × Nat) := [(3, 0), (3, 1), (3, 2), (3, 3), (3, 4), (3, 5), (3, 6), (3, 7), (3, 8)]

def GRP13 : List (Nat × Nat) := [(4, 0), (4, 1), (4, 2), (4, 3), (4, 4), (4, 5), (4, 6), (4, 7), (4, 8)]

def GRP14 : List (Nat × Nat) := [(5, 0), (5, 1), (5, 2), (5, 3), (5, 4), (5, 5), (5, 6), (5, 7), (5, 8)]

def GRP15 : List (Nat × Nat) := [(6, 0), (6, 1), (6, 2), (6, 3), (6, 4), (6, 5), (6, 6), (6, 7), (6, 8)]

def GRP16 : List (Nat × Nat) := [(7, 0), (7, 1), (7, 2), (7, 3), (7, 4), (7, 5), (7, 6), (7, 7), (7, 8)]

def GRP17 : List (Nat × Nat) := [(8, 0), (8, 1), (8, 2), (8, 3), (8, 4), (8, 5), (8, 6), (8, 7), (8, 8)]

def GRP18 : List (Nat × Nat) := [(0, 0), (0, 1), (0, 2), (1, 0), (1, 1), (1, 2), (2, 0), (2, 1), (2, 2)]

def GRP19 : List (Nat × Nat) := [(3, 0), (3, 1), (3, 2), (4, 0), (4, 1), (4, 2), (5, 0), (5, 1), (5, 2)]

def GRP20 : List (Nat × Nat) := [(6, 0), (6, 1), (6, 2), (7, 0), (7, 1), (7, 2), (8, 0), (8, 1), (8, 2)]

def GRP21 : List (Nat × Nat) := [(0, 3), (0, 4), (0, 5), (1, 3), (1, 4), (1, 5), (2, 3), (2, 4), (2, 5)]

def GRP22 : List (Nat × Nat) := [(3, 3), (3, 4), (3, 5), (4, 3), (4, 4), (4, 5), (5, 3), (5, 4), (5, 5)]

def GRP23 : List (Nat × Nat) := [(6, 3), (6, 4), (6, 5), (7, 3), (7, 4), (7, 5), (8, 3), (8, 4), (8, 5)]

def GRP24 : List (Nat × Nat) := [(0, 6), (0, 7), (0, 8), (1, 6), (1, 7), (1, 8), (2, 6), (2, 7), (2, 8)]

def GRP25 : List (Nat × Nat) := [(3, 6), (3, 7), (3, 8), (4, 6), (4, 7), (4, 8), (5, 6), (5, 7), (5, 8)]

def GRP26 : List (Nat × Nat) := [(6, 6), (6, 7), (6, 8), (7, 6), (7, 7), (7, 8), (8, 6), (8, 7), (8, 8)]

/-- Intermediate board literal of the staged evaluation. -/
def rdL0 : Board :=
  ⟨[[T 0 0 '1' ['1'], T 0 1 '1' ['1'], T 0 2 '.' ['1', '2', '3', '4', '5', '6', '7', '8', '9'], T 0 3 '.' ['1', '2', '3', '4', '5', '6', '7', '8', '9'], T 0 4 '.' ['1', '2', '3', '4', '5', '6', '7', '8', '9'], T 0 5 '.' ['1', '2', '3', '4', '5', '6', '7', '8', '9'], T 0 6 '.' ['1', '2', '3', '4', '5', '6', '7', '8', '9'], T 0 7 '.' ['1', '2', '3', '4', '5', '6', '7', '8', '9'], T 0 8 '.' ['1', '2', '3', '4', '5', '6', '7', '8', '9']],
   [T 1 0 '.' ['1', '2', '3', '4', '5', '6', '7', '8', '9'], T 1 1 '.' ['1', '2', '3', '4', '5', '6', '7', '8', '9'], T 1 2 '.' ['1', '2', '3', '4', '5', '6', '7', '8', '9'], T 1 3 '.' ['1', '2', '3', '4', '5', '6', '7', '8', '9'], T 1 4 '.' ['1', '2', '3', '4', '5', '6', '7', '8', '9'], T 1 5 '.' ['1', '2', '3', '4', '5', '6', '7', '8', '9'], T 1 6 '.' ['1', '2', '3', '4', '5', '6', '7', '8', '9'], T 1 7 '.' ['1', '2', '3', '4', '5', '6', '7', '8', '9'], T 1 8 '.' ['1', '2', '3', '4', '5', '6', '7', '8', '9']],
   [T 2 0 '.' ['1', '2', '3', '4', '5', '6', '7', '8', '9'], T 2 1 '.' ['1', '2', '3', '4', '5', '6', '7', '8', '9'], T 2 2 '.' ['1', '2', '3', '4', '5', '6', '7', '8', '9'], T 2 3 '.' ['1', '2', '3', '4', '5', '6', '7', '8', '9'], T 2 4 '.' ['1', '2', '3', '4', '5', '6', '7', '8', '9'], T 2 5 '.' ['1', '2', '3', '4', '5', '6', '7', '8', '9'], T 2 6 '.' ['1', '2', '3', '4', '5', '6', '7', '8', '9'], T 2 7 '.' ['1', '2', '3', '4', '5', '6', '7', '8', '9'], T 2 8 '.' ['1', '2', '3', '4', '5', '6', '7', '8', '9']],
   [T 3 0 '.' ['1', '2', '3', '4', '5', '6', '7', '8', '9'], T 3 1 '.' ['1', '2', '3', '4', '5', '6', '7', '8', '9'], T 3 2 '.' ['1', '2', '3', '4', '5', '6', '7', '8', '9'], T 3 3 '.' ['1', '2', '3', '4', '5', '6', '7', '8', '9'], T 3 4 '.' ['1', '2', '3', '4', '5', '6', '7', '8', '9'], T 3 5 '.' ['1', '2', '3', '4', '5', '6', '7', '8', '9'], T 3 6 '.' ['1', '2', '3', '4', '5', '6', '7', '8', '9'], T 3 7 '.' ['1', '2', '3', '4', '5', '6', '7', '8', '9'], T 3 8 '.' ['1', '2', '3', '4', '5', '6', '7', '8', '9']],
   [T 4 0 '.' ['1', '2', '3', '4', '5', '6', '7', '8', '9'], T 4 1 '.' ['1', '2', '3', '4', '5', '6', '7', '8', '9'], T 4 2 '.' ['1', '2', '3', '4', '5', '6', '7', '8', '9'], T 4 3 '.' ['1', '2', '3', '4', '5', '6', '7', '8', '9'], T 4 4 '.' ['1', '2', '3', '4', '5', '6', '7', '8', '9'], T 4 5 '.' ['1', '2', '3', '4', '5', '6', '7', '8', '9'], T 4 6 '.' ['1', '2', '3', '4', '5', '6', '7', '8', '9'], T 4 7 '.' ['1', '2', '3', '4', '5', '6', '7', '8', '9'], T 4 8 '.' ['1', '2', '3', '4', '5', '6', '7', '8', '9']],
   [T 5 0 '.' ['1', '2', '3', '4', '5', '6', '7', '8', '9'], T 5 1 '.' ['1', '2', '3', '4', '5', '6', '7', '8', '9'], T 5 2 '.' ['1', '2', '3', '4', '5', '6', '7', '8', '9'], T 5 3 '.' ['1', '2', '3', '4', '5', '6', '7', '8', '9'], T 5 4 '.' ['1', '2', '3', '4', '5', '6', '7', '8', '9'], T 5 5 '.' ['1', '2', '3', '4', '5', '6', '7', '8', '9'], T 5 6 '.' ['1', '2', '3', '4', '5', '6', '7', '8', '9'], T 5 7 '.' ['1', '2', '3', '4', '5', '6', '7', '8', '9'], T 5 8 '.' ['1', '2', '3', '4', '5', '6', '7', '8', '9']],
   [T 6 0 '.' ['1', '2', '3', '4', '5', '6', '7', '8', '9'], T 6 1 '.' ['1', '2', '3', '4', '5', '6', '7', '8', '9'], T 6 2 '.' ['1', '2', '3', '4', '5', '6', '7', '8', '9'], T 6 3 '.' ['1', '2', '3', '4', '5', '6', '7', '8', '9'], T 6 4 '.' ['1', '2', '3', '4', '5', '6', '7', '8', '9'], T 6 5 '.' ['1', '2', '3', '4', '5', '6', '7', '8', '9'], T 6 6 '.' ['1', '2', '3', '4', '5', '6', '7', '8', '9'], T 6 7 '.' ['1', '2', '3', '4', '5', '6', '7', '8', '9'], T 6 8 '.' ['1', '2', '3', '4', '5', '6', '7', '8', '9']],
   [T 7 0 '.' ['1', '2', '3', '4', '5', '6', '7', '8', '9'], T 7 1 '.' ['1', '2', '3', '4', '5', '6', '7', '8', '9'], T 7 2 '.' ['1', '2', '3', '4', '5', '6', '7', '8', '9'], T 7 3 '.' ['1', '2', '3', '4', '5', '6', '7', '8', '9'], T 7 4 '.' ['1', '2', '3', '4', '5', '6', '7', '8', '9'], T 7 5 '.' ['1', '2', '3', '4', '5', '6', '7', '8', '9'], T 7 6 '.' ['1', '2', '3', '4', '5', '6', '7', '8', '9'], T 7 7 '.' ['1', '2', '3', '4', '5', '6', '7', '8', '9'], T 7 8 '.' ['1', '2', '3', '4', '5', '6', '7', '8', '9']],
   [T 8 0 '.' ['1', '2', '3', '4', '5', '6', '7', '8', '9'], T 8 1 '.' ['1', '2', '3', '4', '5', '6', '7', '8', '9'], T 8 2 '.' ['1', '2', '3', '4', '5', '6', '7', '8', '9'], T 8 3 '.' ['1', '2', '3', '4', '5', '6', '7', '8', '9'], T 8 4 '.' ['1', '2', '3', '4', '5', '6', '7', '8', '9'], T 8 5 '.' ['1', '2', '3', '4', '5', '6', '7', '8', '9'], T 8 6 '.' ['1', '2', '3', '4', '5', '6', '7', '8', '9'], T 8 7 '.' ['1', '2', '3', '4', '5', '6', '7', '8', '9'], T 8 8 '.' ['1', '2', '3', '4', '5', '6', '7', '8', '9']]],
   []⟩

/-- Intermediate board literal of the staged evaluation. -/
def rdL1 : Board :=
  ⟨[[T 0 0 '1' [], T 0 1 '1' ['1'], T 0 2 '.' ['1', '2', '3', '4', '5', '6', '7', '8', '9'], T 0 3 '.' ['1', '2', '3', '4', '5', '6', '7', '8', '9'], T 0 4 '.' ['1', '2', '3', '4', '5', '6', '7', '8', '9'], T 0 5 '.' ['1', '2', '3', '4', '5', '6', '7', '8', '9'], T 0 6 '.' ['1', '2', '3', '4', '5', '6', '7', '8', '9'], T 0 7 '.' ['1', '2', '3', '4', '5', '6', '7', '8', '9'], T 0 8 '.' ['1', '2', '3', '4', '5', '6', '7', '8', '9']],
   [T 1 0 '.' ['2', '3', '4', '5', '6', '7', '8', '9'], T 1 1 '.' ['1', '2', '3', '4', '5', '6', '7', '8', '9'], T 1 2 '.' ['1', '2', '3', '4', '5', '6', '7', '8', '9'], T 1 3 '.' ['1', '2', '3', '4', '5', '6', '7', '8', '9'], T 1 4 '.' ['1', '2', '3', '4', '5', '6', '7', '8', '9'], T 1 5 '.' ['1', '2', '3', '4', '5', '6', '7', '8', '9'], T 1 6 '.' ['1', '2', '3', '4', '5', '6', '7', '8', '9'], T 1 7 '.' ['1', '2', '3', '4', '5', '6', '7', '8', '9'], T 1 8 '.' ['1', '2', '3', '4', '5', '6', '7', '8', '9']],
   [T 2 0 '.' ['2', '3', '4', '5', '6', '7', '8', '9'], T 2 1 '.' ['1', '2', '3', '4', '5', '6', '7', '8', '9'], T 2 2 '.' ['1', '2', '3', '4', '5', '6', '7', '8', '9'], T 2 3 '.' ['1', '2', '3', '4', '5', '6', '7', '8', '9'], T 2 4 '.' ['1', '2', '3', '4', '5', '6', '7', '8', '9'], T 2 5 '.' ['1', '2', '3', '4', '5', '6', '7', '8', '9'], T 2 6 '.' ['1', '2', '3', '4', '5', '6', '7', '8', '9'], T 2 7 '.' ['1', '2', '3', '4', '5', '6', '7', '8', '9'], T 2 8 '.' ['1', '2', '3', '4', '5', '6', '7', '8', '9']],
   [T 3 0 '.' ['2', '3', '4', '5', '6', '7', '8', '9'], T 3 1 '.' ['1', '2', '3', '4', '5', '6', '7', '8', '9'], T 3 2 '.' ['1', '2', '3', '4', '5', '6', '7', '8', '9'], T 3 3 '.' ['1', '2', '3', '4', '5', '6', '7', '8', '9'], T 3 4 '.' ['1', '2', '3', '4', '5', '6', '7', '8', '9'], T 3 5 '.' ['1', '2', '3', '4', '5', '6', '7', '8', '9'], T 3 6 '.' ['1', '2', '3', '4', '5', '6', '7', '8', '9'], T 3 7 '.' ['1', '2', '3', '4', '5', '6', '7', '8', '9'], T 3 8 '.' ['1', '2', '3', '4', '5', '6', '7', '8', '9']],
   [T 4 0 '.' ['2', '3', '4', '5', '6', '7', '8', '9'], T 4 1 '.' ['1', '2', '3', '4', '5', '6', '7', '8', '9'], T 4 2 '.' ['1', '2', '3', '4', '5', '6', '7', '8', '9'], T 4 3 '.' ['1', '2', '3', '4', '5', '6', '7', '8', '9'], T 4 4 '.' ['1', '2', '3', '4', '5', '6', '7', '8', '9'], T 4 5 '.' ['1', '2', '3', '4', '5', '6', '7', '8', '9'], T 4 6 '.' ['1', '2', '3', '4', '5', '6', '7', '8', '9'], T 4 7 '.' ['1', '2', '3', '4', '5', '6', '7', '8', '9'], T 4 8 '.' ['1', '2', '3', '4', '5', '6', '7', '8', '9']],
   [T 5 0 '.' ['2', '3', '4', '5', '6', '7', '8', '9'], T 5 1 '.' ['1', '2', '3', '4', '5', '6', '7', '8', '9'], T 5 2 '.' ['1', '2', '3', '4', '5', '6', '7', '8', '9'], T 5 3 '.' ['1', '2', '3', '4', '5', '6', '7', '8', '9'], T 5 4 '.' ['1', '2', '3', '4', '5', '6', '7', '8', '9'], T 5 5 '.' ['1', '2', '3', '4', '5', '6', '7', '8', '9'], T 5 6 '.' ['1', '2', '3', '4', '5', '6', '7', '8', '9'], T 5 7 '.' ['1', '2', '3', '4', '5', '6', '7', '8', '9'], T 5 8 '.' ['1', '2', '3', '4', '5', '6', '7', '8', '9']],
   [T 6 0 '.' ['2', '3', '4', '5', '6', '7', '8', '9'], T 6 1 '.' ['1', '2', '3', '4', '5', '6', '7', '8', '9'], T 6 2 '.' ['1', '2', '3', '4', '5', '6', '7', '8', '9'], T 6 3 '.' ['1', '2', '3', '4', '5', '6', '7', '8', '9'], T 6 4 '.' ['1', '2', '3', '4', '5', '6', '7', '8', '9'], T 6 5 '.' ['1', '2', '3', '4', '5', '6', '7', '8', '9'], T 6 6 '.' ['1', '2', '3', '4', '5', '6', '7', '8', '9'], T 6 7 '.' ['1', '2', '3', '4', '5', '6', '7', '8', '9'], T 6 8 '.' ['1', '2', '3', '4', '5', '6', '7', '8', '9']],
   [T 7 0 '.' ['2', '3', '4', '5', '6', '7', '8', '9'], T 7 1 '.' ['1', '2', '3', '4', '5', '6', '7', '8', '9'], T 7 2 '.' ['1', '2', '3', '4', '5', '6', '7', '8', '9'], T 7 3 '.' ['1', '2', '3', '4', '5', '6', '7', '8', '9'], T 7 4 '.' ['1', '2', '3', '4', '5', '6', '7', '8', '9'], T 7 5 '.' ['1', '2', '3', '4', '5', '6', '7', '8', '9'], T 7 6 '.' ['1', '2', '3', '4', '5', '6', '7', '8', '9'], T 7 7 '.' ['1', '2', '3', '4', '5', '6', '7', '8', '9'], T 7 8 '.' ['1', '2', '3', '4', '5', '6', '7', '8', '9']],
   [T 8 0 '.' ['2', '3', '4', '5', '6', '7', '8', '9'], T 8 1 '.' ['1', '2', '3', '4', '5', '6', '7', '8', '9'], T 8 2 '.' ['1', '2', '3', '4', '5', '6', '7', '8', '9'], T 8 3 '.' ['1', '2', '3', '4', '5', '6', '7', '8', '9'], T 8 4 '.' ['1', '2', '3', '4', '5', '6', '7', '8', '9'], T 8 5 '.' ['1', '2', '3', '4', '5', '6', '7', '8', '9'], T 8 6 '.' ['1', '2', '3', '4', '5', '6', '7', '8', '9'], T 8 7 '.' ['1', '2', '3', '4', '5', '6', '7', '8', '9'], T 8 8 '.' ['1', '2', '3', '4', '5', '6', '7', '8', '9']]],
   [E 0 0 '1', E 1 0 '.', E 2 0 '.', E 3 0 '.', E 4 0 '.', E 5 0 '.', E 6 0 '.', E 7 0 '.', E 8 0 '.']⟩

/-- Intermediate board literal of the staged evaluation. -/
def rdL2 : Board :=
  ⟨[[T 0 0 '1' [], T 0 1 '1' [], T 0 2 '.' ['1', '2', '3', '4', '5', '6', '7', '8', '9'], T 0 3 '.' ['1', '2', '3', '4', '5', '6', '7', '8', '9'], T 0 4 '.' ['1', '2', '3', '4', '5', '6', '7', '8', '9'], T 0 5 '.' ['1', '2', '3', '4', '5', '6', '7', '8', '9'], T 0 6 '.' ['1', '2', '3', '4', '5', '6', '7', '8', '9'], T 0 7 '.' ['1', '2', '3', '4', '5', '6', '7', '8', '9'], T 0 8 '.' ['1', '2', '3', '4', '5', '6', '7', '8', '9']],
   [T 1 0 '.' ['2', '3', '4', '5', '6', '7', '8', '9'], T 1 1 '.' ['2', '3', '4', '5', '6', '7', '8', '9'], T 1 2 '.' ['1', '2', '3', '4', '5', '6', '7', '8', '9'], T 1 3 '.' ['1', '2', '3', '4', '5', '6', '7', '8', '9'], T 1 4 '.' ['1', '2', '3', '4', '5', '6', '7', '8', '9'], T 1 5 '.' ['1', '2', '3', '4', '5', '6', '7', '8', '9'], T 1 6 '.' ['1', '2', '3', '4', '5', '6', '7', '8', '9'], T 1 7 '.' ['1', '2', '3', '4', '5', '6', '7', '8', '9'], T 1 8 '.' ['1', '2', '3', '4', '5', '6', '7', '8', '9']],
   [T 2 0 '.' ['2', '3', '4', '5', '6', '7', '8', '9'], T 2 1 '.' ['2', '3', '4', '5', '6', '7', '8', '9'], T 2 2 '.' ['1', '2', '3', '4', '5', '6', '7', '8', '9'], T 2 3 '.' ['1', '2', '3', '4', '5', '6', '7', '8', '9'], T 2 4 '.' ['1', '2', '3', '4', '5', '6', '7', '8', '9'], T 2 5 '.' ['1', '2', '3', '4', '5', '6', '7', '8', '9'], T 2 6 '.' ['1', '2', '3', '4', '5', '6', '7', '8', '9'], T 2 7 '.' ['1', '2', '3', '4', '5', '6', '7', '8', '9'], T 2 8 '.' ['1', '2', '3', '4', '5', '6', '7', '8', '9']],
   [T 3 0 '.' ['2', '3', '4', '5', '6', '7', '8', '9'], T 3 1 '.' ['2', '3', '4', '5', '6', '7', '8', '9'], T 3 2 '.' ['1', '2', '3', '4', '5', '6', '7', '8', '9'], T 3 3 '.' ['1', '2', '3', '4', '5', '6', '7', '8', '9'], T 3 4 '.' ['1', '2', '3', '4', '5', '6', '7', '8', '9'], T 3 5 '.' ['1', '2', '3', '4', '5', '6', '7', '8', '9'], T 3 6 '.' ['1', '2', '3', '4', '5', '6', '7', '8', '9'], T 3 7 '.' ['1', '2', '3', '4', '5', '6', '7', '8', '9'], T 3 8 '.' ['1', '2', '3', '4', '5', '6', '7', '8', '9']],
   [T 4 0 '.' ['2', '3', '4', '5', '6', '7', '8', '9'], T 4 1 '.' ['2', '3', '4', '5', '6', '7', '8', '9'], T 4 2 '.' ['1', '2', '3', '4', '5', '6', '7', '8', '9'], T 4 3 '.' ['1', '2', '3', '4', '5', '6', '7', '8', '9'], T 4 4 '.' ['1', '2', '3', '4', '5', '6', '7', '8', '9'], T 4 5 '.' ['1', '2', '3', '4', '5', '6', '7', '8', '9'], T 4 6 '.' ['1', '2', '3', '4', '5', '6', '7', '8', '9'], T 4 7 '.' ['1', '2', '3', '4', '5', '6', '7', '8', '9'], T 4 8 '.' ['1', '2', '3', '4', '5', '6', '7', '8', '9']],
   [T 5 0 '.' ['2', '3', '4', '5', '6', '7', '8', '9'], T 5 1 '.' ['2', '3', '4', '5', '6', '7', '8', '9'], T 5 2 '.' ['1', '2', '3', '4', '5', '6', '7', '8', '9'], T 5 3 '.' ['1', '2', '3', '4', '5', '6', '7', '8', '9'], T 5 4 '.' ['1', '2', '3', '4', '5', '6', '7', '8', '9'], T 5 5 '.' ['1', '2', '3', '4', '5', '6', '7', '8', '9'], T 5 6 '.' ['1', '2', '3', '4', '5', '6', '7', '8', '9'], T 5 7 '.' ['1', '2', '3', '4', '5', '6', '7', '8', '9'], T 5 8 '.' ['1', '2', '3', '4', '5', '6', '7', '8', '9']],
   [T 6 0 '.' ['2', '3', '4', '5', '6', '7', '8', '9'], T 6 1 '.' ['2', '3', '4', '5', '6', '7', '8', '9'], T 6 2 '.' ['1', '2', '3', '4', '5', '6', '7', '8', '9'], T 6 3 '.' ['1', '2', '3', '4', '5', '6', '7', '8', '9'], T 6 4 '.' ['1', '2', '3', '4', '5', '6', '7', '8', '9'], T 6 5 '.' ['1', '2', '3', '4', '5', '6', '7', '8', '9'], T 6 6 '.' ['1', '2', '3', '4', '5', '6', '7', '8', '9'], T 6 7 '.' ['1', '2', '3', '4', '5', '6', '7', '8', '9'], T 6 8 '.' ['1', '2', '3', '4', '5', '6', '7', '8', '9']],
   [T 7 0 '.' ['2', '3', '4', '5', '6', '7', '8', '9'], T 7 1 '.' ['2', '3', '4', '5', '6', '7', '8', '9'], T 7 2 '.' ['1', '2', '3', '4', '5', '6', '7', '8', '9'], T 7 3 '.' ['1', '2', '3', '4', '5', '6', '7', '8', '9'], T 7 4 '.' ['1', '2', '3', '4', '5', '6', '7', '8', '9'], T 7 5 '.' ['1', '2', '3', '4', '5', '6', '7', '8', '9'], T 7 6 '.' ['1', '2', '3', '4', '5', '6', '7', '8', '9'], T 7 7 '.' ['1', '2', '3', '4', '5', '6', '7', '8', '9'], T 7 8 '.' ['1', '2', '3', '4', '5', '6', '7', '8', '9']],
   [T 8 0 '.' ['2', '3', '4', '5', '6', '7', '8', '9'], T 8 1 '.' ['2', '3', '4', '5', '6', '7', '8', '9'], T 8 2 '.' ['1', '2', '3', '4', '5', '6', '7', '8', '9'], T 8 3 '.' ['1', '2', '3', '4', '5', '6', '7', '8', '9'], T 8 4 '.' ['1', '2', '3', '4', '5', '6', '7', '8', '9'], T 8 5 '.' ['1', '2', '3', '4', '5', '6', '7', '8', '9'], T 8 6 '.' ['1', '2', '3', '4', '5', '6', '7', '8', '9'], T 8 7 '.' ['1', '2', '3', '4', '5', '6', '7', '8', '9'], T 8 8 '.' ['1', '2', '3', '4', '5', '6', '7', '8', '9']]],
   [E 0 0 '1', E 1 0 '.', E 2 0 '.', E 3 0 '.', E 4 0 '.', E 5 0 '.', E 6 0 '.', E 7 0 '.', E 8 0 '.', E 0 1 '1', E 1 1 '.', E 2 1 '.', E 3 1 '.', E 4 1 '.', E 5 1 '.', E 6 1 '.', E 7 1 '.', E 8 1 '.']⟩

/-- Intermediate board literal of the staged evaluation. -/
def rdL3 : Board :=
  ⟨[[T 0 0 '1' [], T 0 1 '1' [], T 0 2 '.' ['2', '3', '4', '5', '6', '7', '8', '9'], T 0 3 '.' ['2', '3', '4', '5', '6', '7', '8', '9'], T 0 4 '.' ['2', '3', '4', '5', '6', '7', '8', '9'], T 0 5 '.' ['2', '3', '4', '5', '6', '7', '8', '9'], T 0 6 '.' ['2', '3', '4', '5', '6', '7', '8', '9'], T 0 7 '.' ['2', '3', '4', '5', '6', '7', '8', '9'], T 0 8 '.' ['2', '3', '4', '5', '6', '7', '8', '9']],
   [T 1 0 '.' ['2', '3', '4', '5', '6', '7', '8', '9'], T 1 1 '.' ['2', '3', '4', '5', '6', '7', '8', '9'], T 1 2 '.' ['1', '2', '3', '4', '5', '6', '7', '8', '9'], T 1 3 '.' ['1', '2', '3', '4', '5', '6', '7', '8', '9'], T 1 4 '.' ['1', '2', '3', '4', '5', '6', '7', '8', '9'], T 1 5 '.' ['1', '2', '3', '4', '5', '6', '7', '8', '9'], T 1 6 '.' ['1', '2', '3', '4', '5', '6', '7', '8', '9'], T 1 7 '.' ['1', '2', '3', '4', '5', '6', '7', '8', '9'], T 1 8 '.' ['1', '2', '3', '4', '5', '6', '7', '8', '9']],
   [T 2 0 '.' ['2', '3', '4', '5', '6', '7', '8', '9'], T 2 1 '.' ['2', '3', '4', '5', '6', '7', '8', '9'], T 2 2 '.' ['1', '2', '3', '4', '5', '6', '7', '8', '9'], T 2 3 '.' ['1', '2', '3', '4', '5', '6', '7', '8', '9'], T 2 4 '.' ['1', '2', '3', '4', '5', '6', '7', '8', '9'], T 2 5 '.' ['1', '2', '3', '4', '5', '6', '7', '8', '9'], T 2 6 '.' ['1', '2', '3', '4', '5', '6', '7', '8', '9'], T 2 7 '.' ['1', '2', '3', '4', '5', '6', '7', '8', '9'], T 2 8 '.' ['1', '2', '3', '4', '5', '6', '7', '8', '9']],
   [T 3 0 '.' ['2', '3', '4', '5', '6', '7', '8', '9'], T 3 1 '.' ['2', '3', '4', '5', '6', '7', '8', '9'], T 3 2 '.' ['1', '2', '3', '4', '5', '6', '7', '8', '9'], T 3 3 '.' ['1', '2', '3', '4', '5', '6', '7', '8', '9'], T 3 4 '.' ['1', '2', '3', '4', '5', '6', '7', '8', '9'], T 3 5 '.' ['1', '2', '3', '4', '5', '6', '7', '8', '9'], T 3 6 '.' ['1', '2', '3', '4', '5', '6', '7', '8', '9'], T 3 7 '.' ['1', '2', '3', '4', '5', '6', '7', '8', '9'], T 3 8 '.' ['1', '2', '3', '4', '5', '6', '7', '8', '9']],
   [T 4 0 '.' ['2', '3', '4', '5', '6', '7', '8', '9'], T 4 1 '.' ['2', '3', '4', '5', '6', '7', '8', '9'], T 4 2 '.' ['1', '2', '3', '4', '5', '6', '7', '8', '9'], T 4 3 '.' ['1', '2', '3', '4', '5', '6', '7', '8', '9'], T 4 4 '.' ['1', '2', '3', '4', '5', '6', '7', '8', '9'], T 4 5 '.' ['1', '2', '3', '4', '5', '6', '7', '8', '9'], T 4 6 '.' ['1', '2', '3', '4', '5', '6', '7', '8', '9'], T 4 7 '.' ['1', '2', '3', '4', '5', '6', '7', '8', '9'], T 4 8 '.' ['1', '2', '3', '4', '5', '6', '7', '8', '9']],
   [T 5 0 '.' ['2', '3', '4', '5', '6', '7', '8', '9'], T 5 1 '.' ['2', '3', '4', '5', '6', '7', '8', '9'], T 5 2 '.' ['1', '2', '3', '4', '5', '6', '7', '8', '9'], T 5 3 '.' ['1', '2', '3', '4', '5', '6', '7', '8', '9'], T 5 4 '.' ['1', '2', '3', '4', '5', '6', '7', '8', '9'], T 5 5 '.' ['1', '2', '3', '4', '5', '6', '7', '8', '9'], T 5 6 '.' ['1', '2', '3', '4', '5', '6', '7', '8', '9'], T 5 7 '.' ['1', '2', '3', '4', '5', '6', '7', '8', '9'], T 5 8 '.' ['1', '2', '3', '4', '5', '6', '7', '8', '9']],
   [T 6 0 '.' ['2', '3', '4', '5', '6', '7', '8', '9'], T 6 1 '.' ['2', '3', '4', '5', '6', '7', '8', '9'], T 6 2 '.' ['1', '2', '3', '4', '5', '6', '7', '8', '9'], T 6 3 '.' ['1', '2', '3', '4', '5', '6', '7', '8', '9'], T 6 4 '.' ['1', '2', '3', '4', '5', '6', '7', '8', '9'], T 6 5 '.' ['1', '2', '3', '4', '5', '6', '7', '8', '9'], T 6 6 '.' ['1', '2', '3', '4', '5', '6', '7', '8', '9'], T 6 7 '.' ['1', '2', '3', '4', '5', '6', '7', '8', '9'], T 6 8 '.' ['1', '2', '3', '4', '5', '6', '7', '8', '9']],
   [T 7 0 '.' ['2', '3', '4', '5', '6', '7', '8', '9'], T 7 1 '.' ['2', '3', '4', '5', '6', '7', '8', '9'], T 7 2 '.' ['1', '2', '3', '4', '5', '6', '7', '8', '9'], T 7 3 '.' ['1', '2', '3', '4', '5', '6', '7', '8', '9'], T 7 4 '.' ['1', '2', '3', '4', '5', '6', '7', '8', '9'], T 7 5 '.' ['1', '2', '3', '4', '5', '6', '7', '8', '9'], T 7 6 '.' ['1', '2', '3', '4', '5', '6', '7', '8', '9'], T 7 7 '.' ['1', '2', '3', '4', '5', '6', '7', '8', '9'], T 7 8 '.' ['1', '2', '3', '4', '5', '6', '7', '8', '9']],
   [T 8 0 '.' ['2', '3', '4', '5', '6', '7', '8', '9'], T 8 1 '.' ['2', '3', '4', '5', '6', '7', '8', '9'], T 8 2 '.' ['1', '2', '3', '4', '5', '6', '7', '8', '9'], T 8 3 '.' ['1', '2', '3', '4', '5', '6', '7', '8', '9'], T 8 4 '.' ['1', '2', '3', '4', '5', '6', '7', '8', '9'], T 8 5 '.' ['1', '2', '3', '4', '5', '6', '7', '8', '9'], T 8 6 '.' ['1', '2', '3', '4', '5', '6', '7', '8', '9'], T 8 7 '.' ['1', '2', '3', '4', '5', '6', '7', '8', '9'], T 8 8 '.' ['1', '2', '3', '4', '5', '6', '7', '8', '9']]],
   [E 0 0 '1', E 1 0 '.', E 2 0 '.', E 3 0 '.', E 4 0 '.', E 5 0 '.', E 6 0 '.', E 7 0 '.', E 8 0 '.', E 0 1 '1', E 1 1 '.', E 2 1 '.', E 3 1 '.', E 4 1 '.', E 5 1 '.', E 6 1 '.', E 7 1 '.', E 8 1 '.', E 0 2 '.', E 0 3 '.', E 0 4 '.', E 0 5 '.', E 0 6 '.', E 0 7 '.', E 0 8 '.']⟩

/-- Intermediate board literal of the staged evaluation. -/
def rdL4 : Board :=
  ⟨[[T 0 0 '1' [], T 0 1 '1' [], T 0 2 '.' ['2', '3', '4', '5', '6', '7', '8', '9'], T 0 3 '.' ['2', '3', '4', '5', '6', '7', '8', '9'], T 0 4 '.' ['2', '3', '4', '5', '6', '7', '8', '9'], T 0 5 '.' ['2', '3', '4', '5', '6', '7', '8', '9'], T 0 6 '.' ['2', '3', '4', '5', '6', '7', '8', '9'], T 0 7 '.' ['2', '3', '4', '5', '6', '7', '8', '9'], T 0 8 '.' ['2', '3', '4', '5', '6', '7', '8', '9']],
   [T 1 0 '.' ['2', '3', '4', '5', '6', '7', '8', '9'], T 1 1 '.' ['2', '3', '4', '5', '6', '7', '8', '9'], T 1 2 '.' ['2', '3', '4', '5', '6', '7', '8', '9'], T 1 3 '.' ['1', '2', '3', '4', '5', '6', '7', '8', '9'], T 1 4 '.' ['1', '2', '3', '4', '5', '6', '7', '8', '9'], T 1 5 '.' ['1', '2', '3', '4', '5', '6', '7', '8', '9'], T 1 6 '.' ['1', '2', '3', '4', '5', '6', '7', '8', '9'], T 1 7 '.' ['1', '2', '3', '4', '5', '6', '7', '8', '9'], T 1 8 '.' ['1', '2', '3', '4', '5', '6', '7', '8', '9']],
   [T 2 0 '.' ['2', '3', '4', '5', '6', '7', '8', '9'], T 2 1 '.' ['2', '3', '4', '5', '6', '7', '8', '9'], T 2 2 '.' ['2', '3', '4', '5', '6', '7', '8', '9'], T 2 3 '.' ['1', '2', '3', '4', '5', '6', '7', '8', '9'], T 2 4 '.' ['1', '2', '3', '4', '5', '6', '7', '8', '9'], T 2 5 '.' ['1', '2', '3', '4', '5', '6', '7', '8', '9'], T 2 6 '.' ['1', '2', '3', '4', '5', '6', '7', '8', '9'], T 2 7 '.' ['1', '2', '3', '4', '5', '6', '7', '8', '9'], T 2 8 '.' ['1', '2', '3', '4', '5', '6', '7', '8', '9']],
   [T 3 0 '.' ['2', '3', '4', '5', '6', '7', '8', '9'], T 3 1 '.' ['2', '3', '4', '5', '6', '7', '8', '9'], T 3 2 '.' ['1', '2', '3', '4', '5', '6', '7', '8', '9'], T 3 3 '.' ['1', '2', '3', '4', '5', '6', '7', '8', '9'], T 3 4 '.' ['1', '2', '3', '4', '5', '6', '7', '8', '9'], T 3 5 '.' ['1', '2', '3', '4', '5', '6', '7', '8', '9'], T 3 6 '.' ['1', '2', '3', '4', '5', '6', '7', '8', '9'], T 3 7 '.' ['1', '2', '3', '4', '5', '6', '7', '8', '9'], T 3 8 '.' ['1', '2', '3', '4', '5', '6', '7', '8', '9']],
   [T 4 0 '.' ['2', '3', '4', '5', '6', '7', '8', '9'], T 4 1 '.' ['2', '3', '4', '5', '6', '7', '8', '9'], T 4 2 '.' ['1', '2', '3', '4', '5', '6', '7', '8', '9'], T 4 3 '.' ['1', '2', '3', '4', '5', '6', '7', '8', '9'], T 4 4 '.' ['1', '2', '3', '4', '5', '6', '7', '8', '9'], T 4 5 '.' ['1', '2', '3', '4', '5', '6', '7', '8', '9'], T 4 6 '.' ['1', '2', '3', '4', '5', '6', '7', '8', '9'], T 4 7 '.' ['1', '2', '3', '4', '5', '6', '7', '8', '9'], T 4 8 '.' ['1', '2', '3', '4', '5', '6', '7', '8', '9']],
   [T 5 0 '.' ['2', '3', '4', '5', '6', '7', '8', '9'], T 5 1 '.' ['2', '3', '4', '5', '6', '7', '8', '9'], T 5 2 '.' ['1', '2', '3', '4', '5', '6', '7', '8', '9'], T 5 3 '.' ['1', '2', '3', '4', '5', '6', '7', '8', '9'], T 5 4 '.' ['1', '2', '3', '4', '5', '6', '7', '8', '9'], T 5 5 '.' ['1', '2', '3', '4', '5', '6', '7', '8', '9'], T 5 6 '.' ['1', '2', '3', '4', '5', '6', '7', '8', '9'], T 5 7 '.' ['1', '2', '3', '4', '5', '6', '7', '8', '9'], T 5 8 '.' ['1', '2', '3', '4', '5', '6', '7', '8', '9']],
   [T 6 0 '.' ['2', '3', '4', '5', '6', '7', '8', '9'], T 6 1 '.' ['2', '3', '4', '5', '6', '7', '8', '9'], T 6 2 '.' ['1', '2', '3', '4', '5', '6', '7', '8', '9'], T 6 3 '.' ['1', '2', '3', '4', '5', '6', '7', '8', '9'], T 6 4 '.' ['1', '2', '3', '4', '5', '6', '7', '8', '9'], T 6 5 '.' ['1', '2', '3', '4', '5', '6', '7', '8', '9'], T 6 6 '.' ['1', '2', '3', '4', '5', '6', '7', '8', '9'], T 6 7 '.' ['1', '2', '3', '4', '5', '6', '7', '8', '9'], T 6 8 '.' ['1', '2', '3', '4', '5', '6', '7', '8', '9']],
   [T 7 0 '.' ['2', '3', '4', '5', '6', '7', '8', '9'], T 7 1 '.' ['2', '3', '4', '5', '6', '7', '8', '9'], T 7 2 '.' ['1', '2', '3', '4', '5', '6', '7', '8', '9'], T 7 3 '.' ['1', '2', '3', '4', '5', '6', '7', '8', '9'], T 7 4 '.' ['1', '2', '3', '4', '5', '6', '7', '8', '9'], T 7 5 '.' ['1', '2', '3', '4', '5', '6', '7', '8', '9'], T 7 6 '.' ['1', '2', '3', '4', '5', '6', '7', '8', '9'], T 7 7 '.' ['1', '2', '3', '4', '5', '6', '7', '8', '9'], T 7 8 '.' ['1', '2', '3', '4', '5', '6', '7', '8', '9']],
   [T 8 0 '.' ['2', '3', '4', '5', '6', '7', '8', '9'], T 8 1 '.' ['2', '3', '4', '5', '6', '7', '8', '9'], T 8 2 '.' ['1', '2', '3', '4', '5', '6', '7', '8', '9'], T 8 3 '.' ['1', '2', '3', '4', '5', '6', '7', '8', '9'], T 8 4 '.' ['1', '2', '3', '4', '5', '6', '7', '8', '9'], T 8 5 '.' ['1', '2', '3', '4', '5', '6', '7', '8', '9'], T 8 6 '.' ['1', '2', '3', '4', '5', '6', '7', '8', '9'], T 8 7 '.' ['1', '2', '3', '4', '5', '6', '7', '8', '9'], T 8 8 '.' ['1', '2', '3', '4', '5', '6', '7', '8', '9']]],
   [E 0 0 '1', E 1 0 '.', E 2 0 '.', E 3 0 '.', E 4 0 '.', E 5 0 '.', E 6 0 '.', E 7 0 '.', E 8 0 '.', E 0 1 '1', E 1 1 '.', E 2 1 '.', E 3 1 '.', E 4 1 '.', E 5 1 '.', E 6 1 '.', E 7 1 '.', E 8 1 '.', E 0 2 '.', E 0 3 '.', E 0 4 '.', E 0 5 '.', E 0 6 '.', E 0 7 '.', E 0 8 '.', E 1 2 '.', E 2 2 '.']⟩

-- rd chain: pass1 flag true, pass2 flag false, final rdL4

/-- Intermediate board literal of the staged evaluation. -/
def hsL5 : Board :=
  ⟨[[T 0 0 '.' ['1'], T 0 1 '.' ['1', '2', '3', '4', '5', '6', '7', '8', '9'], T 0 2 '.' ['1', '2', '3', '4', '5', '6', '7', '8', '9'], T 0 3 '.' ['1', '2', '3', '4', '5', '6', '7', '8', '9'], T 0 4 '.' ['1', '2', '3', '4', '5', '6', '7', '8', '9'], T 0 5 '.' ['1', '2', '3', '4', '5', '6', '7', '8', '9'], T 0 6 '.' ['1', '2', '3', '4', '5', '6', '7', '8', '9'], T 0 7 '.' ['1', '2', '3', '4', '5', '6', '7', '8', '9'], T 0 8 '.' ['1', '2', '3', '4', '5', '6', '7', '8', '9']],
   [T 1 0 '.' ['2', '3', '4', '5', '6', '7', '8', '9'], T 1 1 '.' ['1', '2', '3', '4', '5', '6', '7', '8', '9'], T 1 2 '.' ['1', '2', '3', '4', '5', '6', '7', '8', '9'], T 1 3 '.' ['1', '2', '3', '4', '5', '6', '7', '8', '9'], T 1 4 '.' ['1', '2', '3', '4', '5', '6', '7', '8', '9'], T 1 5 '.' ['1', '2', '3', '4', '5', '6', '7', '8', '9'], T 1 6 '.' ['1', '2', '3', '4', '5', '6', '7', '8', '9'], T 1 7 '.' ['1', '2', '3', '4', '5', '6', '7', '8', '9'], T 1 8 '.' ['1', '2', '3', '4', '5', '6', '7', '8', '9']],
   [T 2 0 '.' ['2', '3', '4', '5', '6', '7', '8', '9'], T 2 1 '.' ['1', '2', '3', '4', '5', '6', '7', '8', '9'], T 2 2 '.' ['1', '2', '3', '4', '5', '6', '7', '8', '9'], T 2 3 '.' ['1', '2', '3', '4', '5', '6', '7', '8', '9'], T 2 4 '.' ['1', '2', '3', '4', '5', '6', '7', '8', '9'], T 2 5 '.' ['1', '2', '3', '4', '5', '6', '7', '8', '9'], T 2 6 '.' ['1', '2', '3', '4', '5', '6', '7', '8', '9'], T 2 7 '.' ['1', '2', '3', '4', '5', '6', '7', '8', '9'], T 2 8 '.' ['1', '2', '3', '4', '5', '6', '7', '8', '9']],
   [T 3 0 '.' ['2', '3', '4', '5', '6', '7', '8', '9'], T 3 1 '.' ['1', '2', '3', '4', '5', '6', '7', '8', '9'], T 3 2 '.' ['1', '2', '3', '4', '5', '6', '7', '8', '9'], T 3 3 '.' ['1', '2', '3', '4', '5', '6', '7', '8', '9'], T 3 4 '.' ['1', '2', '3', '4', '5', '6', '7', '8', '9'], T 3 5 '.' ['1', '2', '3', '4', '5', '6', '7', '8', '9'], T 3 6 '.' ['1', '2', '3', '4', '5', '6', '7', '8', '9'], T 3 7 '.' ['1', '2', '3', '4', '5', '6', '7', '8', '9'], T 3 8 '.' ['1', '2', '3', '4', '5', '6', '7', '8', '9']],
   [T 4 0 '.' ['2', '3', '4', '5', '6', '7', '8', '9'], T 4 1 '.' ['1', '2', '3', '4', '5', '6', '7', '8', '9'], T 4 2 '.' ['1', '2', '3', '4', '5', '6', '7', '8', '9'], T 4 3 '.' ['1', '2', '3', '4', '5', '6', '7', '8', '9'], T 4 4 '.' ['1', '2', '3', '4', '5', '6', '7', '8', '9'], T 4 5 '.' ['1', '2', '3', '4', '5', '6', '7', '8', '9'], T 4 6 '.' ['1', '2', '3', '4', '5', '6', '7', '8', '9'], T 4 7 '.' ['1', '2', '3', '4', '5', '6', '7', '8', '9'], T 4 8 '.' ['1', '2', '3', '4', '5', '6', '7', '8', '9']],
   [T 5 0 '.' ['2', '3', '4', '5', '6', '7', '8', '9'], T 5 1 '.' ['1', '2', '3', '4', '5', '6', '7', '8', '9'], T 5 2 '.' ['1', '2', '3', '4', '5', '6', '7', '8', '9'], T 5 3 '.' ['1', '2', '3', '4', '5', '6', '7', '8', '9'], T 5 4 '.' ['1', '2', '3', '4', '5', '6', '7', '8', '9'], T 5 5 '.' ['1', '2', '3', '4', '5', '6', '7', '8', '9'], T 5 6 '.' ['1', '2', '3', '4', '5', '6', '7', '8', '9'], T 5 7 '.' ['1', '2', '3', '4', '5', '6', '7', '8', '9'], T 5 8 '.' ['1', '2', '3', '4', '5', '6', '7', '8', '9']],
   [T 6 0 '.' ['2', '3', '4', '5', '6', '7', '8', '9'], T 6 1 '.' ['1', '2', '3', '4', '5', '6', '7', '8', '9'], T 6 2 '.' ['1', '2', '3', '4', '5', '6', '7', '8', '9'], T 6 3 '.' ['1', '2', '3', '4', '5', '6', '7', '8', '9'], T 6 4 '.' ['1', '2', '3', '4', '5', '6', '7', '8', '9'], T 6 5 '.' ['1', '2', '3', '4', '5', '6', '7', '8', '9'], T 6 6 '.' ['1', '2', '3', '4', '5', '6', '7', '8', '9'], T 6 7 '.' ['1', '2', '3', '4', '5', '6', '7', '8', '9'], T 6 8 '.' ['1', '2', '3', '4', '5', '6', '7', '8', '9']],
   [T 7 0 '.' ['2', '3', '4', '5', '6', '7', '8', '9'], T 7 1 '.' ['1', '2', '3', '4', '5', '6', '7', '8', '9'], T 7 2 '.' ['1', '2', '3', '4', '5', '6', '7', '8', '9'], T 7 3 '.' ['1', '2', '3', '4', '5', '6', '7', '8', '9'], T 7 4 '.' ['1', '2', '3', '4', '5', '6', '7', '8', '9'], T 7 5 '.' ['1', '2', '3', '4', '5', '6', '7', '8', '9'], T 7 6 '.' ['1', '2', '3', '4', '5', '6', '7', '8', '9'], T 7 7 '.' ['1', '2', '3', '4', '5', '6', '7', '8', '9'], T 7 8 '.' ['1', '2', '3', '4', '5', '6', '7', '8', '9']],
   [T 8 0 '.' ['2', '3', '4', '5', '6', '7', '8', '9'], T 8 1 '.' ['1', '2', '3', '4', '5', '6', '7', '8', '9'], T 8 2 '.' ['1', '2', '3', '4', '5', '6', '7', '8', '9'], T 8 3 '.' ['1', '2', '3', '4', '5', '6', '7', '8', '9'], T 8 4 '.' ['1', '2', '3', '4', '5', '6', '7', '8', '9'], T 8 5 '.' ['1', '2', '3', '4', '5', '6', '7', '8', '9'], T 8 6 '.' ['1', '2', '3', '4', '5', '6', '7', '8', '9'], T 8 7 '.' ['1', '2', '3', '4', '5', '6', '7', '8', '9'], T 8 8 '.' ['1', '2', '3', '4', '5', '6', '7', '8', '9']]],
   []⟩

/-- Intermediate board literal of the staged evaluation. -/
def hsL6 : Board :=
  ⟨[[T 0 0 '1' ['1'], T 0 1 '.' ['1', '2', '3', '4', '5', '6', '7', '8', '9'], T 0 2 '.' ['1', '2', '3', '4', '5', '6', '7', '8', '9'], T 0 3 '.' ['1', '2', '3', '4', '5', '6', '7', '8', '9'], T 0 4 '.' ['1', '2', '3', '4', '5', '6', '7', '8', '9'], T 0 5 '.' ['1', '2', '3', '4', '5', '6', '7', '8', '9'], T 0 6 '.' ['1', '2', '3', '4', '5', '6', '7', '8', '9'], T 0 7 '.' ['1', '2', '3', '4', '5', '6', '7', '8', '9'], T 0 8 '.' ['1', '2', '3', '4', '5', '6', '7', '8', '9']],
   [T 1 0 '.' ['2', '3', '4', '5', '6', '7', '8', '9'], T 1 1 '.' ['1', '2', '3', '4', '5', '6', '7', '8', '9'], T 1 2 '.' ['1', '2', '3', '4', '5', '6', '7', '8', '9'], T 1 3 '.' ['1', '2', '3', '4', '5', '6', '7', '8', '9'], T 1 4 '.' ['1', '2', '3', '4', '5', '6', '7', '8', '9'], T 1 5 '.' ['1', '2', '3', '4', '5', '6', '7', '8', '9'], T 1 6 '.' ['1', '2', '3', '4', '5', '6', '7', '8', '9'], T 1 7 '.' ['1', '2', '3', '4', '5', '6', '7', '8', '9'], T 1 8 '.' ['1', '2', '3', '4', '5', '6', '7', '8', '9']],
   [T 2 0 '.' ['2', '3', '4', '5', '6', '7', '8', '9'], T 2 1 '.' ['1', '2', '3', '4', '5', '6', '7', '8', '9'], T 2 2 '.' ['1', '2', '3', '4', '5', '6', '7', '8', '9'], T 2 3 '.' ['1', '2', '3', '4', '5', '6', '7', '8', '9'], T 2 4 '.' ['1', '2', '3', '4', '5', '6', '7', '8', '9'], T 2 5 '.' ['1', '2', '3', '4', '5', '6', '7', '8', '9'], T 2 6 '.' ['1', '2', '3', '4', '5', '6', '7', '8', '9'], T 2 7 '.' ['1', '2', '3', '4', '5', '6', '7', '8', '9'], T 2 8 '.' ['1', '2', '3', '4', '5', '6', '7', '8', '9']],
   [T 3 0 '.' ['2', '3', '4', '5', '6', '7', '8', '9'], T 3 1 '.' ['1', '2', '3', '4', '5', '6', '7', '8', '9'], T 3 2 '.' ['1', '2', '3', '4', '5', '6', '7', '8', '9'], T 3 3 '.' ['1', '2', '3', '4', '5', '6', '7', '8', '9'], T 3 4 '.' ['1', '2', '3', '4', '5', '6', '7', '8', '9'], T 3 5 '.' ['1', '2', '3', '4', '5', '6', '7', '8', '9'], T 3 6 '.' ['1', '2', '3', '4', '5', '6', '7', '8', '9'], T 3 7 '.' ['1', '2', '3', '4', '5', '6', '7', '8', '9'], T 3 8 '.' ['1', '2', '3', '4', '5', '6', '7', '8', '9']],
   [T 4 0 '.' ['2', '3', '4', '5', '6', '7', '8', '9'], T 4 1 '.' ['1', '2', '3', '4', '5', '6', '7', '8', '9'], T 4 2 '.' ['1', '2', '3', '4', '5', '6', '7', '8', '9'], T 4 3 '.' ['1', '2', '3', '4', '5', '6', '7', '8', '9'], T 4 4 '.' ['1', '2', '3', '4', '5', '6', '7', '8', '9'], T 4 5 '.' ['1', '2', '3', '4', '5', '6', '7', '8', '9'], T 4 6 '.' ['1', '2', '3', '4', '5', '6', '7', '8', '9'], T 4 7 '.' ['1', '2', '3', '4', '5', '6', '7', '8', '9'], T 4 8 '.' ['1', '2', '3', '4', '5', '6', '7', '8', '9']],
   [T 5 0 '.' ['2', '3', '4', '5', '6', '7', '8', '9'], T 5 1 '.' ['1', '2', '3', '4', '5', '6', '7', '8', '9'], T 5 2 '.' ['1', '2', '3', '4', '5', '6', '7', '8', '9'], T 5 3 '.' ['1', '2', '3', '4', '5', '6', '7', '8', '9'], T 5 4 '.' ['1', '2', '3', '4', '5', '6', '7', '8', '9'], T 5 5 '.' ['1', '2', '3', '4', '5', '6', '7', '8', '9'], T 5 6 '.' ['1', '2', '3', '4', '5', '6', '7', '8', '9'], T 5 7 '.' ['1', '2', '3', '4', '5', '6', '7', '8', '9'], T 5 8 '.' ['1', '2', '3', '4', '5', '6', '7', '8', '9']],
   [T 6 0 '.' ['2', '3', '4', '5', '6', '7', '8', '9'], T 6 1 '.' ['1', '2', '3', '4', '5', '6', '7', '8', '9'], T 6 2 '.' ['1', '2', '3', '4', '5', '6', '7', '8', '9'], T 6 3 '.' ['1', '2', '3', '4', '5', '6', '7', '8', '9'], T 6 4 '.' ['1', '2', '3', '4', '5', '6', '7', '8', '9'], T 6 5 '.' ['1', '2', '3', '4', '5', '6', '7', '8', '9'], T 6 6 '.' ['1', '2', '3', '4', '5', '6', '7', '8', '9'], T 6 7 '.' ['1', '2', '3', '4', '5', '6', '7', '8', '9'], T 6 8 '.' ['1', '2', '3', '4', '5', '6', '7', '8', '9']],
   [T 7 0 '.' ['2', '3', '4', '5', '6', '7', '8', '9'], T 7 1 '.' ['1', '2', '3', '4', '5', '6', '7', '8', '9'], T 7 2 '.' ['1', '2', '3', '4', '5', '6', '7', '8', '9'], T 7 3 '.' ['1', '2', '3', '4', '5', '6', '7', '8', '9'], T 7 4 '.' ['1', '2', '3', '4', '5', '6', '7', '8', '9'], T 7 5 '.' ['1', '2', '3', '4', '5', '6', '7', '8', '9'], T 7 6 '.' ['1', '2', '3', '4', '5', '6', '7', '8', '9'], T 7 7 '.' ['1', '2', '3', '4', '5', '6', '7', '8', '9'], T 7 8 '.' ['1', '2', '3', '4', '5', '6', '7', '8', '9']],
   [T 8 0 '.' ['2', '3', '4', '5', '6', '7', '8', '9'], T 8 1 '.' ['1', '2', '3', '4', '5', '6', '7', '8', '9'], T 8 2 '.' ['1', '2', '3', '4', '5', '6', '7', '8', '9'], T 8 3 '.' ['1', '2', '3', '4', '5', '6', '7', '8', '9'], T 8 4 '.' ['1', '2', '3', '4', '5', '6', '7', '8', '9'], T 8 5 '.' ['1', '2', '3', '4', '5', '6', '7', '8', '9'], T 8 6 '.' ['1', '2', '3', '4', '5', '6', '7', '8', '9'], T 8 7 '.' ['1', '2', '3', '4', '5', '6', '7', '8', '9'], T 8 8 '.' ['1', '2', '3', '4', '5', '6', '7', '8', '9']]],
   []⟩

/-- Intermediate board literal of the staged evaluation. -/
def hsL7 : Board :=
  ⟨[[T 0 0 '1' ['1'], T 0 1 '.' ['2', '3', '4', '5', '6', '7', '8', '9'], T 0 2 '.' ['2', '3', '4', '5', '6', '7', '8', '9'], T 0 3 '.' ['2', '3', '4', '5', '6', '7', '8', '9'], T 0 4 '.' ['2', '3', '4', '5', '6', '7', '8', '9'], T 0 5 '.' ['2', '3', '4', '5', '6', '7', '8', '9'], T 0 6 '.' ['2', '3', '4', '5', '6', '7', '8', '9'], T 0 7 '.' ['2', '3', '4', '5', '6', '7', '8', '9'], T 0 8 '.' ['2', '3', '4', '5', '6', '7', '8', '9']],
   [T 1 0 '.' ['2', '3', '4', '5', '6', '7', '8', '9'], T 1 1 '.' ['1', '2', '3', '4', '5', '6', '7', '8', '9'], T 1 2 '.' ['1', '2', '3', '4', '5', '6', '7', '8', '9'], T 1 3 '.' ['1', '2', '3', '4', '5', '6', '7', '8', '9'], T 1 4 '.' ['1', '2', '3', '4', '5', '6', '7', '8', '9'], T 1 5 '.' ['1', '2', '3', '4', '5', '6', '7', '8', '9'], T 1 6 '.' ['1', '2', '3', '4', '5', '6', '7', '8', '9'], T 1 7 '.' ['1', '2', '3', '4', '5', '6', '7', '8', '9'], T 1 8 '.' ['1', '2', '3', '4', '5', '6', '7', '8', '9']],
   [T 2 0 '.' ['2', '3', '4', '5', '6', '7', '8', '9'], T 2 1 '.' ['1', '2', '3', '4', '5', '6', '7', '8', '9'], T 2 2 '.' ['1', '2', '3', '4', '5', '6', '7', '8', '9'], T 2 3 '.' ['1', '2', '3', '4', '5', '6', '7', '8', '9'], T 2 4 '.' ['1', '2', '3', '4', '5', '6', '7', '8', '9'], T 2 5 '.' ['1', '2', '3', '4', '5', '6', '7', '8', '9'], T 2 6 '.' ['1', '2', '3', '4', '5', '6', '7', '8', '9'], T 2 7 '.' ['1', '2', '3', '4', '5', '6', '7', '8', '9'], T 2 8 '.' ['1', '2', '3', '4', '5', '6', '7', '8', '9']],
   [T 3 0 '.' ['2', '3', '4', '5', '6', '7', '8', '9'], T 3 1 '.' ['1', '2', '3', '4', '5', '6', '7', '8', '9'], T 3 2 '.' ['1', '2', '3', '4', '5', '6', '7', '8', '9'], T 3 3 '.' ['1', '2', '3', '4', '5', '6', '7', '8', '9'], T 3 4 '.' ['1', '2', '3', '4', '5', '6', '7', '8', '9'], T 3 5 '.' ['1', '2', '3', '4', '5', '6', '7', '8', '9'], T 3 6 '.' ['1', '2', '3', '4', '5', '6', '7', '8', '9'], T 3 7 '.' ['1', '2', '3', '4', '5', '6', '7', '8', '9'], T 3 8 '.' ['1', '2', '3', '4', '5', '6', '7', '8', '9']],
   [T 4 0 '.' ['2', '3', '4', '5', '6', '7', '8', '9'], T 4 1 '.' ['1', '2', '3', '4', '5', '6', '7', '8', '9'], T 4 2 '.' ['1', '2', '3', '4', '5', '6', '7', '8', '9'], T 4 3 '.' ['1', '2', '3', '4', '5', '6', '7', '8', '9'], T 4 4 '.' ['1', '2', '3', '4', '5', '6', '7', '8', '9'], T 4 5 '.' ['1', '2', '3', '4', '5', '6', '7', '8', '9'], T 4 6 '.' ['1', '2', '3', '4', '5', '6', '7', '8', '9'], T 4 7 '.' ['1', '2', '3', '4', '5', '6', '7', '8', '9'], T 4 8 '.' ['1', '2', '3', '4', '5', '6', '7', '8', '9']],
   [T 5 0 '.' ['2', '3', '4', '5', '6', '7', '8', '9'], T 5 1 '.' ['1', '2', '3', '4', '5', '6', '7', '8', '9'], T 5 2 '.' ['1', '2', '3', '4', '5', '6', '7', '8', '9'], T 5 3 '.' ['1', '2', '3', '4', '5', '6', '7', '8', '9'], T 5 4 '.' ['1', '2', '3', '4', '5', '6', '7', '8', '9'], T 5 5 '.' ['1', '2', '3', '4', '5', '6', '7', '8', '9'], T 5 6 '.' ['1', '2', '3', '4', '5', '6', '7', '8', '9'], T 5 7 '.' ['1', '2', '3', '4', '5', '6', '7', '8', '9'], T 5 8 '.' ['1', '2', '3', '4', '5', '6', '7', '8', '9']],
   [T 6 0 '.' ['2', '3', '4', '5', '6', '7', '8', '9'], T 6 1 '.' ['1', '2', '3', '4', '5', '6', '7', '8', '9'], T 6 2 '.' ['1', '2', '3', '4', '5', '6', '7', '8', '9'], T 6 3 '.' ['1', '2', '3', '4', '5', '6', '7', '8', '9'], T 6 4 '.' ['1', '2', '3', '4', '5', '6', '7', '8', '9'], T 6 5 '.' ['1', '2', '3', '4', '5', '6', '7', '8', '9'], T 6 6 '.' ['1', '2', '3', '4', '5', '6', '7', '8', '9'], T 6 7 '.' ['1', '2', '3', '4', '5', '6', '7', '8', '9'], T 6 8 '.' ['1', '2', '3', '4', '5', '6', '7', '8', '9']],
   [T 7 0 '.' ['2', '3', '4', '5', '6', '7', '8', '9'], T 7 1 '.' ['1', '2', '3', '4', '5', '6', '7', '8', '9'], T 7 2 '.' ['1', '2', '3', '4', '5', '6', '7', '8', '9'], T 7 3 '.' ['1', '2', '3', '4', '5', '6', '7', '8', '9'], T 7 4 '.' ['1', '2', '3', '4', '5', '6', '7', '8', '9'], T 7 5 '.' ['1', '2', '3', '4', '5', '6', '7', '8', '9'], T 7 6 '.' ['1', '2', '3', '4', '5', '6', '7', '8', '9'], T 7 7 '.' ['1', '2', '3', '4', '5', '6', '7', '8', '9'], T 7 8 '.' ['1', '2', '3', '4', '5', '6', '7', '8', '9']],
   [T 8 0 '.' ['2', '3', '4', '5', '6', '7', '8', '9'], T 8 1 '.' ['1', '2', '3', '4', '5', '6', '7', '8', '9'], T 8 2 '.' ['1', '2', '3', '4', '5', '6', '7', '8', '9'], T 8 3 '.' ['1', '2', '3', '4', '5', '6', '7', '8', '9'], T 8 4 '.' ['1', '2', '3', '4', '5', '6', '7', '8', '9'], T 8 5 '.' ['1', '2', '3', '4', '5', '6', '7', '8', '9'], T 8 6 '.' ['1', '2', '3', '4', '5', '6', '7', '8', '9'], T 8 7 '.' ['1', '2', '3', '4', '5', '6', '7', '8', '9'], T 8 8 '.' ['1', '2', '3', '4', '5', '6', '7', '8', '9']]],
   []⟩

/-- Intermediate board literal of the staged evaluation. -/
def hsL8 : Board :=
  ⟨[[T 0 0 '1' ['1'], T 0 1 '.' ['2', '3', '4', '5', '6', '7', '8', '9'], T 0 2 '.' ['2', '3', '4', '5', '6', '7', '8', '9'], T 0 3 '.' ['2', '3', '4', '5', '6', '7', '8', '9'], T 0 4 '.' ['2', '3', '4', '5', '6', '7', '8', '9'], T 0 5 '.' ['2', '3', '4', '5', '6', '7', '8', '9'], T 0 6 '.' ['2', '3', '4', '5', '6', '7', '8', '9'], T 0 7 '.' ['2', '3', '4', '5', '6', '7', '8', '9'], T 0 8 '.' ['2', '3', '4', '5', '6', '7', '8', '9']],
   [T 1 0 '.' ['2', '3', '4', '5', '6', '7', '8', '9'], T 1 1 '.' ['2', '3', '4', '5', '6', '7', '8', '9'], T 1 2 '.' ['2', '3', '4', '5', '6', '7', '8', '9'], T 1 3 '.' ['1', '2', '3', '4', '5', '6', '7', '8', '9'], T 1 4 '.' ['1', '2', '3', '4', '5', '6', '7', '8', '9'], T 1 5 '.' ['1', '2', '3', '4', '5', '6', '7', '8', '9'], T 1 6 '.' ['1', '2', '3', '4', '5', '6', '7', '8', '9'], T 1 7 '.' ['1', '2', '3', '4', '5', '6', '7', '8', '9'], T 1 8 '.' ['1', '2', '3', '4', '5', '6', '7', '8', '9']],
   [T 2 0 '.' ['2', '3', '4', '5', '6', '7', '8', '9'], T 2 1 '.' ['2', '3', '4', '5', '6', '7', '8', '9'], T 2 2 '.' ['2', '3', '4', '5', '6', '7', '8', '9'], T 2 3 '.' ['1', '2', '3', '4', '5', '6', '7', '8', '9'], T 2 4 '.' ['1', '2', '3', '4', '5', '6', '7', '8', '9'], T 2 5 '.' ['1', '2', '3', '4', '5', '6', '7', '8', '9'], T 2 6 '.' ['1', '2', '3', '4', '5', '6', '7', '8', '9'], T 2 7 '.' ['1', '2', '3', '4', '5', '6', '7', '8', '9'], T 2 8 '.' ['1', '2', '3', '4', '5', '6', '7', '8', '9']],
   [T 3 0 '.' ['2', '3', '4', '5', '6', '7', '8', '9'], T 3 1 '.' ['1', '2', '3', '4', '5', '6', '7', '8', '9'], T 3 2 '.' ['1', '2', '3', '4', '5', '6', '7', '8', '9'], T 3 3 '.' ['1', '2', '3', '4', '5', '6', '7', '8', '9'], T 3 4 '.' ['1', '2', '3', '4', '5', '6', '7', '8', '9'], T 3 5 '.' ['1', '2', '3', '4', '5', '6', '7', '8', '9'], T 3 6 '.' ['1', '2', '3', '4', '5', '6', '7', '8', '9'], T 3 7 '.' ['1', '2', '3', '4', '5', '6', '7', '8', '9'], T 3 8 '.' ['1', '2', '3', '4', '5', '6', '7', '8', '9']],
   [T 4 0 '.' ['2', '3', '4', '5', '6', '7', '8', '9'], T 4 1 '.' ['1', '2', '3', '4', '5', '6', '7', '8', '9'], T 4 2 '.' ['1', '2', '3', '4', '5', '6', '7', '8', '9'], T 4 3 '.' ['1', '2', '3', '4', '5', '6', '7', '8', '9'], T 4 4 '.' ['1', '2', '3', '4', '5', '6', '7', '8', '9'], T 4 5 '.' ['1', '2', '3', '4', '5', '6', '7', '8', '9'], T 4 6 '.' ['1', '2', '3', '4', '5', '6', '7', '8', '9'], T 4 7 '.' ['1', '2', '3', '4', '5', '6', '7', '8', '9'], T 4 8 '.' ['1', '2', '3', '4', '5', '6', '7', '8', '9']],
   [T 5 0 '.' ['2', '3', '4', '5', '6', '7', '8', '9'], T 5 1 '.' ['1', '2', '3', '4', '5', '6', '7', '8', '9'], T 5 2 '.' ['1', '2', '3', '4', '5', '6', '7', '8', '9'], T 5 3 '.' ['1', '2', '3', '4', '5', '6', '7', '8', '9'], T 5 4 '.' ['1', '2', '3', '4', '5', '6', '7', '8', '9'], T 5 5 '.' ['1', '2', '3', '4', '5', '6', '7', '8', '9'], T 5 6 '.' ['1', '2', '3', '4', '5', '6', '7', '8', '9'], T 5 7 '.' ['1', '2', '3', '4', '5', '6', '7', '8', '9'], T 5 8 '.' ['1', '2', '3', '4', '5', '6', '7', '8', '9']],
   [T 6 0 '.' ['2', '3', '4', '5', '6', '7', '8', '9'], T 6 1 '.' ['1', '2', '3', '4', '5', '6', '7', '8', '9'], T 6 2 '.' ['1', '2', '3', '4', '5', '6', '7', '8', '9'], T 6 3 '.' ['1', '2', '3', '4', '5', '6', '7', '8', '9'], T 6 4 '.' ['1', '2', '3', '4', '5', '6', '7', '8', '9'], T 6 5 '.' ['1', '2', '3', '4', '5', '6', '7', '8', '9'], T 6 6 '.' ['1', '2', '3', '4', '5', '6', '7', '8', '9'], T 6 7 '.' ['1', '2', '3', '4', '5', '6', '7', '8', '9'], T 6 8 '.' ['1', '2', '3', '4', '5', '6', '7', '8', '9']],
   [T 7 0 '.' ['2', '3', '4', '5', '6', '7', '8', '9'], T 7 1 '.' ['1', '2', '3', '4', '5', '6', '7', '8', '9'], T 7 2 '.' ['1', '2', '3', '4', '5', '6', '7', '8', '9'], T 7 3 '.' ['1', '2', '3', '4', '5', '6', '7', '8', '9'], T 7 4 '.' ['1', '2', '3', '4', '5', '6', '7', '8', '9'], T 7 5 '.' ['1', '2', '3', '4', '5', '6', '7', '8', '9'], T 7 6 '.' ['1', '2', '3', '4', '5', '6', '7', '8', '9'], T 7 7 '.' ['1', '2', '3', '4', '5', '6', '7', '8', '9'], T 7 8 '.' ['1', '2', '3', '4', '5', '6', '7', '8', '9']],
   [T 8 0 '.' ['2', '3', '4', '5', '6', '7', '8', '9'], T 8 1 '.' ['1', '2', '3', '4', '5', '6', '7', '8', '9'], T 8 2 '.' ['1', '2', '3', '4', '5', '6', '7', '8', '9'], T 8 3 '.' ['1', '2', '3', '4', '5', '6', '7', '8', '9'], T 8 4 '.' ['1', '2', '3', '4', '5', '6', '7', '8', '9'], T 8 5 '.' ['1', '2', '3', '4', '5', '6', '7', '8', '9'], T 8 6 '.' ['1', '2', '3', '4', '5', '6', '7', '8', '9'], T 8 7 '.' ['1', '2', '3', '4', '5', '6', '7', '8', '9'], T 8 8 '.' ['1', '2', '3', '4', '5', '6', '7', '8', '9']]],
   []⟩

-- hs chain: naked flag false, after-naked hsL5, final hsL8

/-- Intermediate board literal of the staged evaluation. -/
def onL9 : Board :=
  ⟨[[T 0 0 '1' ['1'], T 0 1 '.' ['1', '2', '3', '4', '5', '6', '7', '8', '9'], T 0 2 '.' ['1', '2', '3', '4', '5', '6', '7', '8', '9'], T 0 3 '.' ['1', '2', '3', '4', '5', '6', '7', '8', '9'], T 0 4 '.' ['1', '2', '3', '4', '5', '6', '7', '8', '9'], T 0 5 '.' ['1', '2', '3', '4', '5', '6', '7', '8', '9'], T 0 6 '.' ['1', '2', '3', '4', '5', '6', '7', '8', '9'], T 0 7 '.' ['1', '2', '3', '4', '5', '6', '7', '8', '9'], T 0 8 '.' ['1', '2', '3', '4', '5', '6', '7', '8', '9']],
   [T 1 0 '.' ['1', '2', '3', '4', '5', '6', '7', '8', '9'], T 1 1 '.' ['1', '2', '3', '4', '5', '6', '7', '8', '9'], T 1 2 '.' ['1', '2', '3', '4', '5', '6', '7', '8', '9'], T 1 3 '.' ['1', '2', '3', '4', '5', '6', '7', '8', '9'], T 1 4 '.' ['1', '2', '3', '4', '5', '6', '7', '8', '9'], T 1 5 '.' ['1', '2', '3', '4', '5', '6', '7', '8', '9'], T 1 6 '.' ['1', '2', '3', '4', '5', '6', '7', '8', '9'], T 1 7 '.' ['1', '2', '3', '4', '5', '6', '7', '8', '9'], T 1 8 '.' ['1', '2', '3', '4', '5', '6', '7', '8', '9']],
   [T 2 0 '.' ['1', '2', '3', '4', '5', '6', '7', '8', '9'], T 2 1 '.' ['1', '2', '3', '4', '5', '6', '7', '8', '9'], T 2 2 '.' ['1', '2', '3', '4', '5', '6', '7', '8', '9'], T 2 3 '.' ['1', '2', '3', '4', '5', '6', '7', '8', '9'], T 2 4 '.' ['1', '2', '3', '4', '5', '6', '7', '8', '9'], T 2 5 '.' ['1', '2', '3', '4', '5', '6', '7', '8', '9'], T 2 6 '.' ['1', '2', '3', '4', '5', '6', '7', '8', '9'], T 2 7 '.' ['1', '2', '3', '4', '5', '6', '7', '8', '9'], T 2 8 '.' ['1', '2', '3', '4', '5', '6', '7', '8', '9']],
   [T 3 0 '.' ['1', '2', '3', '4', '5', '6', '7', '8', '9'], T 3 1 '.' ['1', '2', '3', '4', '5', '6', '7', '8', '9'], T 3 2 '.' ['1', '2', '3', '4', '5', '6', '7', '8', '9'], T 3 3 '.' ['1', '2', '3', '4', '5', '6', '7', '8', '9'], T 3 4 '.' ['1', '2', '3', '4', '5', '6', '7', '8', '9'], T 3 5 '.' ['1', '2', '3', '4', '5', '6', '7', '8', '9'], T 3 6 '.' ['1', '2', '3', '4', '5', '6', '7', '8', '9'], T 3 7 '.' ['1', '2', '3', '4', '5', '6', '7', '8', '9'], T 3 8 '.' ['1', '2', '3', '4', '5', '6', '7', '8', '9']],
   [T 4 0 '.' ['1', '2', '3', '4', '5', '6', '7', '8', '9'], T 4 1 '.' ['1', '2', '3', '4', '5', '6', '7', '8', '9'], T 4 2 '.' ['1', '2', '3', '4', '5', '6', '7', '8', '9'], T 4 3 '.' ['1', '2', '3', '4', '5', '6', '7', '8', '9'], T 4 4 '.' ['1', '2', '3', '4', '5', '6', '7', '8', '9'], T 4 5 '.' ['1', '2', '3', '4', '5', '6', '7', '8', '9'], T 4 6 '.' ['1', '2', '3', '4', '5', '6', '7', '8', '9'], T 4 7 '.' ['1', '2', '3', '4', '5', '6', '7', '8', '9'], T 4 8 '.' ['1', '2', '3', '4', '5', '6', '7', '8', '9']],
   [T 5 0 '.' ['1', '2', '3', '4', '5', '6', '7', '8', '9'], T 5 1 '.' ['1', '2', '3', '4', '5', '6', '7', '8', '9'], T 5 2 '.' ['1', '2', '3', '4', '5', '6', '7', '8', '9'], T 5 3 '.' ['1', '2', '3', '4', '5', '6', '7', '8', '9'], T 5 4 '.' ['1', '2', '3', '4', '5', '6', '7', '8', '9'], T 5 5 '.' ['1', '2', '3', '4', '5', '6', '7', '8', '9'], T 5 6 '.' ['1', '2', '3', '4', '5', '6', '7', '8', '9'], T 5 7 '.' ['1', '2', '3', '4', '5', '6', '7', '8', '9'], T 5 8 '.' ['1', '2', '3', '4', '5', '6', '7', '8', '9']],
   [T 6 0 '.' ['1', '2', '3', '4', '5', '6', '7', '8', '9'], T 6 1 '.' ['1', '2', '3', '4', '5', '6', '7', '8', '9'], T 6 2 '.' ['1', '2', '3', '4', '5', '6', '7', '8', '9'], T 6 3 '.' ['1', '2', '3', '4', '5', '6', '7', '8', '9'], T 6 4 '.' ['1', '2', '3', '4', '5', '6', '7', '8', '9'], T 6 5 '.' ['1', '2', '3', '4', '5', '6', '7', '8', '9'], T 6 6 '.' ['1', '2', '3', '4', '5', '6', '7', '8', '9'], T 6 7 '.' ['1', '2', '3', '4', '5', '6', '7', '8', '9'], T 6 8 '.' ['1', '2', '3', '4', '5', '6', '7', '8', '9']],
   [T 7 0 '.' ['1', '2', '3', '4', '5', '6', '7', '8', '9'], T 7 1 '.' ['1', '2', '3', '4', '5', '6', '7', '8', '9'], T 7 2 '.' ['1', '2', '3', '4', '5', '6', '7', '8', '9'], T 7 3 '.' ['1', '2', '3', '4', '5', '6', '7', '8', '9'], T 7 4 '.' ['1', '2', '3', '4', '5', '6', '7', '8', '9'], T 7 5 '.' ['1', '2', '3', '4', '5', '6', '7', '8', '9'], T 7 6 '.' ['1', '2', '3', '4', '5', '6', '7', '8', '9'], T 7 7 '.' ['1', '2', '3', '4', '5', '6', '7', '8', '9'], T 7 8 '.' ['1', '2', '3', '4', '5', '6', '7', '8', '9']],
   [T 8 0 '.' ['1', '2', '3', '4', '5', '6', '7', '8', '9'], T 8 1 '.' ['1', '2', '3', '4', '5', '6', '7', '8', '9'], T 8 2 '.' ['1', '2', '3', '4', '5', '6', '7', '8', '9'], T 8 3 '.' ['1', '2', '3', '4', '5', '6', '7', '8', '9'], T 8 4 '.' ['1', '2', '3', '4', '5', '6', '7', '8', '9'], T 8 5 '.' ['1', '2', '3', '4', '5', '6', '7', '8', '9'], T 8 6 '.' ['1', '2', '3', '4', '5', '6', '7', '8', '9'], T 8 7 '.' ['1', '2', '3', '4', '5', '6', '7', '8', '9'], T 8 8 '.' ['1', '2', '3', '4', '5', '6', '7', '8', '9']]],
   []⟩

/-- Intermediate board literal of the staged evaluation. -/
def onL10 : Board :=
  ⟨[[T 0 0 '1' [], T 0 1 '.' ['1', '2', '3', '4', '5', '6', '7', '8', '9'], T 0 2 '.' ['1', '2', '3', '4', '5', '6', '7', '8', '9'], T 0 3 '.' ['1', '2', '3', '4', '5', '6', '7', '8', '9'], T 0 4 '.' ['1', '2', '3', '4', '5', '6', '7', '8', '9'], T 0 5 '.' ['1', '2', '3', '4', '5', '6', '7', '8', '9'], T 0 6 '.' ['1', '2', '3', '4', '5', '6', '7', '8', '9'], T 0 7 '.' ['1', '2', '3', '4', '5', '6', '7', '8', '9'], T 0 8 '.' ['1', '2', '3', '4', '5', '6', '7', '8', '9']],
   [T 1 0 '.' ['2', '3', '4', '5', '6', '7', '8', '9'], T 1 1 '.' ['1', '2', '3', '4', '5', '6', '7', '8', '9'], T 1 2 '.' ['1', '2', '3', '4', '5', '6', '7', '8', '9'], T 1 3 '.' ['1', '2', '3', '4', '5', '6', '7', '8', '9'], T 1 4 '.' ['1', '2', '3', '4', '5', '6', '7', '8', '9'], T 1 5 '.' ['1', '2', '3', '4', '5', '6', '7', '8', '9'], T 1 6 '.' ['1', '2', '3', '4', '5', '6', '7', '8', '9'], T 1 7 '.' ['1', '2', '3', '4', '5', '6', '7', '8', '9'], T 1 8 '.' ['1', '2', '3', '4', '5', '6', '7', '8', '9']],
   [T 2 0 '.' ['2', '3', '4', '5', '6', '7', '8', '9'], T 2 1 '.' ['1', '2', '3', '4', '5', '6', '7', '8', '9'], T 2 2 '.' ['1', '2', '3', '4', '5', '6', '7', '8', '9'], T 2 3 '.' ['1', '2', '3', '4', '5', '6', '7', '8', '9'], T 2 4 '.' ['1', '2', '3', '4', '5', '6', '7', '8', '9'], T 2 5 '.' ['1', '2', '3', '4', '5', '6', '7', '8', '9'], T 2 6 '.' ['1', '2', '3', '4', '5', '6', '7', '8', '9'], T 2 7 '.' ['1', '2', '3', '4', '5', '6', '7', '8', '9'], T 2 8 '.' ['1', '2', '3', '4', '5', '6', '7', '8', '9']],
   [T 3 0 '.' ['2', '3', '4', '5', '6', '7', '8', '9'], T 3 1 '.' ['1', '2', '3', '4', '5', '6', '7', '8', '9'], T 3 2 '.' ['1', '2', '3', '4', '5', '6', '7', '8', '9'], T 3 3 '.' ['1', '2', '3', '4', '5', '6', '7', '8', '9'], T 3 4 '.' ['1', '2', '3', '4', '5', '6', '7', '8', '9'], T 3 5 '.' ['1', '2', '3', '4', '5', '6', '7', '8', '9'], T 3 6 '.' ['1', '2', '3', '4', '5', '6', '7', '8', '9'], T 3 7 '.' ['1', '2', '3', '4', '5', '6', '7', '8', '9'], T 3 8 '.' ['1', '2', '3', '4', '5', '6', '7', '8', '9']],
   [T 4 0 '.' ['2', '3', '4', '5', '6', '7', '8', '9'], T 4 1 '.' ['1', '2', '3', '4', '5', '6', '7', '8', '9'], T 4 2 '.' ['1', '2', '3', '4', '5', '6', '7', '8', '9'], T 4 3 '.' ['1', '2', '3', '4', '5', '6', '7', '8', '9'], T 4 4 '.' ['1', '2', '3', '4', '5', '6', '7', '8', '9'], T 4 5 '.' ['1', '2', '3', '4', '5', '6', '7', '8', '9'], T 4 6 '.' ['1', '2', '3', '4', '5', '6', '7', '8', '9'], T 4 7 '.' ['1', '2', '3', '4', '5', '6', '7', '8', '9'], T 4 8 '.' ['1', '2', '3', '4', '5', '6', '7', '8', '9']],
   [T 5 0 '.' ['2', '3', '4', '5', '6', '7', '8', '9'], T 5 1 '.' ['1', '2', '3', '4', '5', '6', '7', '8', '9'], T 5 2 '.' ['1', '2', '3', '4', '5', '6', '7', '8', '9'], T 5 3 '.' ['1', '2', '3', '4', '5', '6', '7', '8', '9'], T 5 4 '.' ['1', '2', '3', '4', '5', '6', '7', '8', '9'], T 5 5 '.' ['1', '2', '3', '4', '5', '6', '7', '8', '9'], T 5 6 '.' ['1', '2', '3', '4', '5', '6', '7', '8', '9'], T 5 7 '.' ['1', '2', '3', '4', '5', '6', '7', '8', '9'], T 5 8 '.' ['1', '2', '3', '4', '5', '6', '7', '8', '9']],
   [T 6 0 '.' ['2', '3', '4', '5', '6', '7', '8', '9'], T 6 1 '.' ['1', '2', '3', '4', '5', '6', '7', '8', '9'], T 6 2 '.' ['1', '2', '3', '4', '5', '6', '7', '8', '9'], T 6 3 '.' ['1', '2', '3', '4', '5', '6', '7', '8', '9'], T 6 4 '.' ['1', '2', '3', '4', '5', '6', '7', '8', '9'], T 6 5 '.' ['1', '2', '3', '4', '5', '6', '7', '8', '9'], T 6 6 '.' ['1', '2', '3', '4', '5', '6', '7', '8', '9'], T 6 7 '.' ['1', '2', '3', '4', '5', '6', '7', '8', '9'], T 6 8 '.' ['1', '2', '3', '4', '5', '6', '7', '8', '9']],
   [T 7 0 '.' ['2', '3', '4', '5', '6', '7', '8', '9'], T 7 1 '.' ['1', '2', '3', '4', '5', '6', '7', '8', '9'], T 7 2 '.' ['1', '2', '3', '4', '5', '6', '7', '8', '9'], T 7 3 '.' ['1', '2', '3', '4', '5', '6', '7', '8', '9'], T 7 4 '.' ['1', '2', '3', '4', '5', '6', '7', '8', '9'], T 7 5 '.' ['1', '2', '3', '4', '5', '6', '7', '8', '9'], T 7 6 '.' ['1', '2', '3', '4', '5', '6', '7', '8', '9'], T 7 7 '.' ['1', '2', '3', '4', '5', '6', '7', '8', '9'], T 7 8 '.' ['1', '2', '3', '4', '5', '6', '7', '8', '9']],
   [T 8 0 '.' ['2', '3', '4', '5', '6', '7', '8', '9'], T 8 1 '.' ['1', '2', '3', '4', '5', '6', '7', '8', '9'], T 8 2 '.' ['1', '2', '3', '4', '5', '6', '7', '8', '9'], T 8 3 '.' ['1', '2', '3', '4', '5', '6', '7', '8', '9'], T 8 4 '.' ['1', '2', '3', '4', '5', '6', '7', '8', '9'], T 8 5 '.' ['1', '2', '3', '4', '5', '6', '7', '8', '9'], T 8 6 '.' ['1', '2', '3', '4', '5', '6', '7', '8', '9'], T 8 7 '.' ['1', '2', '3', '4', '5', '6', '7', '8', '9'], T 8 8 '.' ['1', '2', '3', '4', '5', '6', '7', '8', '9']]],
   [E 0 0 '1', E 1 0 '.', E 2 0 '.', E 3 0 '.', E 4 0 '.', E 5 0 '.', E 6 0 '.', E 7 0 '.', E 8 0 '.']⟩

/-- Intermediate board literal of the staged evaluation. -/
def onL11 : Board :=
  ⟨[[T 0 0 '1' [], T 0 1 '.' ['2', '3', '4', '5', '6', '7', '8', '9'], T 0 2 '.' ['2', '3', '4', '5', '6', '7', '8', '9'], T 0 3 '.' ['2', '3', '4', '5', '6', '7', '8', '9'], T 0 4 '.' ['2', '3', '4', '5', '6', '7', '8', '9'], T 0 5 '.' ['2', '3', '4', '5', '6', '7', '8', '9'], T 0 6 '.' ['2', '3', '4', '5', '6', '7', '8', '9'], T 0 7 '.' ['2', '3', '4', '5', '6', '7', '8', '9'], T 0 8 '.' ['2', '3', '4', '5', '6', '7', '8', '9']],
   [T 1 0 '.' ['2', '3', '4', '5', '6', '7', '8', '9'], T 1 1 '.' ['1', '2', '3', '4', '5', '6', '7', '8', '9'], T 1 2 '.' ['1', '2', '3', '4', '5', '6', '7', '8', '9'], T 1 3 '.' ['1', '2', '3', '4', '5', '6', '7', '8', '9'], T 1 4 '.' ['1', '2', '3', '4', '5', '6', '7', '8', '9'], T 1 5 '.' ['1', '2', '3', '4', '5', '6', '7', '8', '9'], T 1 6 '.' ['1', '2', '3', '4', '5', '6', '7', '8', '9'], T 1 7 '.' ['1', '2', '3', '4', '5', '6', '7', '8', '9'], T 1 8 '.' ['1', '2', '3', '4', '5', '6', '7', '8', '9']],
   [T 2 0 '.' ['2', '3', '4', '5', '6', '7', '8', '9'], T 2 1 '.' ['1', '2', '3', '4', '5', '6', '7', '8', '9'], T 2 2 '.' ['1', '2', '3', '4', '5', '6', '7', '8', '9'], T 2 3 '.' ['1', '2', '3', '4', '5', '6', '7', '8', '9'], T 2 4 '.' ['1', '2', '3', '4', '5', '6', '7', '8', '9'], T 2 5 '.' ['1', '2', '3', '4', '5', '6', '7', '8', '9'], T 2 6 '.' ['1', '2', '3', '4', '5', '6', '7', '8', '9'], T 2 7 '.' ['1', '2', '3', '4', '5', '6', '7', '8', '9'], T 2 8 '.' ['1', '2', '3', '4', '5', '6', '7', '8', '9']],
   [T 3 0 '.' ['2', '3', '4', '5', '6', '7', '8', '9'], T 3 1 '.' ['1', '2', '3', '4', '5', '6', '7', '8', '9'], T 3 2 '.' ['1', '2', '3', '4', '5', '6', '7', '8', '9'], T 3 3 '.' ['1', '2', '3', '4', '5', '6', '7', '8', '9'], T 3 4 '.' ['1', '2', '3', '4', '5', '6', '7', '8', '9'], T 3 5 '.' ['1', '2', '3', '4', '5', '6', '7', '8', '9'], T 3 6 '.' ['1', '2', '3', '4', '5', '6', '7', '8', '9'], T 3 7 '.' ['1', '2', '3', '4', '5', '6', '7', '8', '9'], T 3 8 '.' ['1', '2', '3', '4', '5', '6', '7', '8', '9']],
   [T 4 0 '.' ['2', '3', '4', '5', '6', '7', '8', '9'], T 4 1 '.' ['1', '2', '3', '4', '5', '6', '7', '8', '9'], T 4 2 '.' ['1', '2', '3', '4', '5', '6', '7', '8', '9'], T 4 3 '.' ['1', '2', '3', '4', '5', '6', '7', '8', '9'], T 4 4 '.' ['1', '2', '3', '4', '5', '6', '7', '8', '9'], T 4 5 '.' ['1', '2', '3', '4', '5', '6', '7', '8', '9'], T 4 6 '.' ['1', '2', '3', '4', '5', '6', '7', '8', '9'], T 4 7 '.' ['1', '2', '3', '4', '5', '6', '7', '8', '9'], T 4 8 '.' ['1', '2', '3', '4', '5', '6', '7', '8', '9']],
   [T 5 0 '.' ['2', '3', '4', '5', '6', '7', '8', '9'], T 5 1 '.' ['1', '2', '3', '4', '5', '6', '7', '8', '9'], T 5 2 '.' ['1', '2', '3', '4', '5', '6', '7', '8', '9'], T 5 3 '.' ['1', '2', '3', '4', '5', '6', '7', '8', '9'], T 5 4 '.' ['1', '2', '3', '4', '5', '6', '7', '8', '9'], T 5 5 '.' ['1', '2', '3', '4', '5', '6', '7', '8', '9'], T 5 6 '.' ['1', '2', '3', '4', '5', '6', '7', '8', '9'], T 5 7 '.' ['1', '2', '3', '4', '5', '6', '7', '8', '9'], T 5 8 '.' ['1', '2', '3', '4', '5', '6', '7', '8', '9']],
   [T 6 0 '.' ['2', '3', '4', '5', '6', '7', '8', '9'], T 6 1 '.' ['1', '2', '3', '4', '5', '6', '7', '8', '9'], T 6 2 '.' ['1', '2', '3', '4', '5', '6', '7', '8', '9'], T 6 3 '.' ['1', '2', '3', '4', '5', '6', '7', '8', '9'], T 6 4 '.' ['1', '2', '3', '4', '5', '6', '7', '8', '9'], T 6 5 '.' ['1', '2', '3', '4', '5', '6', '7', '8', '9'], T 6 6 '.' ['1', '2', '3', '4', '5', '6', '7', '8', '9'], T 6 7 '.' ['1', '2', '3', '4', '5', '6', '7', '8', '9'], T 6 8 '.' ['1', '2', '3', '4', '5', '6', '7', '8', '9']],
   [T 7 0 '.' ['2', '3', '4', '5', '6', '7', '8', '9'], T 7 1 '.' ['1', '2', '3', '4', '5', '6', '7', '8', '9'], T 7 2 '.' ['1', '2', '3', '4', '5', '6', '7', '8', '9'], T 7 3 '.' ['1', '2', '3', '4', '5', '6', '7', '8', '9'], T 7 4 '.' ['1', '2', '3', '4', '5', '6', '7', '8', '9'], T 7 5 '.' ['1', '2', '3', '4', '5', '6', '7', '8', '9'], T 7 6 '.' ['1', '2', '3', '4', '5', '6', '7', '8', '9'], T 7 7 '.' ['1', '2', '3', '4', '5', '6', '7', '8', '9'], T 7 8 '.' ['1', '2', '3', '4', '5', '6', '7', '8', '9']],
   [T 8 0 '.' ['2', '3', '4', '5', '6', '7', '8', '9'], T 8 1 '.' ['1', '2', '3', '4', '5', '6', '7', '8', '9'], T 8 2 '.' ['1', '2', '3', '4', '5', '6', '7', '8', '9'], T 8 3 '.' ['1', '2', '3', '4', '5', '6', '7', '8', '9'], T 8 4 '.' ['1', '2', '3', '4', '5', '6', '7', '8', '9'], T 8 5 '.' ['1', '2', '3', '4', '5', '6', '7', '8', '9'], T 8 6 '.' ['1', '2', '3', '4', '5', '6', '7', '8', '9'], T 8 7 '.' ['1', '2', '3', '4', '5', '6', '7', '8', '9'], T 8 8 '.' ['1', '2', '3', '4', '5', '6', '7', '8', '9']]],
   [E 0 0 '1', E 1 0 '.', E 2 0 '.', E 3 0 '.', E 4 0 '.', E 5 0 '.', E 6 0 '.', E 7 0 '.', E 8 0 '.', E 0 1 '.', E 0 2 '.', E 0 3 '.', E 0 4 '.', E 0 5 '.', E 0 6 '.', E 0 7 '.', E 0 8 '.']⟩

/-- Intermediate board literal of the staged evaluation. -/
def onL12 : Board :=
  ⟨[[T 0 0 '1' [], T 0 1 '.' ['2', '3', '4', '5', '6', '7', '8', '9'], T 0 2 '.' ['2', '3', '4', '5', '6', '7', '8', '9'], T 0 3 '.' ['2', '3', '4', '5', '6', '7', '8', '9'], T 0 4 '.' ['2', '3', '4', '5', '6', '7', '8', '9'], T 0 5 '.' ['2', '3', '4', '5', '6', '7', '8', '9'], T 0 6 '.' ['2', '3', '4', '5', '6', '7', '8', '9'], T 0 7 '.' ['2', '3', '4', '5', '6', '7', '8', '9'], T 0 8 '.' ['2', '3', '4', '5', '6', '7', '8', '9']],
   [T 1 0 '.' ['2', '3', '4', '5', '6', '7', '8', '9'], T 1 1 '.' ['2', '3', '4', '5', '6', '7', '8', '9'], T 1 2 '.' ['2', '3', '4', '5', '6', '7', '8', '9'], T 1 3 '.' ['1', '2', '3', '4', '5', '6', '7', '8', '9'], T 1 4 '.' ['1', '2', '3', '4', '5', '6', '7', '8', '9'], T 1 5 '.' ['1', '2', '3', '4', '5', '6', '7', '8', '9'], T 1 6 '.' ['1', '2', '3', '4', '5', '6', '7', '8', '9'], T 1 7 '.' ['1', '2', '3', '4', '5', '6', '7', '8', '9'], T 1 8 '.' ['1', '2', '3', '4', '5', '6', '7', '8', '9']],
   [T 2 0 '.' ['2', '3', '4', '5', '6', '7', '8', '9'], T 2 1 '.' ['2', '3', '4', '5', '6', '7', '8', '9'], T 2 2 '.' ['2', '3', '4', '5', '6', '7', '8', '9'], T 2 3 '.' ['1', '2', '3', '4', '5', '6', '7', '8', '9'], T 2 4 '.' ['1', '2', '3', '4', '5', '6', '7', '8', '9'], T 2 5 '.' ['1', '2', '3', '4', '5', '6', '7', '8', '9'], T 2 6 '.' ['1', '2', '3', '4', '5', '6', '7', '8', '9'], T 2 7 '.' ['1', '2', '3', '4', '5', '6', '7', '8', '9'], T 2 8 '.' ['1', '2', '3', '4', '5', '6', '7', '8', '9']],
   [T 3 0 '.' ['2', '3', '4', '5', '6', '7', '8', '9'], T 3 1 '.' ['1', '2', '3', '4', '5', '6', '7', '8', '9'], T 3 2 '.' ['1', '2', '3', '4', '5', '6', '7', '8', '9'], T 3 3 '.' ['1', '2', '3', '4', '5', '6', '7', '8', '9'], T 3 4 '.' ['1', '2', '3', '4', '5', '6', '7', '8', '9'], T 3 5 '.' ['1', '2', '3', '4', '5', '6', '7', '8', '9'], T 3 6 '.' ['1', '2', '3', '4', '5', '6', '7', '8', '9'], T 3 7 '.' ['1', '2', '3', '4', '5', '6', '7', '8', '9'], T 3 8 '.' ['1', '2', '3', '4', '5', '6', '7', '8', '9']],
   [T 4 0 '.' ['2', '3', '4', '5', '6', '7', '8', '9'], T 4 1 '.' ['1', '2', '3', '4', '5', '6', '7', '8', '9'], T 4 2 '.' ['1', '2', '3', '4', '5', '6', '7', '8', '9'], T 4 3 '.' ['1', '2', '3', '4', '5', '6', '7', '8', '9'], T 4 4 '.' ['1', '2', '3', '4', '5', '6', '7', '8', '9'], T 4 5 '.' ['1', '2', '3', '4', '5', '6', '7', '8', '9'], T 4 6 '.' ['1', '2', '3', '4', '5', '6', '7', '8', '9'], T 4 7 '.' ['1', '2', '3', '4', '5', '6', '7', '8', '9'], T 4 8 '.' ['1', '2', '3', '4', '5', '6', '7', '8', '9']],
   [T 5 0 '.' ['2', '3', '4', '5', '6', '7', '8', '9'], T 5 1 '.' ['1', '2', '3', '4', '5', '6', '7', '8', '9'], T 5 2 '.' ['1', '2', '3', '4', '5', '6', '7', '8', '9'], T 5 3 '.' ['1', '2', '3', '4', '5', '6', '7', '8', '9'], T 5 4 '.' ['1', '2', '3', '4', '5', '6', '7', '8', '9'], T 5 5 '.' ['1', '2', '3', '4', '5', '6', '7', '8', '9'], T 5 6 '.' ['1', '2', '3', '4', '5', '6', '7', '8', '9'], T 5 7 '.' ['1', '2', '3', '4', '5', '6', '7', '8', '9'], T 5 8 '.' ['1', '2', '3', '4', '5', '6', '7', '8', '9']],
   [T 6 0 '.' ['2', '3', '4', '5', '6', '7', '8', '9'], T 6 1 '.' ['1', '2', '3', '4', '5', '6', '7', '8', '9'], T 6 2 '.' ['1', '2', '3', '4', '5', '6', '7', '8', '9'], T 6 3 '.' ['1', '2', '3', '4', '5', '6', '7', '8', '9'], T 6 4 '.' ['1', '2', '3', '4', '5', '6', '7', '8', '9'], T 6 5 '.' ['1', '2', '3', '4', '5', '6', '7', '8', '9'], T 6 6 '.' ['1', '2', '3', '4', '5', '6', '7', '8', '9'], T 6 7 '.' ['1', '2', '3', '4', '5', '6', '7', '8', '9'], T 6 8 '.' ['1', '2', '3', '4', '5', '6', '7', '8', '9']],
   [T 7 0 '.' ['2', '3', '4', '5', '6', '7', '8', '9'], T 7 1 '.' ['1', '2', '3', '4', '5', '6', '7', '8', '9'], T 7 2 '.' ['1', '2', '3', '4', '5', '6', '7', '8', '9'], T 7 3 '.' ['1', '2', '3', '4', '5', '6', '7', '8', '9'], T 7 4 '.' ['1', '2', '3', '4', '5', '6', '7', '8', '9'], T 7 5 '.' ['1', '2', '3', '4', '5', '6', '7', '8', '9'], T 7 6 '.' ['1', '2', '3', '4', '5', '6', '7', '8', '9'], T 7 7 '.' ['1', '2', '3', '4', '5', '6', '7', '8', '9'], T 7 8 '.' ['1', '2', '3', '4', '5', '6', '7', '8', '9']],
   [T 8 0 '.' ['2', '3', '4', '5', '6', '7', '8', '9'], T 8 1 '.' ['1', '2', '3', '4', '5', '6', '7', '8', '9'], T 8 2 '.' ['1', '2', '3', '4', '5', '6', '7', '8', '9'], T 8 3 '.' ['1', '2', '3', '4', '5', '6', '7', '8', '9'], T 8 4 '.' ['1', '2', '3', '4', '5', '6', '7', '8', '9'], T 8 5 '.' ['1', '2', '3', '4', '5', '6', '7', '8', '9'], T 8 6 '.' ['1', '2', '3', '4', '5', '6', '7', '8', '9'], T 8 7 '.' ['1', '2', '3', '4', '5', '6', '7', '8', '9'], T 8 8 '.' ['1', '2', '3', '4', '5', '6', '7', '8', '9']]],
   [E 0 0 '1', E 1 0 '.', E 2 0 '.', E 3 0 '.', E 4 0 '.', E 5 0 '.', E 6 0 '.', E 7 0 '.', E 8 0 '.', E 0 1 '.', E 0 2 '.', E 0 3 '.', E 0 4 '.', E 0 5 '.', E 0 6 '.', E 0 7 '.', E 0 8 '.', E 1 1 '.', E 1 2 '.', E 2 1 '.', E 2 2 '.']⟩

-- on chain: flag true, final onL12

/-- Fixture: first row places '1' and '2', tile (0,2) has been narrowed to
the candidate pair {'1','2'}, every other tile is unknown with the full
candidate set. -/
def c8L0 : Board :=
  ⟨[[T 0 0 '1' ['1'], T 0 1 '2' ['2'], T 0 2 '.' ['1', '2'], T 0 3 '.' ['1', '2', '3', '4', '5', '6', '7', '8', '9'], T 0 4 '.' ['1', '2', '3', '4', '5', '6', '7', '8', '9'], T 0 5 '.' ['1', '2', '3', '4', '5', '6', '7', '8', '9'], T 0 6 '.' ['1', '2', '3', '4', '5', '6', '7', '8', '9'], T 0 7 '.' ['1', '2', '3', '4', '5', '6', '7', '8', '9'], T 0 8 '.' ['1', '2', '3', '4', '5', '6', '7', '8', '9']],
   [T 1 0 '.' ['1', '2', '3', '4', '5', '6', '7', '8', '9'], T 1 1 '.' ['1', '2', '3', '4', '5', '6', '7', '8', '9'], T 1 2 '.' ['1', '2', '3', '4', '5', '6', '7', '8', '9'], T 1 3 '.' ['1', '2', '3', '4', '5', '6', '7', '8', '9'], T 1 4 '.' ['1', '2', '3', '4', '5', '6', '7', '8', '9'], T 1 5 '.' ['1', '2', '3', '4', '5', '6', '7', '8', '9'], T 1 6 '.' ['1', '2', '3', '4', '5', '6', '7', '8', '9'], T 1 7 '.' ['1', '2', '3', '4', '5', '6', '7', '8', '9'], T 1 8 '.' ['1', '2', '3', '4', '5', '6', '7', '8', '9']],
   [T 2 0 '.' ['1', '2', '3', '4', '5', '6', '7', '8', '9'], T 2 1 '.' ['1', '2', '3', '4', '5', '6', '7', '8', '9'], T 2 2 '.' ['1', '2', '3', '4', '5', '6', '7', '8', '9'], T 2 3 '.' ['1', '2', '3', '4', '5', '6', '7', '8', '9'], T 2 4 '.' ['1', '2', '3', '4', '5', '6', '7', '8', '9'], T 2 5 '.' ['1', '2', '3', '4', '5', '6', '7', '8', '9'], T 2 6 '.' ['1', '2', '3', '4', '5', '6', '7', '8', '9'], T 2 7 '.' ['1', '2', '3', '4', '5', '6', '7', '8', '9'], T 2 8 '.' ['1', '2', '3', '4', '5', '6', '7', '8', '9']],
   [T 3 0 '.' ['1', '2', '3', '4', '5', '6', '7', '8', '9'], T 3 1 '.' ['1', '2', '3', '4', '5', '6', '7', '8', '9'], T 3 2 '.' ['1', '2', '3', '4', '5', '6', '7', '8', '9'], T 3 3 '.' ['1', '2', '3', '4', '5', '6', '7', '8', '9'], T 3 4 '.' ['1', '2', '3', '4', '5', '6', '7', '8', '9'], T 3 5 '.' ['1', '2', '3', '4', '5', '6', '7', '8', '9'], T 3 6 '.' ['1', '2', '3', '4', '5', '6', '7', '8', '9'], T 3 7 '.' ['1', '2', '3', '4', '5', '6', '7', '8', '9'], T 3 8 '.' ['1', '2', '3', '4', '5', '6', '7', '8', '9']],
   [T 4 0 '.' ['1', '2', '3', '4', '5', '6', '7', '8', '9'], T 4 1 '.' ['1', '2', '3', '4', '5', '6', '7', '8', '9'], T 4 2 '.' ['1', '2', '3', '4', '5', '6', '7', '8', '9'], T 4 3 '.' ['1', '2', '3', '4', '5', '6', '7', '8', '9'], T 4 4 '.' ['1', '2', '3', '4', '5', '6', '7', '8', '9'], T 4 5 '.' ['1', '2', '3', '4', '5', '6', '7', '8', '9'], T 4 6 '.' ['1', '2', '3', '4', '5', '6', '7', '8', '9'], T 4 7 '.' ['1', '2', '3', '4', '5', '6', '7', '8', '9'], T 4 8 '.' ['1', '2', '3', '4', '5', '6', '7', '8', '9']],
   [T 5 0 '.' ['1', '2', '3', '4', '5', '6', '7', '8', '9'], T 5 1 '.' ['1', '2', '3', '4', '5', '6', '7', '8', '9'], T 5 2 '.' ['1', '2', '3', '4', '5', '6', '7', '8', '9'], T 5 3 '.' ['1', '2', '3', '4', '5', '6', '7', '8', '9'], T 5 4 '.' ['1', '2', '3', '4', '5', '6', '7', '8', '9'], T 5 5 '.' ['1', '2', '3', '4', '5', '6', '7', '8', '9'], T 5 6 '.' ['1', '2', '3', '4', '5', '6', '7', '8', '9'], T 5 7 '.' ['1', '2', '3', '4', '5', '6', '7', '8', '9'], T 5 8 '.' ['1', '2', '3', '4', '5', '6', '7', '8', '9']],
   [T 6 0 '.' ['1', '2', '3', '4', '5', '6', '7', '8', '9'], T 6 1 '.' ['1', '2', '3', '4', '5', '6', '7', '8', '9'], T 6 2 '.' ['1', '2', '3', '4', '5', '6', '7', '8', '9'], T 6 3 '.' ['1', '2', '3', '4', '5', '6', '7', '8', '9'], T 6 4 '.' ['1', '2', '3', '4', '5', '6', '7', '8', '9'], T 6 5 '.' ['1', '2', '3', '4', '5', '6', '7', '8', '9'], T 6 6 '.' ['1', '2', '3', '4', '5', '6', '7', '8', '9'], T 6 7 '.' ['1', '2', '3', '4', '5', '6', '7', '8', '9'], T 6 8 '.' ['1', '2', '3', '4', '5', '6', '7', '8', '9']],
   [T 7 0 '.' ['1', '2', '3', '4', '5', '6', '7', '8', '9'], T 7 1 '.' ['1', '2', '3', '4', '5', '6', '7', '8', '9'], T 7 2 '.' ['1', '2', '3', '4', '5', '6', '7', '8', '9'], T 7 3 '.' ['1', '2', '3', '4', '5', '6', '7', '8', '9'], T 7 4 '.' ['1', '2', '3', '4', '5', '6', '7', '8', '9'], T 7 5 '.' ['1', '2', '3', '4', '5', '6', '7', '8', '9'], T 7 6 '.' ['1', '2', '3', '4', '5', '6', '7', '8', '9'], T 7 7 '.' ['1', '2', '3', '4', '5', '6', '7', '8', '9'], T 7 8 '.' ['1', '2', '3', '4', '5', '6', '7', '8', '9']],
   [T 8 0 '.' ['1', '2', '3', '4', '5', '6', '7', '8', '9'], T 8 1 '.' ['1', '2', '3', '4', '5', '6', '7', '8', '9'], T 8 2 '.' ['1', '2', '3', '4', '5', '6', '7', '8', '9'], T 8 3 '.' ['1', '2', '3', '4', '5', '6', '7', '8', '9'], T 8 4 '.' ['1', '2', '3', '4', '5', '6', '7', '8', '9'], T 8 5 '.' ['1', '2', '3', '4', '5', '6', '7', '8', '9'], T 8 6 '.' ['1', '2', '3', '4', '5', '6', '7', '8', '9'], T 8 7 '.' ['1', '2', '3', '4', '5', '6', '7', '8', '9'], T 8 8 '.' ['1', '2', '3', '4', '5', '6', '7', '8', '9']]],
   []⟩

-- ## General lemmas ---------------------------------------------------------

theorem Board.events_putTile (b : Board) (rc : Nat × Nat) (t : Tile) :
    (b.putTile rc t).events = b.events := rfl

theorem Board.tiles_addEvents (b : Board) (evs : List TileEvent) :
    (b.addEvents evs).tiles = b.tiles := rfl

theorem Board.getTile_addEvents (b : Board) (evs : List TileEvent) (rc : Nat × Nat) :
    (b.addEvents evs).getTile rc = b.getTile rc := rfl

theorem Board.events_addEvents (b : Board) (evs : List TileEvent) :
    (b.addEvents evs).events = b.events ++ evs := rfl

theorem Board.getTile_putTile_ne {b : Board} {rc rc' : Nat × Nat} {t : Tile}
    (h : rc' ≠ rc) : (b.putTile rc t).getTile rc' = b.getTile rc' := by
  obtain ⟨r, c⟩ := rc
  obtain ⟨r', c'⟩ := rc'
  show ((b.tiles.set r ((b.tiles.getD r []).set c t)).getD r' []).getD c' default
      = (b.tiles.getD r' []).getD c' default
  rcases eq_or_ne r' r with hr | hr
  · subst hr
    have hc : c ≠ c' := fun hc => h (by rw [hc])
    rcases Nat.lt_or_ge r' b.tiles.length with hlen | hlen
    · rw [List.getD_eq_getElem?_getD (b.tiles.set r' _) r',
        List.getElem?_set_self hlen, Option.getD_some,
        List.getD_eq_getElem?_getD _ c', List.getElem?_set_ne hc,
        ← List.getD_eq_getElem?_getD (b.tiles.getD r' []) c']
    · rw [List.set_eq_of_length_le hlen]
  · rw [List.getD_eq_getElem?_getD (b.tiles.set r _) r',
      List.getElem?_set_ne (Ne.symm hr), ← List.getD_eq_getElem?_getD]

theorem Board.getTile_putTile_self {b : Board} {r c : Nat} {t : Tile}
    (hwf : b.wellFormed) (hr : r < NROWS) (hc : c < NCOLS) :
    (b.putTile (r, c) t).getTile (r, c) = t := by
  obtain ⟨hlen, hrows⟩ := hwf
  have hrl : r < b.tiles.length := by rw [hlen]; exact hr
  show ((b.tiles.set r ((b.tiles.getD r []).set c t)).getD r []).getD c default = t
  rw [List.getD_eq_getElem?_getD (b.tiles.set r _) r,
    List.getElem?_set_self hrl, Option.getD_some]
  have hrow : (b.tiles.getD r []).length = NCOLS := by
    rw [List.getD_eq_getElem?_getD, List.getElem?_eq_getElem hrl, Option.getD_some]
    exact hrows _ (List.getElem_mem hrl)
  have hcl : c < (b.tiles.getD r []).length := by rw [hrow]; exact hc
  rw [List.getD_eq_getElem?_getD, List.getElem?_set_self hcl, Option.getD_some]

theorem Board.wellFormed_putTile {b : Board} (rc : Nat × Nat) (t : Tile)
    (hwf : b.wellFormed) : (b.putTile rc t).wellFormed := by
  obtain ⟨hlen, hrows⟩ := hwf
  rcases Nat.lt_or_ge rc.1 b.tiles.length with hl | hl
  · refine ⟨?_, fun row hrow => ?_⟩
    · show (b.tiles.set _ _).length = NROWS
      rw [List.length_set]; exact hlen
    · rcases List.mem_or_eq_of_mem_set hrow with h | h
      · exact hrows row h
      · subst h
        rw [List.length_set, List.getD_eq_getElem?_getD,
          List.getElem?_eq_getElem hl, Option.getD_some]
        exact hrows _ (List.getElem_mem hl)
  · have : (b.putTile rc t).tiles = b.tiles := List.set_eq_of_length_le hl
    refine ⟨?_, fun row hrow => ?_⟩
    · rw [this]; exact hlen
    · rw [this] at hrow; exact hrows row hrow

theorem Board.wellFormed_addEvents {b : Board} (evs : List TileEvent)
    (hwf : b.wellFormed) : (b.addEvents evs).wellFormed := hwf

theorem foldl_preserves {α β : Type} {P : β → Prop} {f : β → α → β} {l : List α} {init : β}
    (h0 : P init) (hstep : ∀ s a, a ∈ l → P s → P (f s a)) : P (List.foldl f init l) := by
  induction l generalizing init with
  | nil => exact h0
  | cons x xs ih =>
    exact ih (hstep init x (by simp) h0) (fun s a ha hs => hstep s a (by simp [ha]) hs)

theorem Tile.set_value_of_mem {t : Tile} {v : Symb} (h : v ∈ CHOICES) :
    t.set_value v = ({ t with value := v, candidates := [v] },
      [⟨t.row, t.col, v, EventKind.TileChanged⟩]) := by
  unfold Tile.set_value
  rw [if_pos h]

theorem Tile.set_value_of_not_mem {t : Tile} {v : Symb} (h : v ∉ CHOICES) :
    t.set_value v = ({ t with value := UNKNOWN, candidates := fullCandidates },
      [⟨t.row, t.col, UNKNOWN, EventKind.TileChanged⟩]) := by
  unfold Tile.set_value
  rw [if_neg h]

theorem Tile.remove_candidates_of_eq {t : Tile} {used : List Symb}
    (h : t.candidates.filter (fun c => c ∉ used) = t.candidates) :
    t.remove_candidates used = (t, false, []) := by
  unfold Tile.remove_candidates
  rw [if_pos h]

theorem Tile.remove_candidates_of_ne_of_len {t : Tile} {used : List Symb}
    (h : t.candidates.filter (fun c => c ∉ used) ≠ t.candidates)
    (hl : (t.candidates.filter (fun c => c ∉ used)).length ≠ 1) :
    t.remove_candidates used =
      ({ t with candidates := t.candidates.filter (fun c => c ∉ used) }, true,
        [⟨t.row, t.col, t.value, EventKind.TileChanged⟩]) := by
  unfold Tile.remove_candidates
  rw [if_neg h, if_neg hl]

theorem Tile.remove_candidates_collapse {t : Tile} {used : List Symb} {v : Symb}
    (h : t.candidates.filter (fun c => c ∉ used) = [v]) (hv : v ∈ CHOICES)
    (hne : t.candidates.filter (fun c => c ∉ used) ≠ t.candidates) :
    t.remove_candidates used =
      ({ t with value := v, candidates := [v] }, true,
        [⟨t.row, t.col, v, EventKind.TileChanged⟩, ⟨t.row, t.col, v, EventKind.TileChanged⟩]) := by
  unfold Tile.remove_candidates
  rw [if_neg hne, h]
  simp [Tile.set_value_of_mem hv]

theorem Board.good_iff (b : Board) : b.good ↔ b.wellFormed ∧ b.goodTiles := Iff.rfl

/-- Every coordinate of every group is in range. -/
theorem groups_valid : ∀ g ∈ Board.groups, ∀ rc ∈ g, rc.1 < NROWS ∧ rc.2 < NCOLS := by decide

theorem Tile.remove_candidates_not_progress {t : Tile} {used : List Symb}
    (hp : (t.remove_candidates used).2.1 = false) :
    (t.remove_candidates used).1 = t ∧ (t.remove_candidates used).2.2 = [] := by
  unfold Tile.remove_candidates at hp ⊢
  dsimp only at hp ⊢
  split_ifs at hp ⊢ <;> simp_all

theorem Tile.remove_candidates_subset {t : Tile} {used : List Symb} (hg : t.good) :
    ((t.remove_candidates used).1).candidates ⊆ t.candidates := by
  by_cases h : t.candidates.filter (fun c => c ∉ used) = t.candidates
  · rw [Tile.remove_candidates_of_eq h]
    exact List.Subset.refl _
  · by_cases hl : (t.candidates.filter (fun c => c ∉ used)).length = 1
    · obtain ⟨v, hv⟩ := List.length_eq_one.mp hl
      have hvc : v ∈ t.candidates := by
        have : v ∈ t.candidates.filter (fun c => c ∉ used) := by rw [hv]; simp
        exact List.mem_of_mem_filter this
      rw [Tile.remove_candidates_collapse hv (hg.2.1 hvc) h]
      intro x hx
      simp at hx
      subst hx
      exact hvc
    · rw [Tile.remove_candidates_of_ne_of_len h hl]
      exact fun x hx => List.mem_of_mem_filter hx

theorem Tile.remove_candidates_good {t : Tile} {used : List Symb} (hg : t.good) :
    ((t.remove_candidates used).1).good := by
  by_cases h : t.candidates.filter (fun c => c ∉ used) = t.candidates
  · rw [Tile.remove_candidates_of_eq h]; exact hg
  · by_cases hl : (t.candidates.filter (fun c => c ∉ used)).length = 1
    · obtain ⟨v, hv⟩ := List.length_eq_one.mp hl
      have hvc : v ∈ t.candidates := by
        have : v ∈ t.candidates.filter (fun c => c ∉ used) := by rw [hv]; simp
        exact List.mem_of_mem_filter this
      have hvC : v ∈ CHOICES := hg.2.1 hvc
      rw [Tile.remove_candidates_collapse hv hvC h]
      refine ⟨List.nodup_singleton v, ?_, Or.inr hvC⟩
      intro x hx
      simp at hx
      subst hx
      exact hvC
    · rw [Tile.remove_candidates_of_ne_of_len h hl]
      exact ⟨hg.1.filter _, fun x hx => hg.2.1 (List.mem_of_mem_filter hx), hg.2.2⟩

theorem Tile.remove_candidates_length_lt {t : Tile} {used : List Symb} (hg : t.good)
    (hp : (t.remove_candidates used).2.1 = true) :
    ((t.remove_candidates used).1).candidates.length < t.candidates.length := by
  by_cases h : t.candidates.filter (fun c => c ∉ used) = t.candidates
  · rw [Tile.remove_candidates_of_eq h] at hp
    simp at hp
  · have hlt : (t.candidates.filter (fun c => c ∉ used)).length < t.candidates.length := by
      rcases Nat.lt_or_ge (t.candidates.filter (fun c => c ∉ used)).length
          t.candidates.length with hlt | hge
      · exact hlt
      · exact absurd ((List.filter_sublist t.candidates).eq_of_length
          (Nat.le_antisymm (List.length_filter_le _ _) hge)) h
    by_cases hl : (t.candidates.filter (fun c => c ∉ used)).length = 1
    · obtain ⟨v, hv⟩ := List.length_eq_one.mp hl
      have hvc : v ∈ t.candidates := by
        have : v ∈ t.candidates.filter (fun c => c ∉ used) := by rw [hv]; simp
        exact List.mem_of_mem_filter this
      rw [Tile.remove_candidates_collapse hv (hg.2.1 hvc) h]
      rw [hv] at hlt
      simpa using hlt
    · rw [Tile.remove_candidates_of_ne_of_len h hl]
      exact hlt

theorem Tile.remove_candidates_length_le {t : Tile} (used : List Symb) (hg : t.good) :
    ((t.remove_candidates used).1).candidates.length ≤ t.candidates.length := by
  rcases Bool.eq_false_or_eq_true (t.remove_candidates used).2.1 with hp | hp
  · exact Nat.le_of_lt (Tile.remove_candidates_length_lt hg hp)
  · rw [(Tile.remove_candidates_not_progress hp).1]

theorem Board.totalCand_addEvents (b : Board) (evs : List TileEvent) :
    (b.addEvents evs).totalCand = b.totalCand := rfl

theorem Board.totalCand_putTile {b : Board} {r c : Nat} {t : Tile}
    (hwf : b.wellFormed) (hr : r < NROWS) (hc : c < NCOLS) :
    (b.putTile (r, c) t).totalCand + ((b.getTile (r, c)).candidates).length
      = b.totalCand + t.candidates.length := by
  have hr9 : r < 9 := hr
  have hc9 : c < 9 := hc
  have key : (fun p : Fin 9 × Fin 9 =>
      ((b.putTile (r, c) t).getTile ((p.1 : Nat), (p.2 : Nat))).candidates.length)
      = Function.update
        (fun p : Fin 9 × Fin 9 => ((b.getTile ((p.1 : Nat), (p.2 : Nat))).candidates.length))
        (⟨r, hr9⟩, ⟨c, hc9⟩) t.candidates.length := by
    funext p
    by_cases hp : p = (⟨r, hr9⟩, ⟨c, hc9⟩)
    · subst hp
      rw [Function.update_same]
      simp only
      rw [Board.getTile_putTile_self hwf hr hc]
    · rw [Function.update_noteq hp]
      have hne : ((p.1 : Nat), (p.2 : Nat)) ≠ (r, c) := by
        intro hcontra
        apply hp
        obtain ⟨h1, h2⟩ := Prod.mk.injEq .. ▸ hcontra
        exact Prod.ext (Fin.ext h1) (Fin.ext h2)
      rw [Board.getTile_putTile_ne hne]
  show (∑ p : Fin 9 × Fin 9, _) + _ = _
  rw [key, Finset.sum_update_of_mem (Finset.mem_univ _)]
  unfold Board.totalCand
  rw [Finset.sum_eq_sum_diff_singleton_add (Finset.mem_univ ((⟨r, hr9⟩, ⟨c, hc9⟩) : Fin 9 × Fin 9))]
  simp only
  omega

theorem NakedInv_step {b0 : Board} (used : List Symb) (rc : Nat × Nat)
    (hr : rc.1 < NROWS) (hc : rc.2 < NCOLS) (bp : Board × Bool) (hI : NakedInv b0 bp) :
    NakedInv b0
      ((bp.1.putTile rc ((bp.1.getTile rc).remove_candidates used).1).addEvents
          ((bp.1.getTile rc).remove_candidates used).2.2,
        bp.2 || ((bp.1.getTile rc).remove_candidates used).2.1) := by
  obtain ⟨hwf, hgood, hsub, hle, hlt⟩ := hI
  obtain ⟨r, c⟩ := rc
  have htg : (bp.1.getTile (r, c)).good := hgood r hr c hc
  have hput := Board.totalCand_putTile
    (b := bp.1) (t := ((bp.1.getTile (r, c)).remove_candidates used).1) hwf hr hc
  dsimp only at hput
  have hlen := Tile.remove_candidates_length_le used htg
  refine ⟨Board.wellFormed_addEvents _ (Board.wellFormed_putTile _ _ hwf), ?_, ?_, ?_, ?_⟩
  · intro r' hr' c' hc'
    rw [Board.getTile_addEvents]
    by_cases hrc : ((r', c') : Nat × Nat) = (r, c)
    · rw [hrc, Board.getTile_putTile_self hwf hr hc]
      exact Tile.remove_candidates_good htg
    · rw [Board.getTile_putTile_ne hrc]
      exact hgood r' hr' c' hc'
  · intro r' hr' c' hc'
    rw [Board.getTile_addEvents]
    by_cases hrc : ((r', c') : Nat × Nat) = (r, c)
    · rw [hrc, Board.getTile_putTile_self hwf hr hc]
      exact fun x hx => hsub r hr c hc (Tile.remove_candidates_subset htg hx)
    · rw [Board.getTile_putTile_ne hrc]
      exact hsub r' hr' c' hc'
  · rw [Board.totalCand_addEvents]
    omega
  · intro hor
    rw [Board.totalCand_addEvents]
    rcases Bool.or_eq_true_iff.mp hor with h | h
    · have := hlt h
      omega
    · have := Tile.remove_candidates_length_lt htg h
      omega

theorem NakedInv_groupStep {b0 : Board} (g : List (Nat × Nat))
    (hg : ∀ rc ∈ g, rc.1 < NROWS ∧ rc.2 < NCOLS) (bp : Board × Bool) (hI : NakedInv b0 bp) :
    NakedInv b0 (Board.nakedGroupStep bp g) := by
  unfold Board.nakedGroupStep
  refine foldl_preserves hI ?_
  intro s rc hrc hs
  exact NakedInv_step _ rc (hg rc hrc).1 (hg rc hrc).2 s hs

theorem naked_single_inv (b : Board) (hwf : b.wellFormed) (hgood : b.goodTiles) :
    NakedInv b b.naked_single := by
  unfold Board.naked_single
  refine foldl_preserves ?_ ?_
  · exact ⟨hwf, hgood, fun r _ c _ => List.Subset.refl _, Nat.le_refl _, by simp⟩
  · intro s g hgmem hs
    exact NakedInv_groupStep g (groups_valid g hgmem) s hs

theorem HiddenInv_putTile {b0 b : Board} {rc : Nat × Nat} {t : Tile}
    (hr : rc.1 < NROWS) (hc : rc.2 < NCOLS) (hI : HiddenInv b0 b)
    (hgood : t.good) (hsub : t.candidates ⊆ (b.getTile rc).candidates)
    (hlen : t.candidates.length ≤ (b.getTile rc).candidates.length) :
    HiddenInv b0 (b.putTile rc t) := by
  obtain ⟨hwf, hg, hs, hle⟩ := hI
  obtain ⟨r, c⟩ := rc
  have hput := Board.totalCand_putTile (b := b) (t := t) hwf hr hc
  dsimp only at hput
  refine ⟨Board.wellFormed_putTile _ _ hwf, ?_, ?_, by omega⟩
  · intro r' hr' c' hc'
    by_cases hrc : ((r', c') : Nat × Nat) = (r, c)
    · rw [hrc, Board.getTile_putTile_self hwf hr hc]
      exact hgood
    · rw [Board.getTile_putTile_ne hrc]
      exact hg r' hr' c' hc'
  · intro r' hr' c' hc'
    by_cases hrc : ((r', c') : Nat × Nat) = (r, c)
    · rw [hrc, Board.getTile_putTile_self hwf hr hc]
      exact fun x hx => hs r hr c hc (hsub hx)
    · rw [Board.getTile_putTile_ne hrc]
      exact hs r' hr' c' hc'

theorem HiddenInv_eraseStep {b0 b : Board} {rc : Nat × Nat} (v : Symb)
    (hr : rc.1 < NROWS) (hc : rc.2 < NCOLS) (hI : HiddenInv b0 b) :
    HiddenInv b0 (b.putTile rc
      { b.getTile rc with candidates := (b.getTile rc).candidates.erase v }) := by
  have hgd : (b.getTile rc).good := hI.2.1 rc.1 hr rc.2 hc
  refine HiddenInv_putTile hr hc hI ?_ ?_ ?_
  · exact ⟨hgd.1.erase _, fun x hx => hgd.2.1 (List.erase_subset _ _ hx), hgd.2.2⟩
  · exact fun x hx => List.erase_subset _ _ hx
  · exact List.length_erase_le _ _

theorem HiddenInv_assignStep {b0 b : Board} {rc : Nat × Nat} {v : Symb}
    (hr : rc.1 < NROWS) (hc : rc.2 < NCOLS) (hv : v ∈ CHOICES)
    (hvm : v ∈ (b.getTile rc).candidates) (hI : HiddenInv b0 b) :
    HiddenInv b0 (b.putTile rc
      { b.getTile rc with value := v, candidates := [v] }) := by
  refine HiddenInv_putTile hr hc hI ?_ ?_ ?_
  · refine ⟨List.nodup_singleton v, ?_, Or.inr hv⟩
    intro x hx
    rw [List.mem_singleton] at hx
    subst hx
    exact hv
  · intro x hx
    rw [List.mem_singleton] at hx
    subst hx
    exact hvm
  · have hne : (b.getTile rc).candidates ≠ [] := List.ne_nil_of_mem hvm
    have hpos := List.length_pos.mpr hne
    simpa using hpos

theorem HiddenInv_hiddenEliminate {b0 b : Board} (g : List (Nat × Nat))
    (hg : ∀ rc ∈ g, rc.1 < NROWS ∧ rc.2 < NCOLS) (hI : HiddenInv b0 b) :
    HiddenInv b0 (b.hiddenEliminate g).1 ∧ (b.hiddenEliminate g).2 ⊆ CHOICES := by
  unfold Board.hiddenEliminate
  refine foldl_preserves
    (P := fun s : Board × List Symb => HiddenInv b0 s.1 ∧ s.2 ⊆ CHOICES)
    ⟨hI, fun x hx => hx⟩ ?_
  intro s rc hrc hs
  dsimp only
  refine ⟨?_, ?_⟩
  · refine foldl_preserves hs.1 ?_
    intro b' rc2 hrc2 hb'
    by_cases hne : rc2 ≠ rc
    · rw [if_pos hne]
      exact HiddenInv_eraseStep _ (hg rc2 hrc2).1 (hg rc2 hrc2).2 hb'
    · rw [if_neg hne]
      exact hb'
  · by_cases hv : (s.1.getTile rc).value ∈ s.2
    · rw [if_pos hv]
      exact fun x hx => hs.2 (List.erase_subset _ _ hx)
    · rw [if_neg hv]
      exact hs.2

theorem HiddenInv_hiddenAssign {b0 b : Board} (g : List (Nat × Nat)) (v : Symb)
    (hg : ∀ rc ∈ g, rc.1 < NROWS ∧ rc.2 < NCOLS) (hv : v ∈ CHOICES)
    (hI : HiddenInv b0 b) : HiddenInv b0 (b.hiddenAssign g v) := by
  unfold Board.hiddenAssign
  by_cases hcount : ((g.filter (fun rc => (b.getTile rc).value = UNKNOWN)).filter
      (fun rc => v ∈ (b.getTile rc).candidates)).length = 1
  · rw [if_pos hcount]
    refine foldl_preserves hI ?_
    intro b' rc hrc hb'
    have hrcg : rc ∈ g := List.mem_of_mem_filter hrc
    by_cases hvm : v ∈ (b'.getTile rc).candidates
    · rw [if_pos hvm]
      exact HiddenInv_assignStep (hg rc hrcg).1 (hg rc hrcg).2 hv hvm hb'
    · rw [if_neg hvm]
      exact hb'
  · rw [if_neg hcount]
    exact hI

theorem HiddenInv_groupStep {b0 b : Board} (g : List (Nat × Nat))
    (hg : ∀ rc ∈ g, rc.1 < NROWS ∧ rc.2 < NCOLS) (hI : HiddenInv b0 b) :
    HiddenInv b0 (Board.hiddenGroupStep b g) := by
  unfold Board.hiddenGroupStep
  obtain ⟨helim, hleft⟩ := HiddenInv_hiddenEliminate g hg hI
  refine foldl_preserves helim ?_
  intro b' v hvmem hb'
  exact HiddenInv_hiddenAssign g v hg (hleft hvmem) hb'

theorem hidden_single_inv (b : Board) (hwf : b.wellFormed) (hgood : b.goodTiles) :
    HiddenInv b b.hidden_single := by
  unfold Board.hidden_single
  refine foldl_preserves ⟨hwf, hgood, fun r _ c _ => List.Subset.refl _, Nat.le_refl _⟩ ?_
  intro s g hgmem hs
  exact HiddenInv_groupStep g (groups_valid g hgmem) hs

theorem propagateAux_succ (fuel : Nat) {b b1 : Board} {p : Bool}
    (h : b.naked_single = (b1, p)) :
    Board.propagateAux (fuel + 1) b =
      if p then Board.propagateAux fuel b1.hidden_single else b1.hidden_single := by
  simp only [Board.propagateAux, h]

theorem propagateAux_shape_good : ∀ (fuel : Nat) (b : Board), b.wellFormed → b.goodTiles →
    (Board.propagateAux fuel b).wellFormed ∧ (Board.propagateAux fuel b).goodTiles := by
  intro fuel
  induction fuel with
  | zero => exact fun b hwf hg => ⟨hwf, hg⟩
  | succ n ih =>
    intro b hwf hg
    have hnk := naked_single_inv b hwf hg
    rcases hnb : b.naked_single with ⟨b1, p⟩
    rw [hnb] at hnk
    have hhd := hidden_single_inv b1 hnk.1 hnk.2.1
    rw [propagateAux_succ n hnb]
    by_cases hp : p = true
    · rw [if_pos hp]
      exact ih _ hhd.1 hhd.2.1
    · rw [if_neg hp]
      exact ⟨hhd.1, hhd.2.1⟩

theorem propagateAux_fuel_irrelevant :
    ∀ (n : Nat) (b : Board) (f1 f2 : Nat), b.wellFormed → b.goodTiles →
      b.totalCand ≤ n → b.totalCand < f1 → b.totalCand < f2 →
      Board.propagateAux f1 b = Board.propagateAux f2 b := by
  intro n
  induction n with
  | zero =>
    intro b f1 f2 hwf hg hn h1 h2
    obtain ⟨k1, rfl⟩ : ∃ k, f1 = k + 1 := ⟨f1 - 1, by omega⟩
    obtain ⟨k2, rfl⟩ : ∃ k, f2 = k + 1 := ⟨f2 - 1, by omega⟩
    have hnk := naked_single_inv b hwf hg
    rcases hnb : b.naked_single with ⟨b1, p⟩
    rw [hnb] at hnk
    rw [propagateAux_succ k1 hnb, propagateAux_succ k2 hnb]
    by_cases hp : p = true
    · have := hnk.2.2.2.2 hp
      omega
    · rw [if_neg hp, if_neg hp]
  | succ n ih =>
    intro b f1 f2 hwf hg hn h1 h2
    obtain ⟨k1, rfl⟩ : ∃ k, f1 = k + 1 := ⟨f1 - 1, by omega⟩
    obtain ⟨k2, rfl⟩ : ∃ k, f2 = k + 1 := ⟨f2 - 1, by omega⟩
    have hnk := naked_single_inv b hwf hg
    rcases hnb : b.naked_single with ⟨b1, p⟩
    rw [hnb] at hnk
    have hhd := hidden_single_inv b1 hnk.1 hnk.2.1
    rw [propagateAux_succ k1 hnb, propagateAux_succ k2 hnb]
    by_cases hp : p = true
    · rw [if_pos hp, if_pos hp]
      have hlt : (b1.hidden_single).totalCand < b.totalCand :=
        lt_of_le_of_lt hhd.2.2.2 (hnk.2.2.2.2 hp)
      exact ih _ k1 k2 hhd.1 hhd.2.1 (by omega) (by omega) (by omega)
    · rw [if_neg hp, if_neg hp]

theorem propagateAux_eq_propagate {b : Board} (hwf : b.wellFormed) (hg : b.goodTiles)
    {fuel : Nat} (hf : b.totalCand < fuel) :
    Board.propagateAux fuel b = b.propagate :=
  propagateAux_fuel_irrelevant b.totalCand b fuel (b.totalCand + 1) hwf hg
    (Nat.le_refl _) hf (Nat.lt_succ_self _)

theorem propagate_shape_good {b : Board} (hwf : b.wellFormed) (hg : b.goodTiles) :
    (b.propagate).wellFormed ∧ (b.propagate).goodTiles :=
  propagateAux_shape_good _ b hwf hg

theorem propagate_of_no_progress {b b1 : Board} (h : b.naked_single = (b1, false)) :
    b.propagate = b1.hidden_single := by
  show Board.propagateAux (b.totalCand + 1) b = b1.hidden_single
  rw [propagateAux_succ _ h]
  rfl

theorem groupScan_step_none (b : Board) (g : List (Nat × Nat)) :
    g.foldl (fun acc rc =>
      match acc with
      | none => none
      | some used_symbols =>
        let v := (b.getTile rc).value
        if v ∈ CHOICES then
          if v ∈ used_symbols then none else some (v :: used_symbols)
        else some used_symbols) none = none := by
  refine foldl_preserves (P := fun o : Option (List Symb) => o = none) rfl ?_
  intro s rc _ hs
  rw [hs]

theorem groupScan_isSome_iff (b : Board) :
    ∀ (g : List (Nat × Nat)) (used : List Symb), used.Nodup →
      (((g.foldl (fun acc rc =>
        match acc with
        | none => none
        | some used_symbols =>
          let v := (b.getTile rc).value
          if v ∈ CHOICES then
            if v ∈ used_symbols then none else some (v :: used_symbols)
          else some used_symbols) (some used)).isSome = true) ↔
        (used ++ (g.map (fun rc => (b.getTile rc).value)).filter
          (fun v => v ∈ CHOICES)).Nodup) := by
  intro g
  induction g with
  | nil =>
    intro used hnd
    simpa using hnd
  | cons rc g ih =>
    intro used hnd
    rw [List.foldl_cons, List.map_cons]
    by_cases hv : (b.getTile rc).value ∈ CHOICES
    · rw [List.filter_cons_of_pos (by simpa using hv)]
      by_cases hu : (b.getTile rc).value ∈ used
      · simp only [hv, if_true, hu, if_true]
        rw [groupScan_step_none]
        simp only [Option.isSome_none]
        constructor
        · intro h; exact absurd h (by simp)
        · intro h
          exfalso
          have := (List.perm_middle.nodup_iff).mp h
          rw [List.nodup_cons] at this
          exact this.1 (List.mem_append_left _ hu)
      · simp only [hv, if_true, hu, if_false]
        rw [ih ((b.getTile rc).value :: used) (List.nodup_cons.mpr ⟨hu, hnd⟩),
          List.cons_append]
        exact List.perm_middle.nodup_iff.symm
    · rw [List.filter_cons_of_neg (by simpa using hv)]
      simp only [hv, if_false]
      exact ih used hnd

theorem groupScan_isSome (b : Board) (g : List (Nat × Nat)) :
    ((b.groupScan g).isSome = true) ↔
      ((g.map (fun rc => (b.getTile rc).value)).filter (fun v => v ∈ CHOICES)).Nodup := by
  have h := groupScan_isSome_iff b g [] List.nodup_nil
  simpa using h

theorem is_consistent_iff (b : Board) :
    b.is_consistent = true ↔ ∀ g ∈ Board.groups,
      ((g.map (fun rc => (b.getTile rc).value)).filter (fun v => v ∈ CHOICES)).Nodup := by
  unfold Board.is_consistent
  rw [List.all_eq_true]
  constructor
  · intro h g hg
    exact (groupScan_isSome b g).mp (h g hg)
  · intro h g hg
    exact (groupScan_isSome b g).mpr (h g hg)

theorem is_consistent_false_iff (b : Board) :
    b.is_consistent = false ↔ ∃ g ∈ Board.groups,
      ¬ ((g.map (fun rc => (b.getTile rc).value)).filter (fun v => v ∈ CHOICES)).Nodup := by
  rw [← Bool.not_eq_true, is_consistent_iff]
  push_neg
  rfl

theorem list_all_congr {α : Type} {l : List α} {p q : α → Bool}
    (h : ∀ a ∈ l, p a = q a) : l.all p = l.all q := by
  induction l with
  | nil => rfl
  | cons x xs ih =>
    rw [List.all_cons, List.all_cons, h x (by simp), ih (fun a ha => h a (by simp [ha]))]

theorem groupScan_values_congr {b b' : Board} (g : List (Nat × Nat))
    (h : ∀ rc ∈ g, (b'.getTile rc).value = (b.getTile rc).value) :
    b'.groupScan g = b.groupScan g := by
  unfold Board.groupScan
  suffices hs : ∀ acc : Option (List Symb), g.foldl (fun acc rc =>
      match acc with
      | none => none
      | some used_symbols =>
        let v := (b'.getTile rc).value
        if v ∈ CHOICES then
          if v ∈ used_symbols then none else some (v :: used_symbols)
        else some used_symbols) acc =
      g.foldl (fun acc rc =>
      match acc with
      | none => none
      | some used_symbols =>
        let v := (b.getTile rc).value
        if v ∈ CHOICES then
          if v ∈ used_symbols then none else some (v :: used_symbols)
        else some used_symbols) acc by
    exact hs (some [])
  induction g with
  | nil => exact fun _ => rfl
  | cons rc g ih =>
    intro acc
    rw [List.foldl_cons, List.foldl_cons, h rc (by simp)]
    exact ih (fun rc2 h2 => h rc2 (by simp [h2])) _

theorem is_consistent_values_congr {b b' : Board}
    (h : ∀ g ∈ Board.groups, ∀ rc ∈ g, (b'.getTile rc).value = (b.getTile rc).value) :
    b'.is_consistent = b.is_consistent := by
  unfold Board.is_consistent
  refine list_all_congr ?_
  intro g hg
  rw [groupScan_values_congr g (h g hg)]

theorem row_group_mem (r : Nat) (hr : r < NROWS) :
    (List.range NCOLS).map (fun col_idx => (r, col_idx)) ∈ Board.groups := by
  unfold Board.groups rowGroups
  refine List.mem_append_left _ (List.mem_append_right _ ?_)
  exact List.mem_map.mpr ⟨r, List.mem_range.mpr hr, rfl⟩

theorem fin_dup_of_two_positions {α : Type} (n : Nat) (f : Nat → α) {i j : Nat}
    (hi : i < n) (hj : j < n) (hij : i < j) (heq : f i = f j) :
    ((List.range n).map f).Duplicate (f i) := by
  rw [List.duplicate_iff_exists_distinct_get]
  have hlen : ((List.range n).map f).length = n := by simp
  refine ⟨⟨i, by omega⟩, ⟨j, by omega⟩, ?_, ?_, ?_⟩
  · simpa [Fin.mk_lt_mk] using hij
  · rw [List.get_eq_getElem]
    simp
  · rw [heq, List.get_eq_getElem]
    simp

theorem row_duplicate_inconsistent {b : Board} {r c1 c2 : Nat}
    (hr : r < NROWS) (hc1 : c1 < NCOLS) (hc2 : c2 < NCOLS) (hne : c1 ≠ c2)
    (hv : (b.getTile (r, c1)).value ∈ CHOICES)
    (heq : (b.getTile (r, c1)).value = (b.getTile (r, c2)).value) :
    b.is_consistent = false := by
  rw [is_consistent_false_iff]
  refine ⟨(List.range NCOLS).map (fun col_idx => (r, col_idx)), row_group_mem r hr, ?_⟩
  intro hnd
  rw [List.map_map] at hnd
  have hdup : ((List.range NCOLS).map
      ((fun rc => (b.getTile rc).value) ∘ fun col_idx => (r, col_idx))).Duplicate
      ((b.getTile (r, c1)).value) := by
    rcases Nat.lt_or_ge c1 c2 with hlt | hge
    · exact fin_dup_of_two_positions NCOLS
        ((fun rc => (b.getTile rc).value) ∘ fun col_idx => (r, col_idx)) hc1 hc2 hlt heq
    · have hlt2 : c2 < c1 := Nat.lt_of_le_of_ne hge fun h => hne h.symm
      rw [heq]
      exact fin_dup_of_two_positions NCOLS
        ((fun rc => (b.getTile rc).value) ∘ fun col_idx => (r, col_idx)) hc2 hc1 hlt2 heq.symm
  have h2 : List.Sublist [(b.getTile (r, c1)).value, (b.getTile (r, c1)).value]
      (List.filter (fun v => decide (v ∈ CHOICES))
        (List.map ((fun rc => (b.getTile rc).value) ∘ fun col_idx => (r, col_idx))
          (List.range NCOLS))) := by
    have hself : List.filter (fun v => decide (v ∈ CHOICES))
        [(b.getTile (r, c1)).value, (b.getTile (r, c1)).value] =
        [(b.getTile (r, c1)).value, (b.getTile (r, c1)).value] := by
      simp [hv]
    rw [← hself]
    exact List.Sublist.filter _ (List.duplicate_iff_sublist.mp hdup)
  exact (List.duplicate_iff_sublist.mpr h2).not_nodup hnd

/-- **C7**: `is_consistent` returns `false` exactly when some group's list of
placed values (unknowns ignored) contains a repetition; it reads only the
committed values (boards agreeing on all values at group coordinates get the
same answer — and being a pure function of the board it mutates nothing);
and any two equal placed symbols in one row at distinct columns force a
`false` answer. -/
theorem C7_is_consistent_spec (b : Board) :
    (b.is_consistent = false ↔ ∃ g ∈ Board.groups,
      ¬ ((g.map (fun rc => (b.getTile rc).value)).filter (fun v => v ∈ CHOICES)).Nodup) ∧
    (∀ b' : Board,
      (∀ g ∈ Board.groups, ∀ rc ∈ g, (b'.getTile rc).value = (b.getTile rc).value) →
      b'.is_consistent = b.is_consistent) ∧
    (∀ r c1 c2 : Nat, r < NROWS → c1 < NCOLS → c2 < NCOLS → c1 ≠ c2 →
      (b.getTile (r, c1)).value ∈ CHOICES →
      (b.getTile (r, c1)).value = (b.getTile (r, c2)).value →
      b.is_consistent = false) := by
  refine ⟨is_consistent_false_iff b, ?_, ?_⟩
  · intro b' h
    exact is_consistent_values_congr h
  · intro r c1 c2 hr hc1 hc2 hne hv heq
    exact row_duplicate_inconsistent hr hc1 hc2 hne hv heq

/-- Witness for `C7_is_consistent_spec`: the board whose first row starts
`11` has duplicate placed symbols in row 0, so `is_consistent` is `false`. -/
theorem C7_witness : rdL0.is_consistent = false :=
  (C7_is_consistent_spec rdL0).2.2 0 0 1 (by decide) (by decide) (by decide)
    (by decide) (by decide) (by decide)

/-- **C5**: `remove_candidates` leaves the tile untouched, reports no
progress and emits nothing when the difference removes no candidate;
otherwise it reports progress, commits the difference, collapses through
`set_value` (two notifications) when exactly one candidate remains, and
emits exactly one notification when more than one remains. -/
theorem C5_remove_candidates_spec (t : Tile) (used : List Symb) (hg : t.good) :
    (t.candidates.filter (fun c => c ∉ used) = t.candidates →
      t.remove_candidates used = (t, false, [])) ∧
    (t.candidates.filter (fun c => c ∉ used) ≠ t.candidates →
      (t.remove_candidates used).2.1 = true ∧
      ((t.candidates.filter (fun c => c ∉ used)).length = 1 →
        ∃ v ∈ CHOICES, t.candidates.filter (fun c => c ∉ used) = [v] ∧
          (t.remove_candidates used).1.value = v ∧
          (t.remove_candidates used).1.candidates = [v] ∧
          (t.remove_candidates used).2.2.length = 2) ∧
      ((t.candidates.filter (fun c => c ∉ used)).length ≠ 1 →
        (t.remove_candidates used).1.value = t.value ∧
        (t.remove_candidates used).1.candidates = t.candidates.filter (fun c => c ∉ used) ∧
        (t.remove_candidates used).2.2.length = 1)) := by
  constructor
  · intro h
    exact Tile.remove_candidates_of_eq h
  · intro hne
    have hmain : ∀ hl : (t.candidates.filter (fun c => c ∉ used)).length = 1,
        ∃ v ∈ CHOICES, t.candidates.filter (fun c => c ∉ used) = [v] ∧
          (t.remove_candidates used).1.value = v ∧
          (t.remove_candidates used).1.candidates = [v] ∧
          (t.remove_candidates used).2.2.length = 2 := by
      intro hl
      obtain ⟨v, hv⟩ := List.length_eq_one.mp hl
      have hvc : v ∈ t.candidates := by
        have : v ∈ t.candidates.filter (fun c => c ∉ used) := by rw [hv]; simp
        exact List.mem_of_mem_filter this
      have hvC : v ∈ CHOICES := hg.2.1 hvc
      rw [Tile.remove_candidates_collapse hv hvC hne]
      exact ⟨v, hvC, hv, rfl, rfl, rfl⟩
    refine ⟨?_, hmain, ?_⟩
    · by_cases hl : (t.candidates.filter (fun c => c ∉ used)).length = 1
      · obtain ⟨v, hvC, hv, _⟩ := hmain hl
        rw [Tile.remove_candidates_collapse hv hvC hne]
      · rw [Tile.remove_candidates_of_ne_of_len hne hl]
    · intro hl
      rw [Tile.remove_candidates_of_ne_of_len hne hl]
      exact ⟨rfl, rfl, rfl⟩

/-- Witness for `C5_remove_candidates_spec`: removing `'2'` from a tile with
candidates `['1','2']` reports progress. -/
theorem C5_witness :
    ((⟨0, 0, UNKNOWN, ['1', '2']⟩ : Tile).remove_candidates ['2']).2.1 = true :=
  ((C5_remove_candidates_spec ⟨0, 0, UNKNOWN, ['1', '2']⟩ ['2'] (by decide)).2
    (by decide)).1

/-- **C10**: `set_value` is total: an alphabet symbol is stored with
singleton candidates; *any* other symbol — not only the unknown marker —
resets the tile to unknown with the full alphabet; exactly one "tile
changed" notification is emitted either way.  The alphabet-membership
assertion exists only in `Tile.__init__` (modelled as returning `none`),
not in `set_value`. -/
theorem C10_set_value_total (t : Tile) (v : Symb) :
    (v ∈ CHOICES → (t.set_value v).1.value = v ∧ (t.set_value v).1.candidates = [v]) ∧
    (v ∉ CHOICES →
      (t.set_value v).1.value = UNKNOWN ∧ (t.set_value v).1.candidates = fullCandidates) ∧
    (t.set_value v).2 =
      [⟨t.row, t.col, (t.set_value v).1.value, EventKind.TileChanged⟩] ∧
    (∀ r c : Nat, v ≠ UNKNOWN → v ∉ CHOICES → Tile.init r c v = none) ∧
    (∀ r c : Nat, v = UNKNOWN ∨ v ∈ CHOICES →
      Tile.init r c v = some (Tile.set_value ⟨r, c, UNKNOWN, fullCandidates⟩ v).1) := by
  refine ⟨?_, ?_, ?_, ?_, ?_⟩
  · intro hv
    rw [Tile.set_value_of_mem hv]
    exact ⟨rfl, rfl⟩
  · intro hv
    rw [Tile.set_value_of_not_mem hv]
    exact ⟨rfl, rfl⟩
  · by_cases hv : v ∈ CHOICES
    · rw [Tile.set_value_of_mem hv]
    · rw [Tile.set_value_of_not_mem hv]
  · intro r c hu hv
    unfold Tile.init
    rw [if_neg (by
      rintro (h | h)
      · exact hu h
      · exact hv h)]
  · intro r c h
    unfold Tile.init
    rw [if_pos h]

/-- Witness for `C10_set_value_total`: `'5'` is stored; the non-symbol
`'x'` (distinct from the unknown marker) resets to unknown; `Tile.__init__`
rejects `'x'`. -/
theorem C10_witness :
    ((⟨0, 0, UNKNOWN, fullCandidates⟩ : Tile).set_value '5').1.value = '5' ∧
    ((⟨2, 3, '7', ['7']⟩ : Tile).set_value 'x').1.value = UNKNOWN ∧
    Tile.init 4 5 'x' = none :=
  ⟨((C10_set_value_total ⟨0, 0, UNKNOWN, fullCandidates⟩ '5').1 (by decide)).1,
   ((C10_set_value_total ⟨2, 3, '7', ['7']⟩ 'x').2.1 (by decide)).1,
   (C10_set_value_total ⟨2, 3, '7', ['7']⟩ 'x').2.2.2.1 4 5 (by decide) (by decide)⟩

/-- **C6**: on well-formed boards `propagate` terminates: a naked-single
pass reporting progress strictly decreases the total candidate count; no
operation of the loop body ever enlarges a tile's candidate set
(naked-single and hidden-single are pointwise monotone and the total count
never grows); the fuelled loop is fuel-irrelevant beyond `totalCand` steps
(the loop reaches its result with the given fuel); and the loop exits on
the first pass without progress. -/
theorem C6_propagate_terminates (b : Board) (h : b.good) :
    (∀ b1 : Board, b.naked_single = (b1, true) → b1.totalCand < b.totalCand) ∧
    (∀ r < NROWS, ∀ c < NCOLS,
      (((b.naked_single).1).getTile (r, c)).candidates ⊆ (b.getTile (r, c)).candidates ∧
      ((b.hidden_single).getTile (r, c)).candidates ⊆ (b.getTile (r, c)).candidates) ∧
    ((b.naked_single).1).totalCand ≤ b.totalCand ∧
    (b.hidden_single).totalCand ≤ b.totalCand ∧
    (∀ fuel : Nat, b.totalCand < fuel → Board.propagateAux fuel b = b.propagate) ∧
    (∀ b1 : Board, b.naked_single = (b1, false) → b.propagate = b1.hidden_single) := by
  obtain ⟨hwf, hgood⟩ := h
  have hnk := naked_single_inv b hwf hgood
  have hhd := hidden_single_inv b hwf hgood
  refine ⟨?_, ?_, hnk.2.2.2.1, hhd.2.2.2, ?_, ?_⟩
  · intro b1 h1
    have := hnk.2.2.2.2
    rw [h1] at this
    exact this rfl
  · intro r hr c hc
    exact ⟨hnk.2.2.1 r hr c hc, hhd.2.2.1 r hr c hc⟩
  · intro fuel hf
    exact propagateAux_eq_propagate hwf hgood hf
  · intro b1 h1
    exact propagate_of_no_progress h1

/-- Witness for `C6_propagate_terminates`: the all-unknown fresh board has
total candidate count 729, so fuel 730 already computes `propagate`. -/
theorem C6_witness :
    Board.propagateAux 730 Board.init = Board.init.propagate :=
  (C6_propagate_terminates Board.init (by decide)).2.2.2.2.1 730 (by decide)

theorem Board.wellFormed_setTileValue {b : Board} (rc : Nat × Nat) (v : Symb)
    (hwf : b.wellFormed) : (b.setTileValue rc v).wellFormed :=
  Board.wellFormed_addEvents _ (Board.wellFormed_putTile _ _ hwf)

theorem Board.wellFormed_setTileStep {b : Board} (vals : List (List Symb))
    (row0 col0 : Nat) (hwf : b.wellFormed) :
    (Board.setTileStep vals row0 b col0).wellFormed :=
  Board.wellFormed_addEvents _ (Board.wellFormed_putTile _ _ hwf)

theorem Board.wellFormed_setRowStep {b : Board} (vals : List (List Symb)) (row0 : Nat)
    (hwf : b.wellFormed) : (Board.setRowStep vals b row0).wellFormed := by
  unfold Board.setRowStep
  refine foldl_preserves hwf ?_
  intro s col _ hs
  exact Board.wellFormed_setTileStep vals row0 col hs

theorem Board.wellFormed_set_tiles {b : Board} (vals : List (List Symb))
    (hwf : b.wellFormed) : (b.set_tiles vals).wellFormed := by
  unfold Board.set_tiles
  refine foldl_preserves hwf ?_
  intro s r _ hs
  exact Board.wellFormed_setRowStep vals r hs

theorem getTile_setTileStep_ne {b : Board} (vals : List (List Symb)) {r c : Nat}
    (row0 col0 : Nat) (h : ((r, c) : Nat × Nat) ≠ (row0, col0)) :
    (Board.setTileStep vals row0 b col0).getTile (r, c) = b.getTile (r, c) := by
  unfold Board.setTileStep
  rw [Board.getTile_addEvents, Board.getTile_putTile_ne h]

theorem getTile_inner_fold_ne {b : Board} (vals : List (List Symb)) {r c : Nat}
    (row0 : Nat) (cs : List Nat) (h : r ≠ row0 ∨ c ∉ cs) :
    (cs.foldl (Board.setTileStep vals row0) b).getTile (r, c) = b.getTile (r, c) := by
  refine foldl_preserves (P := fun b' : Board => b'.getTile (r, c) = b.getTile (r, c)) rfl ?_
  intro s col hcol hs
  rw [getTile_setTileStep_ne vals row0 col ?_, hs]
  intro heq
  obtain ⟨h1, h2⟩ := Prod.mk.injEq .. ▸ heq
  rcases h with h | h
  · exact h h1
  · exact h (h2 ▸ hcol)

theorem wf_inner_fold {b : Board} (vals : List (List Symb)) (row0 : Nat) (cs : List Nat)
    (hwf : b.wellFormed) :
    (cs.foldl (Board.setTileStep vals row0) b).wellFormed := by
  refine foldl_preserves hwf ?_
  intro s col _ hs
  exact Board.wellFormed_setTileStep vals row0 col hs

theorem getTile_setTileStep_self {b : Board} (vals : List (List Symb)) {r c : Nat}
    (hr : r < NROWS) (hc : c < NCOLS) (hwf : b.wellFormed) :
    (Board.setTileStep vals r b c).getTile (r, c) =
      ((b.getTile (r, c)).set_value ((vals.getD r []).getD c UNKNOWN)).1 := by
  unfold Board.setTileStep
  rw [Board.getTile_addEvents, Board.getTile_putTile_self hwf hr hc]

theorem getTile_inner_fold_mem {b : Board} (vals : List (List Symb)) {r c : Nat}
    (cs : List Nat) (hnd : cs.Nodup) (hr : r < NROWS) (hc : c < NCOLS)
    (hmem : c ∈ cs) (hwf : b.wellFormed) :
    (cs.foldl (Board.setTileStep vals r) b).getTile (r, c) =
      ((b.getTile (r, c)).set_value ((vals.getD r []).getD c UNKNOWN)).1 := by
  obtain ⟨l1, l2, rfl⟩ := List.append_of_mem hmem
  have hnd2 := List.nodup_middle.mp hnd
  rw [List.nodup_cons] at hnd2
  have hc1 : c ∉ l1 := fun hh => hnd2.1 (List.mem_append_left _ hh)
  have hc2 : c ∉ l2 := fun hh => hnd2.1 (List.mem_append_right _ hh)
  rw [List.foldl_append, List.foldl_cons]
  rw [getTile_inner_fold_ne vals r l2 (Or.inr hc2)]
  have hB1wf := wf_inner_fold vals r l1 hwf
  have hB1get := getTile_inner_fold_ne (b := b) vals r l1
    (show r ≠ r ∨ c ∉ l1 from Or.inr hc1)
  rw [getTile_setTileStep_self vals hr hc hB1wf, hB1get]

theorem getTile_set_tiles {b : Board} (vals : List (List Symb)) {r c : Nat}
    (hr : r < NROWS) (hc : c < NCOLS) (hwf : b.wellFormed) :
    (b.set_tiles vals).getTile (r, c) =
      ((b.getTile (r, c)).set_value ((vals.getD r []).getD c UNKNOWN)).1 := by
  unfold Board.set_tiles
  obtain ⟨l1, l2, hsplit⟩ := List.append_of_mem (List.mem_range.mpr hr)
  have hndall : (List.range NROWS).Nodup := List.nodup_range _
  rw [hsplit] at hndall
  have hnd2 := List.nodup_middle.mp hndall
  rw [List.nodup_cons] at hnd2
  have hr1 : r ∉ l1 := fun hh => hnd2.1 (List.mem_append_left _ hh)
  have hr2 : r ∉ l2 := fun hh => hnd2.1 (List.mem_append_right _ hh)
  rw [hsplit, List.foldl_append, List.foldl_cons]
  have houter_ne : ∀ (rows : List Nat), r ∉ rows → ∀ b0 : Board,
      ((rows.foldl (Board.setRowStep vals) b0)).getTile (r, c) = b0.getTile (r, c) := by
    intro rows hnr b0
    refine foldl_preserves (P := fun b' : Board => b'.getTile (r, c) = b0.getTile (r, c))
      rfl ?_
    intro s row hrow hs
    unfold Board.setRowStep
    rw [getTile_inner_fold_ne vals row (List.range NCOLS)
      (Or.inl (fun hh => hnr (by rw [hh]; exact hrow))), hs]
  have houter_wf : ∀ (rows : List Nat), ∀ b0 : Board, b0.wellFormed →
      ((rows.foldl (Board.setRowStep vals) b0)).wellFormed := by
    intro rows b0 h0
    refine foldl_preserves h0 ?_
    intro s row _ hs
    exact Board.wellFormed_setRowStep vals row hs
  have hrow_self : ∀ b0 : Board, b0.wellFormed →
      (Board.setRowStep vals b0 r).getTile (r, c) =
        ((b0.getTile (r, c)).set_value ((vals.getD r []).getD c UNKNOWN)).1 := by
    intro b0 h0
    unfold Board.setRowStep
    exact getTile_inner_fold_mem vals (List.range NCOLS) (List.nodup_range _) hr hc
      (List.mem_range.mpr hc) h0
  rw [houter_ne l2 hr2, hrow_self _ (houter_wf l1 b hwf), houter_ne l1 hr1 b]

theorem as_list_eq_of_wf {b : Board} (hwf : b.wellFormed) :
    b.as_list = (List.range NROWS).map (fun r =>
      (List.range NCOLS).map (fun c => (b.getTile (r, c)).value)) := by
  unfold Board.as_list
  obtain ⟨hlen, hrows⟩ := hwf
  refine List.ext_getElem (by simp [hlen]) ?_
  intro r h1 h2
  rw [List.getElem_map, List.getElem_map, List.getElem_range]
  have hrb : r < b.tiles.length := by simpa using h1
  have hrlen : b.tiles[r].length = NCOLS := hrows _ (List.getElem_mem hrb)
  refine List.ext_getElem (by simp [hrlen]) ?_
  intro c hc1 hc2
  rw [List.getElem_map, List.getElem_map, List.getElem_range]
  have hcb : c < b.tiles[r].length := by simpa using hc1
  show (b.tiles[r][c]).value = (b.getTile (r, c)).value
  congr 1
  show b.tiles[r][c] = (b.tiles.getD r []).getD c default
  rw [List.getD_eq_getElem?_getD b.tiles r, List.getElem?_eq_getElem hrb, Option.getD_some,
    List.getD_eq_getElem?_getD _ c, List.getElem?_eq_getElem hcb, Option.getD_some]

theorem as_list_set_tiles {b : Board} (vals : List (List Symb)) (hwf : b.wellFormed)
    (hlen : vals.length = NROWS) (hrows : ∀ row ∈ vals, row.length = NCOLS)
    (hvalid : ∀ row ∈ vals, ∀ v ∈ row, v = UNKNOWN ∨ v ∈ CHOICES) :
    (b.set_tiles vals).as_list = vals := by
  rw [as_list_eq_of_wf (Board.wellFormed_set_tiles vals hwf)]
  refine List.ext_getElem (by simp [hlen]) ?_
  intro r h1 h2
  have hr : r < NROWS := by simpa using h1
  have hrv : r < vals.length := by omega
  rw [List.getElem_map, List.getElem_range]
  have hrowlen : vals[r].length = NCOLS := hrows _ (List.getElem_mem hrv)
  refine List.ext_getElem (by simp [hrowlen]) ?_
  intro c hc1 hc2
  have hc : c < NCOLS := by simpa using hc1
  have hcv : c < vals[r].length := by omega
  rw [List.getElem_map, List.getElem_range]
  rw [getTile_set_tiles vals hr hc hwf]
  have hgetD : (vals.getD r []).getD c UNKNOWN = vals[r][c] := by
    rw [List.getD_eq_getElem?_getD vals r, List.getElem?_eq_getElem hrv, Option.getD_some,
      List.getD_eq_getElem?_getD _ c, List.getElem?_eq_getElem hcv, Option.getD_some]
  rw [hgetD]
  rcases hvalid vals[r] (List.getElem_mem hrv) vals[r][c] (List.getElem_mem hcv) with hv | hv
  · rw [hv, Tile.set_value_of_not_mem (by decide)]
  · rw [Tile.set_value_of_mem hv]

/-- **C9**: serialising any well-formed board with good tiles and loading
the result into a freshly constructed board reproduces the same serialised
grid. -/
theorem C9_roundtrip (b : Board) (hwf : b.wellFormed) (hg : b.goodTiles) :
    (Board.init.set_tiles b.as_list).as_list = b.as_list := by
  have hinit : Board.init.wellFormed := by decide
  refine as_list_set_tiles b.as_list hinit ?_ ?_ ?_
  · rw [as_list_eq_of_wf hwf]
    simp
  · rw [as_list_eq_of_wf hwf]
    intro row hrow
    obtain ⟨r, _, rfl⟩ := List.mem_map.mp hrow
    simp
  · rw [as_list_eq_of_wf hwf]
    intro row hrow
    obtain ⟨r, hr, rfl⟩ := List.mem_map.mp hrow
    intro v hv
    obtain ⟨c, hc, rfl⟩ := List.mem_map.mp hv
    exact (hg r (List.mem_range.mp hr) c (List.mem_range.mp hc)).2.2

/-- Witness for `C9_roundtrip` at the concrete board `rdL0`. -/
theorem C9_witness : (Board.init.set_tiles rdL0.as_list).as_list = rdL0.as_list :=
  C9_roundtrip rdL0 (by decide) (by decide)

theorem naked_single_wf (b : Board) (hwf : b.wellFormed) :
    ((b.naked_single).1).wellFormed := by
  unfold Board.naked_single
  refine foldl_preserves (P := fun bp : Board × Bool => bp.1.wellFormed) hwf ?_
  intro s g _ hs
  unfold Board.nakedGroupStep
  refine foldl_preserves (P := fun bp : Board × Bool => bp.1.wellFormed) hs ?_
  intro s2 rc _ hs2
  exact Board.wellFormed_addEvents _ (Board.wellFormed_putTile _ _ hs2)

theorem hidden_single_wf (b : Board) (hwf : b.wellFormed) :
    (b.hidden_single).wellFormed := by
  unfold Board.hidden_single
  refine foldl_preserves hwf ?_
  intro s g _ hs
  unfold Board.hiddenGroupStep
  have helim : ((s.hiddenEliminate g).1).wellFormed := by
    unfold Board.hiddenEliminate
    refine foldl_preserves (P := fun sp : Board × List Symb => sp.1.wellFormed) hs ?_
    intro s2 rc _ hs2
    dsimp only
    refine foldl_preserves hs2 ?_
    intro s3 rc2 _ hs3
    by_cases hne : rc2 ≠ rc
    · rw [if_pos hne]
      exact Board.wellFormed_putTile _ _ hs3
    · rw [if_neg hne]
      exact hs3
  refine foldl_preserves helim ?_
  intro s2 v _ hs2
  unfold Board.hiddenAssign
  by_cases hcount : ((g.filter (fun rc => (s2.getTile rc).value = UNKNOWN)).filter
      (fun rc => v ∈ (s2.getTile rc).candidates)).length = 1
  · rw [if_pos hcount]
    refine foldl_preserves hs2 ?_
    intro s3 rc _ hs3
    by_cases hvm : v ∈ (s3.getTile rc).candidates
    · rw [if_pos hvm]
      exact Board.wellFormed_putTile _ _ hs3
    · rw [if_neg hvm]
      exact hs3
  · rw [if_neg hcount]
    exact hs2

theorem propagateAux_wf : ∀ (fuel : Nat) (b : Board), b.wellFormed →
    (Board.propagateAux fuel b).wellFormed := by
  intro fuel
  induction fuel with
  | zero => exact fun b hwf => hwf
  | succ n ih =>
    intro b hwf
    rcases hnb : b.naked_single with ⟨b1, p⟩
    have hb1 : b1.wellFormed := by
      have := naked_single_wf b hwf
      rw [hnb] at this
      exact this
    rw [propagateAux_succ n hnb]
    by_cases hp : p = true
    · rw [if_pos hp]
      exact ih _ (hidden_single_wf b1 hb1)
    · rw [if_neg hp]
      exact hidden_single_wf b1 hb1

theorem propagate_wf {b : Board} (hwf : b.wellFormed) : (b.propagate).wellFormed :=
  propagateAux_wf _ b hwf

theorem tryCandidates_wf (recur : Board → Board × Bool)
    (hrec : ∀ x : Board, x.wellFormed → ((recur x).1).wellFormed)
    (saved : List (List Symb)) (rc : Nat × Nat) :
    ∀ (cands : List Symb) (b : Board), b.wellFormed →
      ((Board.tryCandidates recur saved rc cands b).1).wellFormed := by
  intro cands
  induction cands with
  | nil => exact fun b hwf => hwf
  | cons v rest ih =>
    intro b hwf
    show ((let res := recur (b.setTileValue rc v)
      if res.2 then (res.1, true)
      else Board.tryCandidates recur saved rc rest (res.1.set_tiles saved)).1).wellFormed
    have hres : ((recur (b.setTileValue rc v)).1).wellFormed :=
      hrec _ (Board.wellFormed_setTileValue rc v hwf)
    by_cases hok : (recur (b.setTileValue rc v)).2 = true
    · simp only [hok, if_true]
      exact hres
    · simp only [hok, if_false]
      rw [if_neg (by simpa using hok)]
      exact ih _ (Board.wellFormed_set_tiles saved hres)

theorem solveStep_wf (recur : Board → Board × Bool)
    (hrec : ∀ x : Board, x.wellFormed → ((recur x).1).wellFormed)
    (b : Board) (hwf : b.wellFormed) : ((Board.solveStep recur b).1).wellFormed := by
  have hbp : (b.propagate).wellFormed := propagate_wf hwf
  unfold Board.solveStep
  dsimp only
  generalize hgen : b.propagate = bp at hbp ⊢
  split_ifs with h1 h2
  · exact hbp
  · exact hbp
  · rcases hm : bp.min_choice_tile with _ | rc
    · exact hbp
    · exact tryCandidates_wf recur hrec _ rc _ _ hbp

theorem solveAux_succ (fuel : Nat) (b : Board) :
    Board.solveAux (fuel + 1) b = Board.solveStep (Board.solveAux fuel) b := rfl

theorem solveAux_wf : ∀ (fuel : Nat) (b : Board), b.wellFormed →
    ((Board.solveAux fuel b).1).wellFormed := by
  intro fuel
  induction fuel with
  | zero => exact fun b hwf => hwf
  | succ n ih =>
    intro b hwf
    rw [solveAux_succ]
    exact solveStep_wf _ (ih) b hwf

theorem as_list_shape_valid {b : Board} (hwf : b.wellFormed) (hg : b.goodTiles) :
    b.as_list.length = NROWS ∧ (∀ row ∈ b.as_list, row.length = NCOLS) ∧
    (∀ row ∈ b.as_list, ∀ v ∈ row, v = UNKNOWN ∨ v ∈ CHOICES) := by
  rw [as_list_eq_of_wf hwf]
  refine ⟨by simp, ?_, ?_⟩
  · intro row hrow
    obtain ⟨r, _, rfl⟩ := List.mem_map.mp hrow
    simp
  · intro row hrow
    obtain ⟨r, hr, rfl⟩ := List.mem_map.mp hrow
    intro v hv
    obtain ⟨c, hc, rfl⟩ := List.mem_map.mp hv
    exact (hg r (List.mem_range.mp hr) c (List.mem_range.mp hc)).2.2

theorem tryCandidates_fail (recur : Board → Board × Bool)
    (hrec : ∀ x : Board, x.wellFormed → ((recur x).1).wellFormed)
    (saved : List (List Symb)) (rc : Nat × Nat) {b' : Board} :
    ∀ (cands : List Symb) (b : Board), b.wellFormed →
      Board.tryCandidates recur saved rc cands b = (b', false) →
      b' = b ∨ ∃ b2 : Board, b2.wellFormed ∧ b' = b2.set_tiles saved := by
  intro cands
  induction cands with
  | nil =>
    intro b hwf h
    left
    exact ((Prod.mk.injEq .. ▸ h).1).symm
  | cons v rest ih =>
    intro b hwf h
    have hstep : Board.tryCandidates recur saved rc (v :: rest) b =
        (let res := recur (b.setTileValue rc v)
         if res.2 then (res.1, true)
         else Board.tryCandidates recur saved rc rest (res.1.set_tiles saved)) := rfl
    rw [hstep] at h
    dsimp only at h
    have hres : ((recur (b.setTileValue rc v)).1).wellFormed :=
      hrec _ (Board.wellFormed_setTileValue rc v hwf)
    by_cases hok : (recur (b.setTileValue rc v)).2 = true
    · rw [if_pos hok] at h
      exact absurd ((Prod.mk.injEq .. ▸ h).2) (by simp)
    · rw [if_neg hok] at h
      rcases ih _ (Board.wellFormed_set_tiles saved hres) h with h1 | h1
      · exact Or.inr ⟨(recur (b.setTileValue rc v)).1, hres, h1⟩
      · exact Or.inr h1

theorem tryCandidates_fail_as_list (fuel : Nat) (bp : Board)
    (hbpwf : bp.wellFormed) (hbpg : bp.goodTiles) (rc : Nat × Nat)
    (cands : List Symb) (b' : Board)
    (h : Board.tryCandidates (Board.solveAux fuel) bp.as_list rc cands bp = (b', false)) :
    b'.as_list = bp.as_list := by
  obtain ⟨hsl, hsr, hsv⟩ := as_list_shape_valid hbpwf hbpg
  rcases tryCandidates_fail (Board.solveAux fuel)
    (fun x hx => solveAux_wf fuel x hx) bp.as_list rc cands bp hbpwf h with heq | ⟨b2, hb2, heq⟩
  · exact congrArg Board.as_list heq
  · rw [heq]
    exact as_list_set_tiles bp.as_list hb2 hsl hsr hsv

/-- **C1 (amended)**: whenever a `solve` frame (with any recursion fuel
left) returns failure on a well-formed board with good tiles, the
serialized grid observed after the call equals the grid of the board
*after the frame's own propagation* — candidate guesses are rolled back via
`set_tiles`, but the mutations made by the frame's initial `propagate` run
(and the candidate-set narrowing, which the serialized grid does not even
record) are not undone, so the state generally differs from the one at the
moment of invocation. -/
theorem C1_amended_solve_fail_restores_to_propagated
    (fuel : Nat) (b b' : Board) (hwf : b.wellFormed) (hg : b.goodTiles)
    (h : Board.solveAux (fuel + 1) b = (b', false)) :
    b'.as_list = (b.propagate).as_list := by
  rw [solveAux_succ] at h
  have hbpwf : (b.propagate).wellFormed := propagate_wf hwf
  have hbpg : (b.propagate).goodTiles := (propagate_shape_good hwf hg).2
  unfold Board.solveStep at h
  dsimp only at h
  generalize hgen : b.propagate = bp at h hbpwf hbpg ⊢
  by_cases h1 : bp.is_complete = true
  · rw [if_pos h1] at h
    exact absurd ((Prod.mk.injEq .. ▸ h).2) (by simp)
  · rw [if_neg h1] at h
    by_cases h2 : (!bp.is_consistent) = true
    · rw [if_pos h2] at h
      have ha : bp = b' := congrArg Prod.fst h
      exact congrArg Board.as_list ha.symm
    · rw [if_neg h2] at h
      rcases hm : bp.min_choice_tile with _ | rc
      · rw [hm] at h
        dsimp only at h
        have ha : bp = b' := congrArg Prod.fst h
        exact congrArg Board.as_list ha.symm
      · rw [hm] at h
        dsimp only at h
        exact tryCandidates_fail_as_list fuel bp hbpwf hbpg rc _ b' h

theorem events_hiddenEliminate (b : Board) (g : List (Nat × Nat)) :
    (b.hiddenEliminate g).1.events = b.events := by
  unfold Board.hiddenEliminate
  refine foldl_preserves (P := fun acc : Board × List Symb => acc.1.events = b.events) rfl ?_
  intro s rc _ hs
  dsimp only
  refine Eq.trans ?_ hs
  refine foldl_preserves (P := fun b2 : Board => b2.events = s.1.events) rfl ?_
  intro b2 rc2 _ hb2
  dsimp only
  split_ifs with h
  · rw [Board.events_putTile, hb2]
  · exact hb2

theorem events_hiddenAssign (b : Board) (g : List (Nat × Nat)) (v : Symb) :
    (b.hiddenAssign g v).events = b.events := by
  unfold Board.hiddenAssign
  dsimp only
  split_ifs with h
  · refine foldl_preserves (P := fun b2 : Board => b2.events = b.events) rfl ?_
    intro b2 rc _ hb2
    dsimp only
    split_ifs with h2
    · rw [Board.events_putTile, hb2]
    · exact hb2
  · rfl

theorem events_hiddenGroupStep (b : Board) (g : List (Nat × Nat)) :
    (b.hiddenGroupStep g).events = b.events := by
  unfold Board.hiddenGroupStep
  refine Eq.trans ?_ (events_hiddenEliminate b g)
  refine foldl_preserves
    (P := fun b2 : Board => b2.events = (b.hiddenEliminate g).1.events) rfl ?_
  intro b2 v _ hb2
  rw [events_hiddenAssign, hb2]

theorem events_hidden_single (b : Board) : (b.hidden_single).events = b.events := by
  unfold Board.hidden_single
  refine foldl_preserves (P := fun b2 : Board => b2.events = b.events) rfl ?_
  intro b2 g _ hb2
  rw [events_hiddenGroupStep, hb2]

theorem assignFold_skip (v : Symb) :
    ∀ (l : List (Nat × Nat)) (b : Board),
      (∀ p ∈ l, v ∉ (b.getTile p).candidates) →
      l.foldl (fun b rc =>
        let t := b.getTile rc
        if v ∈ t.candidates then
          b.putTile rc { t with value := v, candidates := [v] }
        else b) b = b := by
  intro l
  induction l with
  | nil => intro b _; rfl
  | cons p l' ih =>
    intro b hb
    rw [List.foldl_cons]
    dsimp only
    rw [if_neg (hb p (by simp))]
    exact ih b (fun q hq => hb q (by simp [hq]))

theorem assignFold_fire (v : Symb) :
    ∀ (l : List (Nat × Nat)) (b : Board) (rc : Nat × Nat), l.Nodup →
      (∀ p ∈ l, p ≠ rc → v ∉ (b.getTile p).candidates) →
      rc ∈ l → v ∈ (b.getTile rc).candidates →
      l.foldl (fun b rc' =>
        let t := b.getTile rc'
        if v ∈ t.candidates then
          b.putTile rc' { t with value := v, candidates := [v] }
        else b) b =
        b.putTile rc { b.getTile rc with value := v, candidates := [v] } := by
  intro l
  induction l with
  | nil => intro b rc _ _ hmem; exact absurd hmem (by simp)
  | cons p l' ih =>
    intro b rc hnd hskip hmem hv
    rw [List.foldl_cons]
    dsimp only
    rcases eq_or_ne p rc with hp | hp
    · subst hp
      rw [if_pos hv]
      refine assignFold_skip v l' _ ?_
      intro q hq
      have hqne : q ≠ p := fun h => (List.nodup_cons.mp hnd).1 (h ▸ hq)
      rw [Board.getTile_putTile_ne hqne]
      exact hskip q (by simp [hq]) hqne
    · rw [if_neg (hskip p (by simp) hp)]
      refine ih b rc (List.nodup_cons.mp hnd).2
        (fun q hq hqne => hskip q (by simp [hq]) hqne) ?_ hv
      rcases List.mem_cons.mp hmem with h | h
      · exact absurd h.symm hp
      · exact h

theorem hiddenAssign_fire {b : Board} {g : List (Nat × Nat)} {v : Symb} {rc : Nat × Nat}
    (hnd : (g.filter (fun p => (b.getTile p).value = UNKNOWN)).Nodup)
    (hflt : (g.filter (fun p => (b.getTile p).value = UNKNOWN)).filter
      (fun p => v ∈ (b.getTile p).candidates) = [rc]) :
    b.hiddenAssign g v =
      b.putTile rc { b.getTile rc with value := v, candidates := [v] } := by
  unfold Board.hiddenAssign
  dsimp only
  rw [hflt]
  rw [if_pos (show ([rc] : List (Nat × Nat)).length = 1 from rfl)]
  have hrc : rc ∈ (g.filter (fun p => (b.getTile p).value = UNKNOWN)).filter
      (fun p => v ∈ (b.getTile p).candidates) := by
    rw [hflt]; exact List.mem_singleton.mpr rfl
  obtain ⟨hrcmem, hrccand⟩ := List.mem_filter.mp hrc
  refine assignFold_fire v _ b rc hnd ?_ hrcmem (of_decide_eq_true hrccand)
  intro p hp hpne hcand
  exact hpne (List.mem_singleton.mp (hflt ▸ List.mem_filter.mpr
    ⟨hp, decide_eq_true hcand⟩))

/-- **C4 (amended)**: in `hidden_single`, whenever exactly one
currently-unknown tile of a group still lists a symbol among its candidates,
that tile's value is set to the symbol and its candidates collapse to the
singleton — but *no* "tile changed" notification is emitted: the assignment
is a direct field write that bypasses `set_value`, and the whole
`hidden_single` pass leaves the event log unchanged. -/
theorem C4_amended_hidden_assignment_without_notification :
    (∀ b : Board, (Board.hidden_single b).events = b.events) ∧
    (∀ (b : Board) (g : List (Nat × Nat)) (v : Symb) (rc : Nat × Nat),
      b.wellFormed → rc.1 < NROWS → rc.2 < NCOLS →
      (g.filter (fun p => (b.getTile p).value = UNKNOWN)).Nodup →
      (g.filter (fun p => (b.getTile p).value = UNKNOWN)).filter
        (fun p => v ∈ (b.getTile p).candidates) = [rc] →
      ((b.hiddenAssign g v).getTile rc).value = v ∧
      ((b.hiddenAssign g v).getTile rc).candidates = [v] ∧
      (b.hiddenAssign g v).events = b.events) := by
  refine ⟨events_hidden_single, ?_⟩
  intro b g v rc hwf hr hc hnd hflt
  rw [hiddenAssign_fire hnd hflt]
  obtain ⟨r, c⟩ := rc
  refine ⟨?_, ?_, Board.events_putTile _ _ _⟩
  · rw [Board.getTile_putTile_self hwf hr hc]
  · rw [Board.getTile_putTile_self hwf hr hc]

/-- Witness for `C4_amended_hidden_assignment_without_notification`: on
`hsL5`, tile (0,0) is the only unknown tile of column group 0 listing `'1'`;
the forced placement fires and the event log is untouched. -/
theorem C4_amended_witness :
    ((Board.hiddenAssign hsL5 GRP0 '1').getTile (0, 0)).value = '1' ∧
    ((Board.hiddenAssign hsL5 GRP0 '1').getTile (0, 0)).candidates = ['1'] ∧
    (Board.hiddenAssign hsL5 GRP0 '1').events = hsL5.events :=
  C4_amended_hidden_assignment_without_notification.2 hsL5 GRP0 '1' (0, 0)
    (by decide) (by decide) (by decide) (by decide) (by decide)

/-- Every group is a duplicate-free list of coordinates. -/
theorem groups_nodup : ∀ g ∈ Board.groups, g.Nodup := by decide

theorem nodup_filter_map_update (rc : Nat × Nat) {f f' : Nat × Nat → Symb} :
    ∀ {g : List (Nat × Nat)}, g.Nodup →
      (∀ p ∈ g, p ≠ rc → f' p = f p) →
      ((g.map f).filter (fun v => v ∈ CHOICES)).Nodup →
      (f' rc ∉ CHOICES ∨ ∀ p ∈ g, p ≠ rc → f p ≠ f' rc) →
      ((g.map f').filter (fun v => v ∈ CHOICES)).Nodup := by
  intro g
  induction g with
  | nil => intro _ _ _ _; simp
  | cons p g' ih =>
    intro hnd hsame hfnd hfresh
    obtain ⟨hpn, hnd'⟩ := List.nodup_cons.mp hnd
    have hfresh' : f' rc ∉ CHOICES ∨ ∀ q ∈ g', q ≠ rc → f q ≠ f' rc := by
      rcases hfresh with h | h
      · exact Or.inl h
      · exact Or.inr (fun q hq hqr => h q (by simp [hq]) hqr)
    have htail : ((g'.map f).filter (fun v => v ∈ CHOICES)).Nodup := by
      simp only [List.map_cons, List.filter_cons] at hfnd
      by_cases hfc : f p ∈ CHOICES
      · rw [if_pos (by simpa using hfc)] at hfnd
        exact (List.nodup_cons.mp hfnd).2
      · rwa [if_neg (by simpa using hfc)] at hfnd
    rcases eq_or_ne p rc with hpr | hpr
    · subst hpr
      have hmap : g'.map f' = g'.map f := by
        refine List.map_congr_left ?_
        intro q hq
        exact hsame q (by simp [hq]) (fun h => hpn (h ▸ hq))
      simp only [List.map_cons, List.filter_cons, hmap]
      by_cases hfc : f' p ∈ CHOICES
      · rw [if_pos (by simpa using hfc)]
        refine List.nodup_cons.mpr ⟨?_, htail⟩
        intro hmem
        obtain ⟨hmem', _⟩ := List.mem_filter.mp hmem
        obtain ⟨q, hq, hfq⟩ := List.mem_map.mp hmem'
        rcases hfresh with h | h
        · exact h hfc
        · exact h q (by simp [hq]) (fun hqr => hpn (hqr ▸ hq)) hfq
      · rw [if_neg (by simpa using hfc)]
        exact htail
    · have hsp : f' p = f p := hsame p (by simp) hpr
      have hihres := ih hnd' (fun q hq hqr => hsame q (by simp [hq]) hqr) htail hfresh'
      simp only [List.map_cons, List.filter_cons, hsp]
      by_cases hfc : f p ∈ CHOICES
      · rw [if_pos (by simpa using hfc)]
        refine List.nodup_cons.mpr ⟨?_, hihres⟩
        intro hmem
        obtain ⟨hmem', hx⟩ := List.mem_filter.mp hmem
        obtain ⟨q, hq, hfq⟩ := List.mem_map.mp hmem'
        rcases eq_or_ne q rc with hqr | hqr
        · subst hqr
          rcases hfresh with h | h
          · exact h (by rw [← hfq] at hx; simpa using hx)
          · exact h p (by simp) hpr hfq.symm
        · have hfq' : f q = f p := by rw [← hsame q (by simp [hq]) hqr, hfq]
          have hfnd' : f p ∉ (g'.map f).filter (fun v => v ∈ CHOICES) := by
            simp only [List.map_cons, List.filter_cons] at hfnd
            rw [if_pos (by simpa using hfc)] at hfnd
            exact (List.nodup_cons.mp hfnd).1
          exact hfnd' (List.mem_filter.mpr
            ⟨hfq' ▸ List.mem_map.mpr ⟨q, hq, rfl⟩, by simpa using hfc⟩)
      · rw [if_neg (by simpa using hfc)]
        exact hihres

theorem putTile_same_value_consistent {b : Board} {rc : Nat × Nat} {t : Tile}
    (hwf : b.wellFormed) (hr : rc.1 < NROWS) (hc : rc.2 < NCOLS)
    (hv : t.value = (b.getTile rc).value) :
    (b.putTile rc t).is_consistent = b.is_consistent := by
  refine is_consistent_values_congr ?_
  intro g _ p hp
  rcases eq_or_ne p rc with hpr | hpr
  · subst hpr
    obtain ⟨r, c⟩ := p
    rw [Board.getTile_putTile_self hwf hr hc, hv]
  · rw [Board.getTile_putTile_ne hpr]

theorem getTile_setTileValue_self {b : Board} {rc : Nat × Nat} (v : Symb)
    (hwf : b.wellFormed) (hr : rc.1 < NROWS) (hc : rc.2 < NCOLS) :
    (b.setTileValue rc v).getTile rc = ((b.getTile rc).set_value v).1 := by
  unfold Board.setTileValue
  dsimp only
  rw [Board.getTile_addEvents]
  obtain ⟨r, c⟩ := rc
  exact Board.getTile_putTile_self hwf hr hc

theorem getTile_setTileValue_ne {b : Board} {rc p : Nat × Nat} (v : Symb)
    (hpr : p ≠ rc) : (b.setTileValue rc v).getTile p = b.getTile p := by
  unfold Board.setTileValue
  dsimp only
  rw [Board.getTile_addEvents, Board.getTile_putTile_ne hpr]

theorem setTileValue_consistent {b : Board} {rc : Nat × Nat} (v : Symb)
    (hwf : b.wellFormed) (hr : rc.1 < NROWS) (hc : rc.2 < NCOLS)
    (hcons : b.is_consistent = true)
    (hfresh : v ∈ CHOICES → ∀ g ∈ Board.groups, rc ∈ g → ∀ p ∈ g, p ≠ rc →
      (b.getTile p).value ≠ v) :
    (b.setTileValue rc v).is_consistent = true := by
  have hrcv : ((b.setTileValue rc v).getTile rc).value =
      if v ∈ CHOICES then v else UNKNOWN := by
    rw [getTile_setTileValue_self v hwf hr hc]
    by_cases hvc : v ∈ CHOICES
    · rw [Tile.set_value_of_mem hvc, if_pos hvc]
    · rw [Tile.set_value_of_not_mem hvc, if_neg hvc]
  have hvals : ∀ p ∈ (Board.groups).flatten, p ≠ rc →
      ((b.setTileValue rc v).getTile p).value = (b.getTile p).value := by
    intro p _ hpr
    rw [getTile_setTileValue_ne v hpr]
  rw [is_consistent_iff]
  intro g hg
  by_cases hrg : rc ∈ g
  · refine nodup_filter_map_update rc (groups_nodup g hg)
      (fun p hp hpr => hvals p (List.mem_flatten.mpr ⟨g, hg, hp⟩) hpr)
      ((is_consistent_iff b).mp hcons g hg) ?_
    by_cases hvc : v ∈ CHOICES
    · refine Or.inr ?_
      intro p hp hpr
      rw [hrcv, if_pos hvc]
      exact hfresh hvc g hg hrg p hp hpr
    · refine Or.inl ?_
      rw [hrcv, if_neg hvc]
      decide
  · have hmap : g.map (fun p => ((b.setTileValue rc v).getTile p).value) =
        g.map (fun p => (b.getTile p).value) := by
      refine List.map_congr_left ?_
      intro p hp
      exact congrArg Tile.value
        (getTile_setTileValue_ne v (fun h : p = rc => hrg (by rwa [h] at hp)))
    rw [hmap]
    exact (is_consistent_iff b).mp hcons g hg

/-- **C8 (counterexample)**: on `c8L0` the board is consistent, the removed
set `{'2'}` is a subset of the values already placed in the row group
containing tile (0,2), and the `remove_candidates` call leaves the candidate
set non-empty — yet consistency is destroyed: the call collapses the
candidates to `{'1'}` and commits value `'1'`, duplicating the `'1'` already
placed at (0,0) in the same row. -/
theorem C8_counterexample :
    c8L0.is_consistent = true ∧
    GRP9 ∈ Board.groups ∧ (0, 2) ∈ GRP9 ∧
    (∀ u ∈ (['2'] : List Symb),
      u ∈ (GRP9.map (fun rc => (c8L0.getTile rc).value)).filter
        (fun v => v ∈ CHOICES)) ∧
    ((c8L0.getTile (0, 2)).remove_candidates ['2']).1.candidates ≠ [] ∧
    (c8L0.putTile (0, 2)
      ((c8L0.getTile (0, 2)).remove_candidates ['2']).1).is_consistent = false := by
  exact ⟨by decide, by decide, by decide, by decide, by decide, by decide⟩

/-- **C8 (amended)**: on a well-formed consistent board, consistency *is*
preserved (a) by a `remove_candidates` call that leaves the tile's value
unchanged — in particular by any call that neither collapses the candidate
set to a single symbol nor empties it — and (b) by a `set_value` call whose
new value is not already placed at another position of any group containing
the tile.  The original claim's condition ("the used set is a subset of the
placed values and no candidate set is emptied") is insufficient: a
non-emptying collapse can commit a value that duplicates a placed one. -/
theorem C8_amended_consistency_preservation (b : Board) (rc : Nat × Nat)
    (hwf : b.wellFormed) (hr : rc.1 < NROWS) (hc : rc.2 < NCOLS)
    (hcons : b.is_consistent = true) :
    (∀ used : List Symb,
      ((b.getTile rc).remove_candidates used).1.value = (b.getTile rc).value →
      (b.putTile rc ((b.getTile rc).remove_candidates used).1).is_consistent = true) ∧
    (∀ v : Symb,
      (v ∈ CHOICES → ∀ g ∈ Board.groups, rc ∈ g → ∀ p ∈ g, p ≠ rc →
        (b.getTile p).value ≠ v) →
      (b.setTileValue rc v).is_consistent = true) := by
  constructor
  · intro used hval
    rw [putTile_same_value_consistent hwf hr hc hval]
    exact hcons
  · intro v hfresh
    exact setTileValue_consistent v hwf hr hc hcons hfresh

/-- Witness for `C8_amended_consistency_preservation`: on `c8L0`, removing
`{'3'}` from tile (0,2)'s candidates `{'1','2'}` changes nothing (value
unchanged), and consistency is preserved. -/
theorem C8_amended_witness :
    (c8L0.putTile (0, 2)
      ((c8L0.getTile (0, 2)).remove_candidates ['3']).1).is_consistent = true :=
  (C8_amended_consistency_preservation c8L0 (0, 2) (by decide) (by decide)
    (by decide) (by decide)).1 ['3'] (by decide)

-- ## Staged concrete evaluations --------------------------------------------


theorem groupsLit : Board.groups = [GRP0, GRP1, GRP2, GRP3, GRP4, GRP5, GRP6, GRP7, GRP8, GRP9, GRP10, GRP11, GRP12, GRP13, GRP14, GRP15, GRP16, GRP17, GRP18, GRP19, GRP20, GRP21, GRP22, GRP23, GRP24, GRP25, GRP26] := by decide

theorem rdnk0 : Board.nakedGroupStep (rdL0, false) GRP0 = (rdL1, true) := by decide

theorem rdnk1 : Board.nakedGroupStep (rdL1, true) GRP1 = (rdL2, true) := by decide

theorem rdnk2 : Board.nakedGroupStep (rdL2, true) GRP2 = (rdL2, true) := by decide

theorem rdnk3 : Board.nakedGroupStep (rdL2, true) GRP3 = (rdL2, true) := by decide

theorem rdnk4 : Board.nakedGroupStep (rdL2, true) GRP4 = (rdL2, true) := by decide

theorem rdnk5 : Board.nakedGroupStep (rdL2, true) GRP5 = (rdL2, true) := by decide

theorem rdnk6 : Board.nakedGroupStep (rdL2, true) GRP6 = (rdL2, true) := by decide

theorem rdnk7 : Board.nakedGroupStep (rdL2, true) GRP7 = (rdL2, true) := by decide

theorem rdnk8 : Board.nakedGroupStep (rdL2, true) GRP8 = (rdL2, true) := by decide

theorem rdnk9 : Board.nakedGroupStep (rdL2, true) GRP9 = (rdL3, true) := by decide

theorem rdnk10 : Board.nakedGroupStep (rdL3, true) GRP10 = (rdL3, true) := by decide

theorem rdnk11 : Board.nakedGroupStep (rdL3, true) GRP11 = (rdL3, true) := by decide

theorem rdnk12 : Board.nakedGroupStep (rdL3, true) GRP12 = (rdL3, true) := by decide

theorem rdnk13 : Board.nakedGroupStep (rdL3, true) GRP13 = (rdL3, true) := by decide

theorem rdnk14 : Board.nakedGroupStep (rdL3, true) GRP14 = (rdL3, true) := by decide

theorem rdnk15 : Board.nakedGroupStep (rdL3, true) GRP15 = (rdL3, true) := by decide

theorem rdnk16 : Board.nakedGroupStep (rdL3, true) GRP16 = (rdL3, true) := by decide

theorem rdnk17 : Board.nakedGroupStep (rdL3, true) GRP17 = (rdL3, true) := by decide

theorem rdnk18 : Board.nakedGroupStep (rdL3, true) GRP18 = (rdL4, true) := by decide

theorem rdnk19 : Board.nakedGroupStep (rdL4, true) GRP19 = (rdL4, true) := by decide

theorem rdnk20 : Board.nakedGroupStep (rdL4, true) GRP20 = (rdL4, true) := by decide

theorem rdnk21 : Board.nakedGroupStep (rdL4, true) GRP21 = (rdL4, true) := by decide

theorem rdnk22 : Board.nakedGroupStep (rdL4, true) GRP22 = (rdL4, true) := by decide

theorem rdnk23 : Board.nakedGroupStep (rdL4, true) GRP23 = (rdL4, true) := by decide

theorem rdnk24 : Board.nakedGroupStep (rdL4, true) GRP24 = (rdL4, true) := by decide

theorem rdnk25 : Board.nakedGroupStep (rdL4, true) GRP25 = (rdL4, true) := by decide

theorem rdnk26 : Board.nakedGroupStep (rdL4, true) GRP26 = (rdL4, true) := by decide

/-- Staged evaluation of one full naked-single pass. -/
theorem rdnaked : Board.naked_single rdL0 = (rdL4, true) := by
  show Board.groups.foldl Board.nakedGroupStep (rdL0, false) = (rdL4, true)
  rw [groupsLit]
  simp only [List.foldl_cons, List.foldl_nil]
  rw [rdnk0, rdnk1, rdnk2, rdnk3, rdnk4, rdnk5, rdnk6, rdnk7, rdnk8, rdnk9, rdnk10, rdnk11, rdnk12, rdnk13, rdnk14, rdnk15, rdnk16, rdnk17, rdnk18, rdnk19, rdnk20, rdnk21, rdnk22, rdnk23, rdnk24, rdnk25, rdnk26]

theorem rdhd0 : Board.hiddenGroupStep rdL4 GRP0 = rdL4 := by decide

theorem rdhd1 : Board.hiddenGroupStep rdL4 GRP1 = rdL4 := by decide

theorem rdhd2 : Board.hiddenGroupStep rdL4 GRP2 = rdL4 := by decide

theorem rdhd3 : Board.hiddenGroupStep rdL4 GRP3 = rdL4 := by decide

theorem rdhd4 : Board.hiddenGroupStep rdL4 GRP4 = rdL4 := by decide

theorem rdhd5 : Board.hiddenGroupStep rdL4 GRP5 = rdL4 := by decide

theorem rdhd6 : Board.hiddenGroupStep rdL4 GRP6 = rdL4 := by decide

theorem rdhd7 : Board.hiddenGroupStep rdL4 GRP7 = rdL4 := by decide

theorem rdhd8 : Board.hiddenGroupStep rdL4 GRP8 = rdL4 := by decide

theorem rdhd9 : Board.hiddenGroupStep rdL4 GRP9 = rdL4 := by decide

theorem rdhd10 : Board.hiddenGroupStep rdL4 GRP10 = rdL4 := by decide

theorem rdhd11 : Board.hiddenGroupStep rdL4 GRP11 = rdL4 := by decide

theorem rdhd12 : Board.hiddenGroupStep rdL4 GRP12 = rdL4 := by decide

theorem rdhd13 : Board.hiddenGroupStep rdL4 GRP13 = rdL4 := by decide

theorem rdhd14 : Board.hiddenGroupStep rdL4 GRP14 = rdL4 := by decide

theorem rdhd15 : Board.hiddenGroupStep rdL4 GRP15 = rdL4 := by decide

theorem rdhd16 : Board.hiddenGroupStep rdL4 GRP16 = rdL4 := by decide

theorem rdhd17 : Board.hiddenGroupStep rdL4 GRP17 = rdL4 := by decide

theorem rdhd18 : Board.hiddenGroupStep rdL4 GRP18 = rdL4 := by decide

theorem rdhd19 : Board.hiddenGroupStep rdL4 GRP19 = rdL4 := by decide

theorem rdhd20 : Board.hiddenGroupStep rdL4 GRP20 = rdL4 := by decide

theorem rdhd21 : Board.hiddenGroupStep rdL4 GRP21 = rdL4 := by decide

theorem rdhd22 : Board.hiddenGroupStep rdL4 GRP22 = rdL4 := by decide

theorem rdhd23 : Board.hiddenGroupStep rdL4 GRP23 = rdL4 := by decide

theorem rdhd24 : Board.hiddenGroupStep rdL4 GRP24 = rdL4 := by decide

theorem rdhd25 : Board.hiddenGroupStep rdL4 GRP25 = rdL4 := by decide

theorem rdhd26 : Board.hiddenGroupStep rdL4 GRP26 = rdL4 := by decide

/-- Staged evaluation of one full hidden-single pass. -/
theorem rdhidden : Board.hidden_single rdL4 = rdL4 := by
  show Board.groups.foldl Board.hiddenGroupStep rdL4 = rdL4
  rw [groupsLit]
  simp only [List.foldl_cons, List.foldl_nil]
  rw [rdhd0, rdhd1, rdhd2, rdhd3, rdhd4, rdhd5, rdhd6, rdhd7, rdhd8, rdhd9, rdhd10, rdhd11, rdhd12, rdhd13, rdhd14, rdhd15, rdhd16, rdhd17, rdhd18, rdhd19, rdhd20, rdhd21, rdhd22, rdhd23, rdhd24, rdhd25, rdhd26]

theorem renk0 : Board.nakedGroupStep (rdL4, false) GRP0 = (rdL4, false) := by decide

theorem renk1 : Board.nakedGroupStep (rdL4, false) GRP1 = (rdL4, false) := by decide

theorem renk2 : Board.nakedGroupStep (rdL4, false) GRP2 = (rdL4, false) := by decide

theorem renk3 : Board.nakedGroupStep (rdL4, false) GRP3 = (rdL4, false) := by decide

theorem renk4 : Board.nakedGroupStep (rdL4, false) GRP4 = (rdL4, false) := by decide

theorem renk5 : Board.nakedGroupStep (rdL4, false) GRP5 = (rdL4, false) := by decide

theorem renk6 : Board.nakedGroupStep (rdL4, false) GRP6 = (rdL4, false) := by decide

theorem renk7 : Board.nakedGroupStep (rdL4, false) GRP7 = (rdL4, false) := by decide

theorem renk8 : Board.nakedGroupStep (rdL4, false) GRP8 = (rdL4, false) := by decide

theorem renk9 : Board.nakedGroupStep (rdL4, false) GRP9 = (rdL4, false) := by decide

theorem renk10 : Board.nakedGroupStep (rdL4, false) GRP10 = (rdL4, false) := by decide

theorem renk11 : Board.nakedGroupStep (rdL4, false) GRP11 = (rdL4, false) := by decide

theorem renk12 : Board.nakedGroupStep (rdL4, false) GRP12 = (rdL4, false) := by decide

theorem renk13 : Board.nakedGroupStep (rdL4, false) GRP13 = (rdL4, false) := by decide

theorem renk14 : Board.nakedGroupStep (rdL4, false) GRP14 = (rdL4, false) := by decide

theorem renk15 : Board.nakedGroupStep (rdL4, false) GRP15 = (rdL4, false) := by decide

theorem renk16 : Board.nakedGroupStep (rdL4, false) GRP16 = (rdL4, false) := by decide

theorem renk17 : Board.nakedGroupStep (rdL4, false) GRP17 = (rdL4, false) := by decide

theorem renk18 : Board.nakedGroupStep (rdL4, false) GRP18 = (rdL4, false) := by decide

theorem renk19 : Board.nakedGroupStep (rdL4, false) GRP19 = (rdL4, false) := by decide

theorem renk20 : Board.nakedGroupStep (rdL4, false) GRP20 = (rdL4, false) := by decide

theorem renk21 : Board.nakedGroupStep (rdL4, false) GRP21 = (rdL4, false) := by decide

theorem renk22 : Board.nakedGroupStep (rdL4, false) GRP22 = (rdL4, false) := by decide

theorem renk23 : Board.nakedGroupStep (rdL4, false) GRP23 = (rdL4, false) := by decide

theorem renk24 : Board.nakedGroupStep (rdL4, false) GRP24 = (rdL4, false) := by decide

theorem renk25 : Board.nakedGroupStep (rdL4, false) GRP25 = (rdL4, false) := by decide

theorem renk26 : Board.nakedGroupStep (rdL4, false) GRP26 = (rdL4, false) := by decide

/-- Staged evaluation of one full naked-single pass. -/
theorem renaked : Board.naked_single rdL4 = (rdL4, false) := by
  show Board.groups.foldl Board.nakedGroupStep (rdL4, false) = (rdL4, false)
  rw [groupsLit]
  simp only [List.foldl_cons, List.foldl_nil]
  rw [renk0, renk1, renk2, renk3, renk4, renk5, renk6, renk7, renk8, renk9, renk10, renk11, renk12, renk13, renk14, renk15, renk16, renk17, renk18, renk19, renk20, renk21, renk22, renk23, renk24, renk25, renk26]

theorem hsnk0 : Board.nakedGroupStep (hsL5, false) GRP0 = (hsL5, false) := by decide

theorem hsnk1 : Board.nakedGroupStep (hsL5, false) GRP1 = (hsL5, false) := by decide

theorem hsnk2 : Board.nakedGroupStep (hsL5, false) GRP2 = (hsL5, false) := by decide

theorem hsnk3 : Board.nakedGroupStep (hsL5, false) GRP3 = (hsL5, false) := by decide

theorem hsnk4 : Board.nakedGroupStep (hsL5, false) GRP4 = (hsL5, false) := by decide

theorem hsnk5 : Board.nakedGroupStep (hsL5, false) GRP5 = (hsL5, false) := by decide

theorem hsnk6 : Board.nakedGroupStep (hsL5, false) GRP6 = (hsL5, false) := by decide

theorem hsnk7 : Board.nakedGroupStep (hsL5, false) GRP7 = (hsL5, false) := by decide

theorem hsnk8 : Board.nakedGroupStep (hsL5, false) GRP8 = (hsL5, false) := by decide

theorem hsnk9 : Board.nakedGroupStep (hsL5, false) GRP9 = (hsL5, false) := by decide

theorem hsnk10 : Board.nakedGroupStep (hsL5, false) GRP10 = (hsL5, false) := by decide

theorem hsnk11 : Board.nakedGroupStep (hsL5, false) GRP11 = (hsL5, false) := by decide

theorem hsnk12 : Board.nakedGroupStep (hsL5, false) GRP12 = (hsL5, false) := by decide

theorem hsnk13 : Board.nakedGroupStep (hsL5, false) GRP13 = (hsL5, false) := by decide

theorem hsnk14 : Board.nakedGroupStep (hsL5, false) GRP14 = (hsL5, false) := by decide

theorem hsnk15 : Board.nakedGroupStep (hsL5, false) GRP15 = (hsL5, false) := by decide

theorem hsnk16 : Board.nakedGroupStep (hsL5, false) GRP16 = (hsL5, false) := by decide

theorem hsnk17 : Board.nakedGroupStep (hsL5, false) GRP17 = (hsL5, false) := by decide

theorem hsnk18 : Board.nakedGroupStep (hsL5, false) GRP18 = (hsL5, false) := by decide

theorem hsnk19 : Board.nakedGroupStep (hsL5, false) GRP19 = (hsL5, false) := by decide

theorem hsnk20 : Board.nakedGroupStep (hsL5, false) GRP20 = (hsL5, false) := by decide

theorem hsnk21 : Board.nakedGroupStep (hsL5, false) GRP21 = (hsL5, false) := by decide

theorem hsnk22 : Board.nakedGroupStep (hsL5, false) GRP22 = (hsL5, false) := by decide

theorem hsnk23 : Board.nakedGroupStep (hsL5, false) GRP23 = (hsL5, false) := by decide

theorem hsnk24 : Board.nakedGroupStep (hsL5, false) GRP24 = (hsL5, false) := by decide

theorem hsnk25 : Board.nakedGroupStep (hsL5, false) GRP25 = (hsL5, false) := by decide

theorem hsnk26 : Board.nakedGroupStep (hsL5, false) GRP26 = (hsL5, false) := by decide

/-- Staged evaluation of one full naked-single pass. -/
theorem hsnaked : Board.naked_single hsL5 = (hsL5, false) := by
  show Board.groups.foldl Board.nakedGroupStep (hsL5, false) = (hsL5, false)
  rw [groupsLit]
  simp only [List.foldl_cons, List.foldl_nil]
  rw [hsnk0, hsnk1, hsnk2, hsnk3, hsnk4, hsnk5, hsnk6, hsnk7, hsnk8, hsnk9, hsnk10, hsnk11, hsnk12, hsnk13, hsnk14, hsnk15, hsnk16, hsnk17, hsnk18, hsnk19, hsnk20, hsnk21, hsnk22, hsnk23, hsnk24, hsnk25, hsnk26]

theorem hshd0 : Board.hiddenGroupStep hsL5 GRP0 = hsL6 := by decide

theorem hshd1 : Board.hiddenGroupStep hsL6 GRP1 = hsL6 := by decide

theorem hshd2 : Board.hiddenGroupStep hsL6 GRP2 = hsL6 := by decide

theorem hshd3 : Board.hiddenGroupStep hsL6 GRP3 = hsL6 := by decide

theorem hshd4 : Board.hiddenGroupStep hsL6 GRP4 = hsL6 := by decide

theorem hshd5 : Board.hiddenGroupStep hsL6 GRP5 = hsL6 := by decide

theorem hshd6 : Board.hiddenGroupStep hsL6 GRP6 = hsL6 := by decide

theorem hshd7 : Board.hiddenGroupStep hsL6 GRP7 = hsL6 := by decide

theorem hshd8 : Board.hiddenGroupStep hsL6 GRP8 = hsL6 := by decide

theorem hshd9 : Board.hiddenGroupStep hsL6 GRP9 = hsL7 := by decide

theorem hshd10 : Board.hiddenGroupStep hsL7 GRP10 = hsL7 := by decide

theorem hshd11 : Board.hiddenGroupStep hsL7 GRP11 = hsL7 := by decide

theorem hshd12 : Board.hiddenGroupStep hsL7 GRP12 = hsL7 := by decide

theorem hshd13 : Board.hiddenGroupStep hsL7 GRP13 = hsL7 := by decide

theorem hshd14 : Board.hiddenGroupStep hsL7 GRP14 = hsL7 := by decide

theorem hshd15 : Board.hiddenGroupStep hsL7 GRP15 = hsL7 := by decide

theorem hshd16 : Board.hiddenGroupStep hsL7 GRP16 = hsL7 := by decide

theorem hshd17 : Board.hiddenGroupStep hsL7 GRP17 = hsL7 := by decide

theorem hshd18 : Board.hiddenGroupStep hsL7 GRP18 = hsL8 := by decide

theorem hshd19 : Board.hiddenGroupStep hsL8 GRP19 = hsL8 := by decide

theorem hshd20 : Board.hiddenGroupStep hsL8 GRP20 = hsL8 := by decide

theorem hshd21 : Board.hiddenGroupStep hsL8 GRP21 = hsL8 := by decide

theorem hshd22 : Board.hiddenGroupStep hsL8 GRP22 = hsL8 := by decide

theorem hshd23 : Board.hiddenGroupStep hsL8 GRP23 = hsL8 := by decide

theorem hshd24 : Board.hiddenGroupStep hsL8 GRP24 = hsL8 := by decide

theorem hshd25 : Board.hiddenGroupStep hsL8 GRP25 = hsL8 := by decide

theorem hshd26 : Board.hiddenGroupStep hsL8 GRP26 = hsL8 := by decide

/-- Staged evaluation of one full hidden-single pass. -/
theorem hshidden : Board.hidden_single hsL5 = hsL8 := by
  show Board.groups.foldl Board.hiddenGroupStep hsL5 = hsL8
  rw [groupsLit]
  simp only [List.foldl_cons, List.foldl_nil]
  rw [hshd0, hshd1, hshd2, hshd3, hshd4, hshd5, hshd6, hshd7, hshd8, hshd9, hshd10, hshd11, hshd12, hshd13, hshd14, hshd15, hshd16, hshd17, hshd18, hshd19, hshd20, hshd21, hshd22, hshd23, hshd24, hshd25, hshd26]

theorem onnk0 : Board.nakedGroupStep (onL9, false) GRP0 = (onL10, true) := by decide

theorem onnk1 : Board.nakedGroupStep (onL10, true) GRP1 = (onL10, true) := by decide

theorem onnk2 : Board.nakedGroupStep (onL10, true) GRP2 = (onL10, true) := by decide

theorem onnk3 : Board.nakedGroupStep (onL10, true) GRP3 = (onL10, true) := by decide

theorem onnk4 : Board.nakedGroupStep (onL10, true) GRP4 = (onL10, true) := by decide

theorem onnk5 : Board.nakedGroupStep (onL10, true) GRP5 = (onL10, true) := by decide

theorem onnk6 : Board.nakedGroupStep (onL10, true) GRP6 = (onL10, true) := by decide

theorem onnk7 : Board.nakedGroupStep (onL10, true) GRP7 = (onL10, true) := by decide

theorem onnk8 : Board.nakedGroupStep (onL10, true) GRP8 = (onL10, true) := by decide

theorem onnk9 : Board.nakedGroupStep (onL10, true) GRP9 = (onL11, true) := by decide

theorem onnk10 : Board.nakedGroupStep (onL11, true) GRP10 = (onL11, true) := by decide

theorem onnk11 : Board.nakedGroupStep (onL11, true) GRP11 = (onL11, true) := by decide

theorem onnk12 : Board.nakedGroupStep (onL11, true) GRP12 = (onL11, true) := by decide

theorem onnk13 : Board.nakedGroupStep (onL11, true) GRP13 = (onL11, true) := by decide

theorem onnk14 : Board.nakedGroupStep (onL11, true) GRP14 = (onL11, true) := by decide

theorem onnk15 : Board.nakedGroupStep (onL11, true) GRP15 = (onL11, true) := by decide

theorem onnk16 : Board.nakedGroupStep (onL11, true) GRP16 = (onL11, true) := by decide

theorem onnk17 : Board.nakedGroupStep (onL11, true) GRP17 = (onL11, true) := by decide

theorem onnk18 : Board.nakedGroupStep (onL11, true) GRP18 = (onL12, true) := by decide

theorem onnk19 : Board.nakedGroupStep (onL12, true) GRP19 = (onL12, true) := by decide

theorem onnk20 : Board.nakedGroupStep (onL12, true) GRP20 = (onL12, true) := by decide

theorem onnk21 : Board.nakedGroupStep (onL12, true) GRP21 = (onL12, true) := by decide

theorem onnk22 : Board.nakedGroupStep (onL12, true) GRP22 = (onL12, true) := by decide

theorem onnk23 : Board.nakedGroupStep (onL12, true) GRP23 = (onL12, true) := by decide

theorem onnk24 : Board.nakedGroupStep (onL12, true) GRP24 = (onL12, true) := by decide

theorem onnk25 : Board.nakedGroupStep (onL12, true) GRP25 = (onL12, true) := by decide

theorem onnk26 : Board.nakedGroupStep (onL12, true) GRP26 = (onL12, true) := by decide

/-- Staged evaluation of one full naked-single pass. -/
theorem onnaked : Board.naked_single onL9 = (onL12, true) := by
  show Board.groups.foldl Board.nakedGroupStep (onL9, false) = (onL12, true)
  rw [groupsLit]
  simp only [List.foldl_cons, List.foldl_nil]
  rw [onnk0, onnk1, onnk2, onnk3, onnk4, onnk5, onnk6, onnk7, onnk8, onnk9, onnk10, onnk11, onnk12, onnk13, onnk14, onnk15, onnk16, onnk17, onnk18, onnk19, onnk20, onnk21, onnk22, onnk23, onnk24, onnk25, onnk26]

-- ## Assembly of the staged evaluations ---------------------------------------

theorem propagateSpecAux_succ (fuel : Nat) {b b1 : Board} {p : Bool}
    (h : b.naked_single = (b1, p)) :
    Board.propagateSpecAux (fuel + 1) b =
      if p then Board.propagateSpecAux fuel b1.hidden_single else b1 := by
  simp only [Board.propagateSpecAux, h]

theorem rdpropagate : Board.propagate rdL0 = rdL4 := by
  have hwf4 : rdL4.wellFormed := by decide
  have hg4 : rdL4.goodTiles := by decide
  have hfuel : rdL4.totalCand < rdL0.totalCand := by decide
  show Board.propagateAux (rdL0.totalCand + 1) rdL0 = rdL4
  rw [propagateAux_succ rdL0.totalCand rdnaked, if_pos rfl, rdhidden,
    propagateAux_fuel_irrelevant rdL4.totalCand rdL4 rdL0.totalCand (rdL4.totalCand + 1)
      hwf4 hg4 (Nat.le_refl _) hfuel (Nat.lt_succ_self _),
    propagateAux_succ rdL4.totalCand renaked, if_neg Bool.false_ne_true]
  exact rdhidden

theorem solveStep_fail_of_inconsistent {b bp : Board} (recur : Board → Board × Bool)
    (h : b.propagate = bp) (h1 : bp.is_complete = false) (h2 : bp.is_consistent = false) :
    Board.solveStep recur b = (bp, false) := by
  simp [Board.solveStep, h, h1, h2]

theorem rdsolve : Board.solve rdL0 = (rdL4, false) := by
  show Board.solveAux (NROWS * NCOLS + 1) rdL0 = (rdL4, false)
  rw [solveAux_succ]
  exact solveStep_fail_of_inconsistent _ rdpropagate (by decide) (by decide)

theorem hspropagate : Board.propagate hsL5 = hsL8 := by
  show Board.propagateAux (hsL5.totalCand + 1) hsL5 = hsL8
  rw [propagateAux_succ hsL5.totalCand hsnaked, if_neg Bool.false_ne_true]
  exact hshidden

theorem hsspec : Board.propagateSpec hsL5 = hsL5 := by
  show Board.propagateSpecAux (hsL5.totalCand + 1) hsL5 = hsL5
  rw [propagateSpecAux_succ hsL5.totalCand hsnaked, if_neg Bool.false_ne_true]

-- ## Claims --------------------------------------------------------------------

/-- **C1 (counterexample)**: `solve` on the board whose first row is
`11.......` (all other tiles unknown) returns failure, yet the tile matrix
observable after the call differs from the one at the invocation: the
propagation run by the failed frame leaves its mutations behind (here, the
candidate sets — e.g. tile (0,0) ends with `[]` instead of `['1']`). -/
theorem C1_counterexample :
    (Board.solve rdL0).2 = false ∧ (Board.solve rdL0).1.tiles ≠ rdL0.tiles ∧
    ((Board.solve rdL0).1.getTile (0, 0)).candidates = [] ∧
    (rdL0.getTile (0, 0)).candidates = ['1'] := by
  rw [rdsolve]
  exact ⟨rfl, by decide, by decide, by decide⟩

/-- **C2 (failing input)**: on the board with the single placed value `'1'`
at (0,0) — which satisfies the candidate invariant — one `naked_single`
pass leaves tile (0,0) with value `'1'` but an empty candidate set, because
`remove_candidates` is called on every tile of each group, including the
placed ones, and removes the tile's own value.  The claimed invariant
`value ∈ CHOICES ⟺ candidates = [value]` is violated by the code. -/
theorem C2_naked_single_breaks_candidate_invariant :
    Board.good onL9 ∧
    (onL9.getTile (0, 0)).value = '1' ∧ (onL9.getTile (0, 0)).candidates = ['1'] ∧
    ((Board.naked_single onL9).1.getTile (0, 0)).value = '1' ∧
    ((Board.naked_single onL9).1.getTile (0, 0)).candidates = [] := by
  rw [onnaked]
  exact ⟨by decide, by decide, by decide, by decide, by decide⟩

/-- **C3 (counterexample)**: the loop body of `propagate` runs
`hidden_single` unconditionally, also on the pass in which `naked_single`
reports no progress.  On `hsL5`, `naked_single` makes no progress, so the
claimed loop (`Board.propagateSpec`, built from the claim's wording) stops
immediately; but the code's `propagate` still runs `hidden_single`, which
places `'1'` at tile (0,0). -/
theorem C3_counterexample :
    Board.naked_single hsL5 = (hsL5, false) ∧
    Board.propagate hsL5 ≠ Board.propagateSpec hsL5 ∧
    ((Board.propagate hsL5).getTile (0, 0)).value = '1' ∧
    ((Board.propagateSpec hsL5).getTile (0, 0)).value = UNKNOWN := by
  rw [hspropagate, hsspec]
  exact ⟨hsnaked, by decide, by decide, by decide⟩

/-- **C3 (amended)**: `propagate` iterates `naked_single`; it runs
`hidden_single` unconditionally in every iteration — including the final
iteration whose `naked_single` pass reports no progress — and exits when
`naked_single` reports no progress, returning the board produced by that
final `hidden_single` run. -/
theorem C3_amended_hidden_runs_after_final_pass :
    ∀ b b1 : Board, b.naked_single = (b1, false) → b.propagate = b1.hidden_single :=
  fun _ _ h => propagate_of_no_progress h

/-- Witness for `C3_amended_hidden_runs_after_final_pass` at the concrete
board `hsL5`. -/
theorem C3_amended_witness : Board.propagate hsL5 = Board.hidden_single hsL5 :=
  C3_amended_hidden_runs_after_final_pass hsL5 hsL5 hsnaked

/-- **C4 (counterexample)**: on `hsL5`, the hidden-single tactic fires (tile
(0,0) is the only tile of column 0 still listing `'1'`): the tile's value is
set and its candidates collapse, but *no* "tile changed" notification is
emitted — the assignment in the source is a direct field write that bypasses
`set_value` and `notify_all`, so the event log is unchanged. -/
theorem C4_counterexample :
    (hsL5.getTile (0, 0)).value = UNKNOWN ∧
    ((Board.hidden_single hsL5).getTile (0, 0)).value = '1' ∧
    ((Board.hidden_single hsL5).getTile (0, 0)).candidates = ['1'] ∧
    (Board.hidden_single hsL5).events = hsL5.events := by
  rw [hshidden]
  exact ⟨by decide, by decide, by decide, by decide⟩

/-- Witness for `C1_amended_solve_fail_restores_to_propagated`: the failing
solve run on `rdL0` returns `rdL4`, whose grid equals the grid of
`rdL0.propagate`. -/
theorem C1_amended_witness : rdL4.as_list = (Board.propagate rdL0).as_list :=
  C1_amended_solve_fail_restores_to_propagated (NROWS * NCOLS) rdL0 rdL4
    (by decide) (by decide) rdsolve
